import Mathlib

/-!
# Box layout of `xhtml` (block width algorithm, float queries, tree formatter)

A shallow embedding of `src/xhtml/xhtml_layout.cpp`, of the length resolver and the
font-size table of `src/xhtml/css_styles.cpp`, and of the text boxes and inline-block boxes
of `src/xhtml/xhtml_text_box.cpp` and `src/xhtml/xhtml_inline_block_box.cpp`.

* `FixedPoint` is the source's integer geometry type. It is embedded as `Int`:
  signed overflow is undefined behaviour in the source and is outside the model.
* The source's `/` on `FixedPoint` is C++ integer division, which truncates
  towards zero: it is embedded as `Int.tdiv`.
* Boxes are values. The source mutates boxes through shared pointers; here every
  mutator returns the updated box and the traversal threads the boxes through.
  The weak `parent_` back-reference is not stored; where the source reads through
  it (the `TextBox` constructor) the parent is passed explicitly.
* `ASSERT_LOG(false, ...)` aborts the pass; it is embedded as `Except.error`.
* `double` is embedded as `ℚ`. The arithmetic of the length resolver is exact: its formulas
  are continuous and the rounding of binary floating point is outside the model. The
  font-size table takes `std::ceil` of its products, where rounding can move a value across
  an integer, so there each operation is rounded as binary64 does (`css.roundDouble`).
* `root_` is an address in the source. The box behind it carries the flag `isRoot_`, and
  its fixed boxes, which are written through `root_` from every depth, live in the engine.
* A function-local `static` (the font-size table) is state: it is passed in and handed back.
-/

namespace css

/-- The `CssDisplay` enumeration, as enumerated by `display_string`. -/
inductive CssDisplay where
  | BLOCK | INLINE | INLINE_BLOCK | LIST_ITEM | TABLE | INLINE_TABLE
  | TABLE_ROW_GROUP | TABLE_HEADER_GROUP | TABLE_FOOTER_GROUP | TABLE_ROW
  | TABLE_COLUMN_GROUP | TABLE_COLUMN | TABLE_CELL | TABLE_CAPTION | NONE
  deriving DecidableEq, Repr

/-- The `CssPosition` enumeration (CSS2 `position`); the source tests `ABSOLUTE` and `FIXED`. -/
inductive CssPosition where
  | STATIC | RELATIVE | ABSOLUTE | FIXED
  deriving DecidableEq, Repr

/-- The `CssFloat` enumeration (CSS2 `float`). -/
inductive CssFloat where
  | NONE | LEFT | RIGHT
  deriving DecidableEq, Repr

/-- The `TextAlign` enumeration, as switched on by `TextBox::postParentLayout`. -/
inductive TextAlign where
  | NORMAL | LEFT | RIGHT | CENTER | JUSTIFY
  deriving DecidableEq, Repr

/-- The `Direction` enumeration. -/
inductive Direction where
  | LTR | RTL
  deriving DecidableEq, Repr

/-- The `CssVerticalAlign` enumeration, as switched on by `TextBox::postParentLayout`. -/
inductive CssVerticalAlign where
  | BASELINE | MIDDLE | BOTTOM | SUB | SUPER | TOP | TEXT_TOP | TEXT_BOTTOM | LENGTH
  deriving DecidableEq, Repr

end css

namespace xhtml

open css

/-- The source's `FixedPoint`: a signed integer with 65536 subunits per unit. -/
abbrev FixedPoint := Int

/-- The constant `fixed_point_scale`. -/
def fixed_point_scale : Int := 65536

/-- The class `Length` is declared in a header that is not part of the sources; only its
resolver is used by the layout code. `compute ref` is `Length::compute(ref)` and `compute0`
is the argument-less call `Length::compute()`. Both are parameters of the model. -/
structure Length where
  compute : FixedPoint → FixedPoint
  compute0 : FixedPoint

/-- The class `Width`: either the keyword `auto` or a length. -/
inductive Width where
  | auto
  | length (len : Length)

/-- The member `Width::isAuto`. -/
def Width.isAuto : Width → Bool
  | .auto => true
  | .length _ => false

/-- Modelled from the spec: the chain `w.evaluate(ctx).getValue<Length>().compute(ref)`, whose
classes are declared in a header that is not part of the sources. An `auto` value evaluates
to 0 (and is told apart from an explicit zero by `isAuto`); a length is resolved against the
reference length. -/
def Width.compute (w : Width) (ref : FixedPoint) : FixedPoint :=
  match w with
  | .auto => 0
  | .length len => len.compute ref

/-- The computed values that the layout code reads through
`RenderContext::getComputedValue(Property::...)`. `lineHeight` is the result of
`Box::getLineHeight` under these values (a floating-point computation in the source, taken
as a parameter). -/
structure Properties where
  DISPLAY : CssDisplay
  FLOAT : CssFloat
  POSITION : CssPosition
  WIDTH : Width
  HEIGHT : Width
  MARGIN_LEFT : Width
  MARGIN_RIGHT : Width
  MARGIN_TOP : Width
  MARGIN_BOTTOM : Width
  PADDING_LEFT : Length
  PADDING_RIGHT : Length
  PADDING_TOP : Length
  PADDING_BOTTOM : Length
  BORDER_LEFT_WIDTH : Length
  BORDER_RIGHT_WIDTH : Length
  BORDER_TOP_WIDTH : Length
  BORDER_BOTTOM_WIDTH : Length
  lineHeight : FixedPoint

/-- Modelled from the spec: the render context, a stack of the computed values of the styled
nodes being traversed (`RenderContext::Manager` and `getComputedValue` are declared in a
header that is not part of the sources). `top` is what `getComputedValue` reads; `saved` are
the entries below it. -/
structure RenderContext where
  top : Properties
  saved : List Properties

/-- Modelled from the spec: constructing a `RenderContext::Manager` pushes the node's
properties. -/
def RenderContext.push (ctx : RenderContext) (p : Properties) : RenderContext :=
  { top := p, saved := ctx.top :: ctx.saved }

/-- Modelled from the spec: destroying a `RenderContext::Manager` pops what it pushed. -/
def RenderContext.pop (ctx : RenderContext) : RenderContext :=
  match ctx.saved with
  | [] => ctx
  | p :: rest => { top := p, saved := rest }

/-- The depth of the context stack. -/
def RenderContext.depth (ctx : RenderContext) : Nat := ctx.saved.length + 1

/-- The source's `point` (used for the cursor and for glyph advances). -/
structure Point where
  x : FixedPoint
  y : FixedPoint
  deriving DecidableEq, Repr

/-- The source's `Rect`: the content rectangle of a box. -/
structure Rect where
  x : FixedPoint
  y : FixedPoint
  width : FixedPoint
  height : FixedPoint
  deriving DecidableEq, Repr

/-- The edge insets used for padding, border and margin. -/
structure EdgeSize where
  left : FixedPoint
  top : FixedPoint
  right : FixedPoint
  bottom : FixedPoint
  deriving DecidableEq, Repr

/-- The source's `Dimensions`. -/
structure Dimensions where
  content_ : Rect
  padding_ : EdgeSize
  border_ : EdgeSize
  margin_ : EdgeSize
  deriving DecidableEq, Repr

/-- A default-constructed `Dimensions` (all zero). -/
def Dimensions.zero : Dimensions :=
  { content_ := ⟨0, 0, 0, 0⟩, padding_ := ⟨0, 0, 0, 0⟩, border_ := ⟨0, 0, 0, 0⟩,
    margin_ := ⟨0, 0, 0, 0⟩ }

/-- One word of a reflowed line: the string and its per-glyph cumulative advances. -/
structure Word where
  word : String
  advance : List Point

/-- The text segmentation record `Line`. -/
structure Line where
  line : List Word
  space_advance : FixedPoint
  is_end_line : Bool

/-- The `NodeId` values the formatter distinguishes. -/
inductive NodeId where
  | ELEMENT | TEXT | DOCUMENT | ATTRIBUTE | DOCUMENT_FRAGMENT
  deriving DecidableEq, Repr

/-- The text-node interface used by `layoutInlineText`. The class `Text` is not part of the
sources, so its behaviour is a parameter. The boolean is the flag that was handed to
`transformText`; `size` is the distance from `begin()` to `end()` afterwards and
`reflowText flag it width` is `Text::reflowText(it, width)`, returning the line and the
advanced iterator. -/
structure Text where
  size : Bool → Nat
  reflowText : Bool → Nat → FixedPoint → Line × Nat

/-- A node of the content tree: its id, its properties, its children and, for a text node,
the text interface. -/
structure Node where
  id : NodeId
  properties : Properties
  children : List Node
  text : Option Text

/-- The `BoxId` values used by the box classes of `xhtml_layout.cpp`. -/
inductive BoxId where
  | BLOCK | LINE | TEXT | INLINE_ELEMENT | ABSOLUTE
  deriving DecidableEq, Repr

/-- The class `Box` with the extra member of its subclass `TextBox` (`line_`). The last
field is not a member of the class: `isRoot_` records that the box is the object that the
engine's `root_` points to. The source tells that box from the others by the address it holds
in `root_`; boxes are values here, so the identity travels with the box. -/
structure Box where
  id : BoxId
  node_ : Option Node
  dimensions_ : Dimensions
  boxes_ : List Box
  absolute_boxes_ : List Box
  fixed_boxes_ : List Box
  float_boxes_to_be_placed_ : List Box
  left_floats_ : List Box
  right_floats_ : List Box
  cursor_ : Point
  line_ : Option Line
  isRoot_ : Bool := false

/-- The constructor `Box::Box(id, parent, node)`. A box made by the constructor is not the
engine's `root_` until `LayoutEngine::formatNode(node, parent, point)` stores it there. -/
def Box.new (id : BoxId) (node : Option Node) : Box :=
  { id := id, node_ := node, dimensions_ := Dimensions.zero, boxes_ := [],
    absolute_boxes_ := [], fixed_boxes_ := [], float_boxes_to_be_placed_ := [],
    left_floats_ := [], right_floats_ := [], cursor_ := ⟨0, 0⟩, line_ := none,
    isRoot_ := false }

/-- The accessor `Box::getDimensions`. -/
def Box.getDimensions (b : Box) : Dimensions := b.dimensions_

/-- The accessor `Box::getChildren`. -/
def Box.getChildren (b : Box) : List Box := b.boxes_

/-- The accessor `Box::getCursor`. -/
def Box.getCursor (b : Box) : Point := b.cursor_

/-- The setter `Box::setContentX`. -/
def Box.setContentX (b : Box) (v : FixedPoint) : Box :=
  { b with dimensions_ := { b.dimensions_ with content_ := { b.dimensions_.content_ with x := v } } }

/-- The setter `Box::setContentY`. -/
def Box.setContentY (b : Box) (v : FixedPoint) : Box :=
  { b with dimensions_ := { b.dimensions_ with content_ := { b.dimensions_.content_ with y := v } } }

/-- The setter `Box::setContentWidth`. -/
def Box.setContentWidth (b : Box) (v : FixedPoint) : Box :=
  { b with dimensions_ := { b.dimensions_ with content_ := { b.dimensions_.content_ with width := v } } }

/-- The setter `Box::setContentHeight`. -/
def Box.setContentHeight (b : Box) (v : FixedPoint) : Box :=
  { b with dimensions_ := { b.dimensions_ with content_ := { b.dimensions_.content_ with height := v } } }

/-- The setter `Box::setBorderLeft`. -/
def Box.setBorderLeft (b : Box) (v : FixedPoint) : Box :=
  { b with dimensions_ := { b.dimensions_ with border_ := { b.dimensions_.border_ with left := v } } }

/-- The setter `Box::setBorderRight`. -/
def Box.setBorderRight (b : Box) (v : FixedPoint) : Box :=
  { b with dimensions_ := { b.dimensions_ with border_ := { b.dimensions_.border_ with right := v } } }

/-- The setter `Box::setBorderTop`. -/
def Box.setBorderTop (b : Box) (v : FixedPoint) : Box :=
  { b with dimensions_ := { b.dimensions_ with border_ := { b.dimensions_.border_ with top := v } } }

/-- The setter `Box::setBorderBottom`. -/
def Box.setBorderBottom (b : Box) (v : FixedPoint) : Box :=
  { b with dimensions_ := { b.dimensions_ with border_ := { b.dimensions_.border_ with bottom := v } } }

/-- The setter `Box::setPaddingLeft`. -/
def Box.setPaddingLeft (b : Box) (v : FixedPoint) : Box :=
  { b with dimensions_ := { b.dimensions_ with padding_ := { b.dimensions_.padding_ with left := v } } }

/-- The setter `Box::setPaddingRight`. -/
def Box.setPaddingRight (b : Box) (v : FixedPoint) : Box :=
  { b with dimensions_ := { b.dimensions_ with padding_ := { b.dimensions_.padding_ with right := v } } }

/-- The setter `Box::setPaddingTop`. -/
def Box.setPaddingTop (b : Box) (v : FixedPoint) : Box :=
  { b with dimensions_ := { b.dimensions_ with padding_ := { b.dimensions_.padding_ with top := v } } }

/-- The setter `Box::setPaddingBottom`. -/
def Box.setPaddingBottom (b : Box) (v : FixedPoint) : Box :=
  { b with dimensions_ := { b.dimensions_ with padding_ := { b.dimensions_.padding_ with bottom := v } } }

/-- The setter `Box::setMarginLeft`. -/
def Box.setMarginLeft (b : Box) (v : FixedPoint) : Box :=
  { b with dimensions_ := { b.dimensions_ with margin_ := { b.dimensions_.margin_ with left := v } } }

/-- The setter `Box::setMarginRight`. -/
def Box.setMarginRight (b : Box) (v : FixedPoint) : Box :=
  { b with dimensions_ := { b.dimensions_ with margin_ := { b.dimensions_.margin_ with right := v } } }

/-- The setter `Box::setMarginTop`. -/
def Box.setMarginTop (b : Box) (v : FixedPoint) : Box :=
  { b with dimensions_ := { b.dimensions_ with margin_ := { b.dimensions_.margin_ with top := v } } }

/-- The setter `Box::setMarginBottom`. -/
def Box.setMarginBottom (b : Box) (v : FixedPoint) : Box :=
  { b with dimensions_ := { b.dimensions_ with margin_ := { b.dimensions_.margin_ with bottom := v } } }

/-- Modelled from the spec: `Box::getMBPWidth`, declared in a header that is not part of the
sources. The margin+border+padding extent on the horizontal axis. -/
def Box.getMBPWidth (b : Box) : FixedPoint :=
  b.dimensions_.margin_.left + b.dimensions_.margin_.right
    + b.dimensions_.padding_.left + b.dimensions_.padding_.right
    + b.dimensions_.border_.left + b.dimensions_.border_.right

/-- Modelled from the spec: `Box::getMBPHeight`, declared in a header that is not part of the
sources. The margin+border+padding extent on the vertical axis. -/
def Box.getMBPHeight (b : Box) : FixedPoint :=
  b.dimensions_.margin_.top + b.dimensions_.margin_.bottom
    + b.dimensions_.padding_.top + b.dimensions_.padding_.bottom
    + b.dimensions_.border_.top + b.dimensions_.border_.bottom

/-- Modelled from the spec: `Box::getMPBLeft`, declared in a header that is not part of the
sources. The left border+padding+margin offset. -/
def Box.getMPBLeft (b : Box) : FixedPoint :=
  b.dimensions_.margin_.left + b.dimensions_.padding_.left + b.dimensions_.border_.left

/-- Modelled from the spec: `Box::getMPBTop`, declared in a header that is not part of the
sources. The top border+padding+margin offset. -/
def Box.getMPBTop (b : Box) : FixedPoint :=
  b.dimensions_.margin_.top + b.dimensions_.padding_.top + b.dimensions_.border_.top

/-- The test that `getWidthAtCursor` and `getXAtCursor` apply to each float `f` of the box
`b` (lines 287, 293 and 307): the cursor's `y` lies below the float's top offset and the
cursor's `x` is at most `getMPBTop() + getMBPHeight() + content height` of the float. -/
def Box.floatActiveAtCursor (b f : Box) : Bool :=
  b.cursor_.y > f.getMPBTop
    && b.cursor_.x ≤ f.getMPBTop + f.getMBPHeight + f.getDimensions.content_.height

/-- The method `Box::getWidthAtCursor` (lines 280-298). -/
def Box.getWidthAtCursor (b : Box) : FixedPoint :=
  let width := b.dimensions_.content_.width
  let width := b.left_floats_.foldl
    (fun width lf =>
      if b.floatActiveAtCursor lf then width - (lf.getMBPWidth + lf.getDimensions.content_.width)
      else width) width
  let width := b.right_floats_.foldl
    (fun width rf =>
      if b.floatActiveAtCursor rf then width - (rf.getMBPWidth + rf.getDimensions.content_.width)
      else width) width
  if width < 0 then 0 else width

/-- The method `Box::getXAtCursor` (lines 300-312). -/
def Box.getXAtCursor (b : Box) : FixedPoint :=
  b.left_floats_.foldl
    (fun x lf =>
      if b.floatActiveAtCursor lf then max x (lf.getMBPWidth + lf.getDimensions.content_.width)
      else x) 0

/-- The method `BlockBox::layoutWidth` (xhtml_layout.cpp, lines 399-457). -/
def BlockBox.layoutWidth (ctx : RenderContext) (containing : Dimensions) (b : Box) : Box :=
  let containing_width := containing.content_.width
  let css_width := ctx.top.WIDTH
  let width := css_width.compute containing_width
  let b := b.setBorderLeft ctx.top.BORDER_LEFT_WIDTH.compute0
  let b := b.setBorderRight ctx.top.BORDER_RIGHT_WIDTH.compute0
  let b := b.setPaddingLeft (ctx.top.PADDING_LEFT.compute containing_width)
  let b := b.setPaddingRight (ctx.top.PADDING_RIGHT.compute containing_width)
  let css_margin_left := ctx.top.MARGIN_LEFT
  let css_margin_right := ctx.top.MARGIN_RIGHT
  let b := b.setMarginLeft (css_margin_left.compute containing_width)
  let b := b.setMarginRight (css_margin_right.compute containing_width)
  let total := b.getMBPWidth + width
  let b :=
    if !css_width.isAuto && total > containing.content_.width then
      let b := if css_margin_left.isAuto then b.setMarginLeft 0 else b
      if css_margin_right.isAuto then b.setMarginRight 0 else b
    else b
  -- If negative is overflow.
  let underflow := containing.content_.width - total
  if css_width.isAuto then
    let b := if css_margin_left.isAuto then b.setMarginLeft 0 else b
    let b := if css_margin_right.isAuto then b.setMarginRight 0 else b
    if underflow ≥ 0 then
      b.setContentWidth underflow
    else
      let rmargin := css_margin_right.compute containing_width
      let b := b.setMarginRight (rmargin + underflow)
      b.setContentWidth 0
  else if !css_margin_left.isAuto && !css_margin_right.isAuto then
    b.setMarginRight (b.getDimensions.margin_.right + underflow)
  else if !css_margin_left.isAuto && css_margin_right.isAuto then
    b.setMarginRight underflow
  else if css_margin_left.isAuto && !css_margin_right.isAuto then
    b.setMarginLeft underflow
  else if css_margin_left.isAuto && css_margin_right.isAuto then
    (b.setMarginLeft (Int.tdiv underflow 2)).setMarginRight (Int.tdiv underflow 2)
  else b

/-- The method `BlockBox::layoutPosition` (lines 459-475). -/
def BlockBox.layoutPosition (ctx : RenderContext) (containing : Dimensions) (b : Box) : Box :=
  let containing_height := containing.content_.height
  let b := b.setBorderTop ctx.top.BORDER_TOP_WIDTH.compute0
  let b := b.setBorderBottom ctx.top.BORDER_BOTTOM_WIDTH.compute0
  let b := b.setPaddingTop (ctx.top.PADDING_TOP.compute containing_height)
  let b := b.setPaddingBottom (ctx.top.PADDING_BOTTOM.compute containing_height)
  let b := b.setMarginTop (ctx.top.MARGIN_TOP.compute containing_height)
  let b := b.setMarginBottom (ctx.top.MARGIN_BOTTOM.compute containing_height)
  let b := b.setContentX b.getMPBLeft
  b.setContentY (containing.content_.height + b.getMPBTop)

/-- The method `BlockBox::layoutHeight` (lines 491-511). -/
def BlockBox.layoutHeight (ctx : RenderContext) (containing : Dimensions) (b : Box) : Box :=
  let css_h := ctx.top.HEIGHT
  if !css_h.isAuto then b.setContentHeight (css_h.compute containing.content_.height) else b

/-- The method `LineBox::layout` (lines 518-528). -/
def LineBox.layout (b : Box) : Box :=
  let acc := b.getChildren.foldl
    (fun (acc : FixedPoint × FixedPoint) child =>
      (acc.1 + (child.getMBPWidth + child.getDimensions.content_.width),
        max acc.2 child.getDimensions.content_.height)) (0, 0)
  (b.setContentWidth acc.1).setContentHeight acc.2

/-- Modelled from the spec: `Box::addChild`, declared in a header that is not part of the
sources: the child is appended to the normal-flow children. -/
def Box.addChild (b child : Box) : Box := { b with boxes_ := b.boxes_ ++ [child] }

/-- Replace the last normal-flow child of a box. The source keeps a pointer to `boxes_.back()`
and mutates the child through it; here the mutated child is written back. -/
def Box.setLastChild (b child : Box) : Box := { b with boxes_ := b.boxes_.dropLast ++ [child] }

/-- The method `Box::addAbsoluteElement` (lines 323-327): the new `AbsoluteBox` and the
updated box. -/
def Box.addAbsoluteElement (b : Box) (node : Node) : Box × Box :=
  let box := Box.new .ABSOLUTE (some node)
  (box, { b with absolute_boxes_ := b.absolute_boxes_ ++ [box] })

/-- The method `Box::addFixedElement` (lines 329-333): the new `BlockBox` and the updated
box. -/
def Box.addFixedElement (b : Box) (node : Node) : Box × Box :=
  let box := Box.new .BLOCK (some node)
  (box, { b with fixed_boxes_ := b.fixed_boxes_ ++ [box] })

/-- The method `Box::getOpenBox` (lines 335-350): the open line box and the updated box, whose
last child is that line box. -/
def Box.getOpenBox (b : Box) : Box × Box :=
  let ob : Box × Box :=
    match b.boxes_.getLast? with
    | none =>
      let open_ := (Box.new .LINE none).setContentWidth b.getDimensions.content_.width
      (open_, b.addChild open_)
    | some last =>
      if last.id ≠ .LINE then
        let open_ := (Box.new .LINE none).setContentWidth b.getDimensions.content_.width
        (open_, b.addChild open_)
      else (last, b)
  let open_ := ob.1.setContentX b.cursor_.x
  let open_ := open_.setContentY b.cursor_.y
  let open_ := open_.setContentWidth b.getWidthAtCursor
  (open_, ob.2.setLastChild open_)

/-- The function `display_string` (lines 49-71); its `default` case is unreachable for the
enumeration. -/
def display_string : CssDisplay → String
  | .BLOCK => "block"
  | .INLINE => "inline"
  | .INLINE_BLOCK => "inline-block"
  | .LIST_ITEM => "list-item"
  | .TABLE => "table"
  | .INLINE_TABLE => "inline-table"
  | .TABLE_ROW_GROUP => "table-row-group"
  | .TABLE_HEADER_GROUP => "table-header-group"
  | .TABLE_FOOTER_GROUP => "table-footer-group"
  | .TABLE_ROW => "table-row"
  | .TABLE_COLUMN_GROUP => "table-column-group"
  | .TABLE_COLUMN => "table-column"
  | .TABLE_CELL => "table-cell"
  | .TABLE_CAPTION => "table-caption"
  | .NONE => "none"

/-- The failures of a layout pass. `assertion` is a failed `ASSERT_LOG`; `undefinedBehaviour`
is a step the source leaves undefined (`back()` of an empty vector); `outOfFuel` is the
exhaustion of the recursion bound of the model. -/
inductive LayoutError where
  | assertion (msg : String)
  | undefinedBehaviour
  | outOfFuel
  deriving DecidableEq, Repr

/-- The method `Box::addInlineElement` (lines 361-366): the new `InlineElementBox` and the
updated box. -/
def Box.addInlineElement (b : Box) (node : Node) : Except LayoutError (Box × Box) :=
  if b.id = .LINE then
    let box := Box.new .INLINE_ELEMENT (some node)
    .ok (box, { b with boxes_ := b.boxes_ ++ [box] })
  else .error (.assertion "Tried to add inline element to non-line box.")

/-- The constructor `TextBox::TextBox(parent, line)` (lines 530-539). -/
def TextBox.new (ctx : RenderContext) (parent : Box) (line : Line) : Except LayoutError Box :=
  match line.line.getLast? with
  | none => .error .undefinedBehaviour
  | some word =>
    match word.advance.getLast? with
    | none => .error .undefinedBehaviour
    | some adv =>
      let b := { Box.new .TEXT none with line_ := some line }
      let b := b.setContentX parent.getCursor.x
      let b := b.setContentY parent.getCursor.y
      let b := b.setContentWidth adv.x
      .ok (b.setContentHeight ctx.top.lineHeight)

/-- The state of the class `LayoutEngine` that the traversal changes. The box behind `root_`
is being laid out for the whole pass and is reached from every depth of the traversal, so its
`fixed_boxes_`, the one member that is written through `root_` (line 162), are kept here; a
box that is the root (`isRoot_`) takes them from here when it is read
(`Box.withRootFixed`). `ctx_` is the render context. -/
structure LayoutEngine where
  root_fixed_boxes_ : List Box
  ctx_ : RenderContext

/-- The call `root_->addFixedElement(node)` (see `Box.addFixedElement`) on the fixed boxes of
the root that the engine holds: the new `BlockBox` and the updated engine. A box that is the
root shows the change when it is read again, see `Box.withRootFixed`. -/
def LayoutEngine.rootAddFixedElement (eng : LayoutEngine) (node : Node) : Box × LayoutEngine :=
  let box := Box.new .BLOCK (some node)
  (box, { eng with root_fixed_boxes_ := eng.root_fixed_boxes_ ++ [box] })

/-- The box `b` as the source sees it after calls that may have run
`root_->addFixedElement`: when `b` is the object behind `root_`, its `fixed_boxes_` are the
root's fixed boxes, which the engine holds; any other box is as it was. In the source the two
are one list, so in a pass started by `formatRoot` the root's own `fixed_boxes_` never differ
from the engine's list by more than the boxes appended since the root was last read. -/
def Box.withRootFixed (b : Box) (eng : LayoutEngine) : Box :=
  if b.isRoot_ then { b with fixed_boxes_ := eng.root_fixed_boxes_ } else b

/-- The result of `formatNode`: the returned box (`none` for `nullptr`), the updated parent
and the updated engine. -/
abbrev FormatResult := Except LayoutError (Option Box × Box × LayoutEngine)

/-- The type of `LayoutEngine::formatNode(node, parent, container)`. -/
abbrev Formatter := Node → Box → Dimensions → LayoutEngine → FormatResult

/-- The loop over `node->getChildren()` in `BlockBox::layoutChildren` and in
`InlineElementBox::layout`: each child is formatted into the box. -/
def Box.formatChildren (fmt : Formatter) : List Node → Box → LayoutEngine →
    Except LayoutError (Box × LayoutEngine)
  | [], b, eng => .ok (b, eng)
  | child :: rest, b, eng =>
    match fmt child b b.getDimensions eng with
    | .error e => .error e
    | .ok (_, b, eng) => Box.formatChildren fmt rest b eng

/-- The loop over `getChildren()` that closes `BlockBox::layoutChildren` and
`InlineElementBox::layout`: each child in turn sets the content height. -/
def Box.accumulateHeight (b : Box) : Box :=
  b.getChildren.foldl
    (fun b child => b.setContentHeight (child.getDimensions.content_.height + child.getMBPHeight)) b

/-- The method `BlockBox::layoutChildren` (lines 477-489). -/
def BlockBox.layoutChildren (fmt : Formatter) (b : Box) (eng : LayoutEngine) :
    Except LayoutError (Box × LayoutEngine) :=
  match b.node_ with
  | some node =>
    match Box.formatChildren fmt node.children b eng with
    | .error e => .error e
    | .ok (b, eng) => .ok (b.accumulateHeight, eng)
  | none => .ok (b.accumulateHeight, eng)

/-- The method `BlockBox::layout` (lines 385-397). The `RenderContext::Manager` is pushed for
an element node and popped when the method returns. -/
def BlockBox.layout (fmt : Formatter) (b : Box) (containing : Dimensions) (eng : LayoutEngine) :
    Except LayoutError (Box × LayoutEngine) :=
  let managed : Bool :=
    match b.node_ with
    | some node => node.id = .ELEMENT
    | none => false
  let eng :=
    match b.node_ with
    | some node =>
      if node.id = .ELEMENT then { eng with ctx_ := eng.ctx_.push node.properties } else eng
    | none => eng
  let b := BlockBox.layoutWidth eng.ctx_ containing b
  let b := BlockBox.layoutPosition eng.ctx_ containing b
  match BlockBox.layoutChildren fmt b eng with
  | .error e => .error e
  | .ok (b, eng) =>
    let b := BlockBox.layoutHeight eng.ctx_ containing b
    .ok (b, if managed then { eng with ctx_ := eng.ctx_.pop } else eng)

/-- The method `InlineElementBox::layout` (lines 559-573). -/
def InlineElementBox.layout (fmt : Formatter) (b : Box) (containing : Dimensions)
    (eng : LayoutEngine) : Except LayoutError (Box × LayoutEngine) :=
  let b := b.setContentWidth containing.content_.width
  let r : Except LayoutError (Box × LayoutEngine) :=
    match b.node_ with
    | some node => Box.formatChildren fmt node.children b eng
    | none => .ok (b, eng)
  match r with
  | .error e => .error e
  | .ok (b, eng) => .ok (b.accumulateHeight.setContentWidth containing.content_.width, eng)

/-- The virtual method `Box::layout`, dispatched on the class of the box: `BlockBox::layout`,
`LineBox::layout`, `InlineElementBox::layout`, and the empty `TextBox::layout` and
`AbsoluteBox::layout`. -/
def Box.layout (fmt : Formatter) (b : Box) (containing : Dimensions) (eng : LayoutEngine) :
    Except LayoutError (Box × LayoutEngine) :=
  match b.id with
  | .BLOCK => BlockBox.layout fmt b containing eng
  | .LINE => .ok (LineBox.layout b, eng)
  | .INLINE_ELEMENT => InlineElementBox.layout fmt b containing eng
  | .TEXT => .ok (b, eng)
  | .ABSOLUTE => .ok (b, eng)

/-- The method `Box::closeOpenBox` (lines 352-359). -/
def Box.closeOpenBox (fmt : Formatter) (b : Box) (eng : LayoutEngine) :
    Except LayoutError (Box × LayoutEngine) :=
  match b.boxes_.getLast? with
  | none => .error (.assertion "Tried to close a non-existant box.")
  | some open_ =>
    match Box.layout fmt open_ b.getDimensions eng with
    | .error e => .error e
    | .ok (open_, eng) =>
      let b := b.setLastChild open_
      let b := { b with cursor_ := { b.cursor_ with
                  y := b.cursor_.y + open_.getDimensions.content_.height } }
      .ok ({ b with cursor_ := { b.cursor_ with x := b.getXAtCursor } }, eng)

/-- The method `LayoutEngine::layoutInlineElement` (lines 209-215). -/
def LayoutEngine.layoutInlineElement (fmt : Formatter) (node : Node) (parent : Box)
    (eng : LayoutEngine) : Except LayoutError (Box × LayoutEngine) :=
  let (open_, parent) := parent.getOpenBox
  match open_.addInlineElement node with
  | .error e => .error e
  | .ok (inline_element_box, open_) =>
    match Box.layout fmt inline_element_box open_.getDimensions eng with
    | .error e => .error e
    | .ok (inline_element_box, eng) =>
      .ok (parent.setLastChild (open_.setLastChild inline_element_box), eng)

/-- The `while` loop of `LayoutEngine::layoutInlineText` (lines 227-235), bounded by `fuel`
iterations. `open` is always the last child of `parent`, so only its width is carried. -/
def LayoutEngine.layoutInlineTextLoop (fmt : Formatter) (tnode : Text) (flag : Bool) :
    Nat → Nat → FixedPoint → Box → LayoutEngine → Except LayoutError (Box × LayoutEngine)
  | 0, it, _, parent, eng =>
    if it = tnode.size flag then .ok (parent, eng) else .error .outOfFuel
  | fuel + 1, it, width, parent, eng =>
    if it = tnode.size flag then .ok (parent, eng)
    else
      let (line, it) := tnode.reflowText flag it width
      let closed : Except LayoutError (FixedPoint × Box × LayoutEngine) :=
        if line.is_end_line then
          match parent.closeOpenBox fmt eng with
          | .error e => .error e
          | .ok (parent, eng) =>
            let (open_, parent) := parent.getOpenBox
            .ok (open_.getDimensions.content_.width, parent, eng)
        else .ok (width, parent, eng)
      match closed with
      | .error e => .error e
      | .ok (width, parent, eng) =>
        match TextBox.new eng.ctx_ parent line, parent.boxes_.getLast? with
        | .error e, _ => .error e
        | .ok _, none => .error .undefinedBehaviour
        | .ok txt, some open_ =>
          LayoutEngine.layoutInlineTextLoop fmt tnode flag fuel it width
            (parent.setLastChild (open_.addChild txt)) eng

/-- The method `LayoutEngine::layoutInlineText` (lines 217-236). -/
def LayoutEngine.layoutInlineText (fmt : Formatter) (fuel : Nat) (node : Node) (parent : Box)
    (eng : LayoutEngine) : Except LayoutError (Box × LayoutEngine) :=
  match node.text with
  | none => .error (.assertion "Logic error, couldn't up-cast node to Text.")
  | some tnode =>
    let (open_, parent) := parent.getOpenBox
    let width := open_.getDimensions.content_.width
    LayoutEngine.layoutInlineTextLoop fmt tnode (decide (width ≥ 0)) fuel 0 width parent eng

/-- The body of `LayoutEngine::formatNode(node, parent, container)` (lines 145-207), with the
recursive calls made through `fmt` and the text loop bounded by `fuel`. For an element node
the `RenderContext::Manager` is pushed on entry and popped on every return. On the paths that
lay a box out (fixed, inline, block, text), `root_->addFixedElement` (line 162) may have run,
here or further down; the parent is `root_` itself for every child of the root element, so
the parent handed back is read through `Box.withRootFixed`. -/
def LayoutEngine.formatNodeWith (fmt : Formatter) (fuel : Nat) : Formatter :=
  fun node parent container eng =>
    if node.id = .ELEMENT then
      let ctx := eng.ctx_.push node.properties
      let display := ctx.top.DISPLAY
      let position := ctx.top.POSITION
      if position = .ABSOLUTE then
        -- absolute positioned elements are taken out of the normal document flow
        let (box, parent) := parent.addAbsoluteElement node
        match Box.layout fmt box container { eng with ctx_ := ctx } with
        | .error e => .error e
        | .ok (box, eng) =>
          .ok (none,
            { parent with absolute_boxes_ := parent.absolute_boxes_.dropLast ++ [box] },
            { eng with ctx_ := eng.ctx_.pop })
      else if position = .FIXED then
        -- fixed positioned elements are taken out of the normal document flow
        let index := eng.root_fixed_boxes_.length
        let (box, eng) := eng.rootAddFixedElement node
        match Box.layout fmt box container { eng with ctx_ := ctx } with
        | .error e => .error e
        | .ok (box, eng) =>
          let eng : LayoutEngine :=
            { root_fixed_boxes_ := eng.root_fixed_boxes_.set index box, ctx_ := eng.ctx_.pop }
          .ok (none, parent.withRootFixed eng, eng)
      else
        match display with
        | .NONE =>
          -- Do not create a box for this or it's children
          .ok (none, parent, { eng with ctx_ := ctx.pop })
        | .INLINE =>
          match LayoutEngine.layoutInlineElement fmt node parent { eng with ctx_ := ctx } with
          | .error e => .error e
          | .ok (parent, eng) =>
            .ok (none, parent.withRootFixed eng, { eng with ctx_ := eng.ctx_.pop })
        | .BLOCK =>
          match Box.layout fmt (Box.new .BLOCK (some node)) container
              { eng with ctx_ := ctx } with
          | .error e => .error e
          | .ok (box, eng) =>
            .ok (some box, (parent.addChild box).withRootFixed eng,
              { eng with ctx_ := eng.ctx_.pop })
        | .INLINE_BLOCK | .LIST_ITEM | .TABLE | .INLINE_TABLE | .TABLE_ROW_GROUP
        | .TABLE_HEADER_GROUP | .TABLE_FOOTER_GROUP | .TABLE_ROW | .TABLE_COLUMN_GROUP
        | .TABLE_COLUMN | .TABLE_CELL | .TABLE_CAPTION =>
          .error (.assertion ("FIXME: LayoutEngine::formatNode(): " ++ display_string display))
    else if node.id = .TEXT then
      -- these nodes are inline/static by definition.
      match LayoutEngine.layoutInlineText fmt fuel node parent eng with
      | .error e => .error e
      | .ok (parent, eng) => .ok (none, parent.withRootFixed eng, eng)
    else
      .error (.assertion "Unhandled node id, only elements and text can be used in layout")

/-- The recursion of `formatNode`, cut off after `fuel` nested calls. -/
def LayoutEngine.formatNodeFuel : Nat → Formatter
  | 0 => fun _ _ _ _ => .error .outOfFuel
  | fuel + 1 => LayoutEngine.formatNodeWith (LayoutEngine.formatNodeFuel fuel) fuel

/-- The method `LayoutEngine::formatNode(node, parent, container)` with `fuel` bounding the
depth of the recursion below this call and the iterations of the text loop. -/
def LayoutEngine.formatNode (fuel : Nat) : Formatter :=
  LayoutEngine.formatNodeWith (LayoutEngine.formatNodeFuel fuel) fuel

/-- The method `LayoutEngine::formatNode(node, parent, point)` (lines 136-143) on a fresh
engine: the root block box is created for the node, stored in `root_` and laid out in a
containing rectangle of the given size; the result is `root_` as it is after the pass. -/
def LayoutEngine.formatRoot (fuel : Nat) (node : Node) (container : Point)
    (ctx : RenderContext) : Except LayoutError Box :=
  let root : Box := { Box.new .BLOCK (some node) with isRoot_ := true }
  let dims := { Dimensions.zero with content_ := ⟨0, 0, container.x, container.y⟩ }
  match Box.layout (LayoutEngine.formatNodeFuel fuel) root dims
      { root_fixed_boxes_ := [], ctx_ := ctx } with
  | .error e => .error e
  | .ok (root, eng) => .ok (root.withRootFixed eng)

/-- The border+padding+margin width that `layoutWidth` computes from the resolved style
(the value of `getMBPWidth()` at line 418): auto margins count as 0. -/
def BlockBox.resolvedMBPWidth (ctx : RenderContext) (containing : Dimensions) : FixedPoint :=
  ctx.top.MARGIN_LEFT.compute containing.content_.width
    + ctx.top.MARGIN_RIGHT.compute containing.content_.width
    + ctx.top.PADDING_LEFT.compute containing.content_.width
    + ctx.top.PADDING_RIGHT.compute containing.content_.width
    + ctx.top.BORDER_LEFT_WIDTH.compute0 + ctx.top.BORDER_RIGHT_WIDTH.compute0

/-- The underflow that `layoutWidth` computes at line 430 from the resolved style: the
containing width minus the border+padding+margin width (auto margins counting as 0) minus the
resolved CSS width (an auto width counting as 0). Negative means overflow. -/
def BlockBox.resolvedUnderflow (ctx : RenderContext) (containing : Dimensions) : FixedPoint :=
  containing.content_.width - BlockBox.resolvedMBPWidth ctx containing
    - ctx.top.WIDTH.compute containing.content_.width

/-- A length that resolves to the same value against every reference length. -/
def Length.fixed (v : FixedPoint) : Length := { compute := fun _ => v, compute0 := v }

/-- A style used in the worked examples: a block in normal flow with `width: auto`,
`height: auto` and every margin, padding and border width 0. -/
def exampleProperties : Properties :=
  { DISPLAY := .BLOCK, FLOAT := .NONE, POSITION := .STATIC,
    WIDTH := .auto, HEIGHT := .auto,
    MARGIN_LEFT := .length (Length.fixed 0), MARGIN_RIGHT := .length (Length.fixed 0),
    MARGIN_TOP := .length (Length.fixed 0), MARGIN_BOTTOM := .length (Length.fixed 0),
    PADDING_LEFT := Length.fixed 0, PADDING_RIGHT := Length.fixed 0,
    PADDING_TOP := Length.fixed 0, PADDING_BOTTOM := Length.fixed 0,
    BORDER_LEFT_WIDTH := Length.fixed 0, BORDER_RIGHT_WIDTH := Length.fixed 0,
    BORDER_TOP_WIDTH := Length.fixed 0, BORDER_BOTTOM_WIDTH := Length.fixed 0,
    lineHeight := 16 }

/-- A render context whose top entry is the given style. -/
def exampleContext (p : Properties) : RenderContext := { top := p, saved := [] }

/-- Containing dimensions with the given content width and nothing else. -/
def exampleContaining (w : FixedPoint) : Dimensions :=
  { Dimensions.zero with content_ := ⟨0, 0, w, 0⟩ }

/-- A freshly constructed block box without a node. -/
def exampleBlock : Box := Box.new .BLOCK none

/-- Fixed width 401 with both horizontal margins auto. -/
def ctxCentered : RenderContext :=
  exampleContext { exampleProperties with
    WIDTH := .length (Length.fixed 401), MARGIN_LEFT := .auto, MARGIN_RIGHT := .auto }

/-- Auto width with a left margin of 20 and a left padding of 30. -/
def ctxAutoWidth : RenderContext :=
  exampleContext { exampleProperties with
    MARGIN_LEFT := .length (Length.fixed 20), PADDING_LEFT := Length.fixed 30 }

/-- Auto width and auto margins, without border or padding. -/
def ctxAllAuto : RenderContext :=
  exampleContext { exampleProperties with MARGIN_LEFT := .auto, MARGIN_RIGHT := .auto }

/-- Auto width, auto right margin and a left padding of 400. -/
def ctxAutoOverflow : RenderContext :=
  exampleContext { exampleProperties with
    MARGIN_RIGHT := .auto, PADDING_LEFT := Length.fixed 400 }

/-- Auto width, margins 10 and 20 and a left padding of 400. -/
def ctxAutoOverflowFixed : RenderContext :=
  exampleContext { exampleProperties with
    MARGIN_LEFT := .length (Length.fixed 10), MARGIN_RIGHT := .length (Length.fixed 20),
    PADDING_LEFT := Length.fixed 400 }

/-- Fixed width 100 with margins 10 and 20. -/
def ctxFixedMargins : RenderContext :=
  exampleContext { exampleProperties with
    WIDTH := .length (Length.fixed 100),
    MARGIN_LEFT := .length (Length.fixed 10), MARGIN_RIGHT := .length (Length.fixed 20) }

/-- Fixed width 100 with an auto left margin and a right margin of 20. -/
def ctxLeftAuto : RenderContext :=
  exampleContext { exampleProperties with
    WIDTH := .length (Length.fixed 100),
    MARGIN_LEFT := .auto, MARGIN_RIGHT := .length (Length.fixed 20) }

/-- A float whose top offset is 0, whose vertical extent is 100 and whose content width is 50
(no margin, border or padding). -/
def exampleFloat : Box :=
  { Box.new .BLOCK none with
    dimensions_ := { Dimensions.zero with content_ := ⟨0, 0, 50, 100⟩ } }

/-- A container of the given content width holding `exampleFloat` as its only left float,
with the cursor at the given point. -/
def exampleFloatContainer (w : FixedPoint) (cursor : Point) : Box :=
  { Box.new .BLOCK none with
    dimensions_ := { Dimensions.zero with content_ := ⟨0, 0, w, 0⟩ },
    left_floats_ := [exampleFloat], cursor_ := cursor }

/-- An engine with no fixed boxes and the example style on the context. -/
def exampleEngine : LayoutEngine :=
  { root_fixed_boxes_ := [], ctx_ := exampleContext exampleProperties }

/-- An element with the example style (a block) and no children. -/
def exampleBlockNode : Node :=
  { id := .ELEMENT, properties := exampleProperties, children := [], text := none }

/-- An element with `display: none` in normal flow, with one block child. -/
def exampleNoneNode : Node :=
  { id := .ELEMENT, properties := { exampleProperties with DISPLAY := .NONE },
    children := [exampleBlockNode], text := none }

/-- An element with `display: none; position: absolute`. -/
def exampleNoneAbsoluteNode : Node :=
  { id := .ELEMENT,
    properties := { exampleProperties with DISPLAY := .NONE, POSITION := .ABSOLUTE },
    children := [], text := none }

/-- An element with `display: none; position: fixed`, with one block child. -/
def exampleNoneFixedNode : Node :=
  { id := .ELEMENT,
    properties := { exampleProperties with DISPLAY := .NONE, POSITION := .FIXED },
    children := [exampleBlockNode], text := none }

/-- A body element with one child block that has `width: auto; margin: auto`. -/
def exampleBodyNode : Node :=
  { id := .ELEMENT, properties := exampleProperties,
    children := [{ id := .ELEMENT,
                   properties := { exampleProperties with
                     MARGIN_LEFT := .auto, MARGIN_RIGHT := .auto },
                   children := [], text := none }],
    text := none }

/-- An element in normal flow with `display: table`. -/
def exampleTableNode : Node :=
  { id := .ELEMENT, properties := { exampleProperties with DISPLAY := .TABLE },
    children := [], text := none }

/-- A block box whose only child is a block box: no line box is open on it. -/
def exampleBlockWithBlockChild : Box := exampleBlock.addChild exampleBlock

/-- A block box whose last child is a line box. -/
def exampleBlockWithLine : Box := exampleBlock.addChild (Box.new .LINE none)

/-- The frame of a formatter: whenever it returns, the parent it hands back is the same box
object (same class and same node) and the fixed boxes already collected on the root are
still there, in place, possibly followed by new ones. -/
def Formatter.Frames (fmt : Formatter) : Prop :=
  ∀ (node : Node) (parent : Box) (container : Dimensions) (eng : LayoutEngine)
    (r : Option Box × Box × LayoutEngine),
    fmt node parent container eng = .ok r →
      r.2.1.id = parent.id ∧ r.2.1.node_ = parent.node_
        ∧ eng.root_fixed_boxes_ <+: r.2.2.root_fixed_boxes_

/-- The frame of a box-level step that starts from box `b` and engine `eng` and ends in the
pair `r`: same box object, and the root's fixed boxes are kept in place. -/
def Box.FramedBy (b : Box) (eng : LayoutEngine) (r : Box × LayoutEngine) : Prop :=
  r.1.id = b.id ∧ r.1.node_ = b.node_ ∧ eng.root_fixed_boxes_ <+: r.2.root_fixed_boxes_

/-- A fixed element whose only child is again a fixed element. -/
def exampleNestedFixedNode : Node :=
  { id := .ELEMENT, properties := { exampleProperties with POSITION := .FIXED },
    children := [{ id := .ELEMENT, properties := { exampleProperties with POSITION := .FIXED },
                   children := [], text := none }],
    text := none }

/-- A fixed element whose only child has `display: table`. -/
def exampleFixedWithTableNode : Node :=
  { id := .ELEMENT, properties := { exampleProperties with POSITION := .FIXED },
    children := [exampleTableNode], text := none }

/-- An element with `position: absolute` and one block child. -/
def exampleAbsoluteNode : Node :=
  { id := .ELEMENT, properties := { exampleProperties with POSITION := .ABSOLUTE },
    children := [exampleBlockNode], text := none }

/-- An element with `position: fixed` and no children. -/
def exampleFixedNode : Node :=
  { id := .ELEMENT, properties := { exampleProperties with POSITION := .FIXED },
    children := [], text := none }

/-- A font handle as far as `CssLength::evaluate` reads it through
`RenderContext::getFontSize` and `RenderContext::getFontXHeight`. The source's `double` is
embedded as an exact rational: rounding of binary floating point is outside the model. -/
structure FontHandle where
  getFontSize : ℚ
  getFontXHeight : ℚ

/-- The class `RenderContext` of `xhtml_render_ctx.hpp`: the stack `fh_` of font handles (its
top and the entries below it) and `dpi_scale_`. -/
structure FontRenderContext where
  fh_top : FontHandle
  fh_rest : List FontHandle
  dpi_scale_ : ℚ

/-- The accessor `RenderContext::getDPI`. -/
def FontRenderContext.getDPI (ctx : FontRenderContext) : ℚ := ctx.dpi_scale_

/-- The accessor `RenderContext::getFontSize`. -/
def FontRenderContext.getFontSize (ctx : FontRenderContext) : ℚ := ctx.fh_top.getFontSize

/-- The accessor `RenderContext::getFontXHeight`. -/
def FontRenderContext.getFontXHeight (ctx : FontRenderContext) : ℚ := ctx.fh_top.getFontXHeight

/-- The mutator `RenderContext::setDPI`. -/
def FontRenderContext.setDPI (ctx : FontRenderContext) (dpi : ℚ) : FontRenderContext :=
  { ctx with dpi_scale_ := dpi }

/-- A context with a font of size 12 and x-height 6 at the given resolution. -/
def exampleFontContext (dpi : ℚ) : FontRenderContext :=
  { fh_top := { getFontSize := 12, getFontXHeight := 6 }, fh_rest := [], dpi_scale_ := dpi }

/-- Modelled from the spec: `Box::getMBPBottom`, declared in a header that is not part of the
sources. The bottom margin+border+padding offset. -/
def Box.getMBPBottom (b : Box) : FixedPoint :=
  b.dimensions_.margin_.bottom + b.dimensions_.padding_.bottom + b.dimensions_.border_.bottom

/-- The bottom edge of a child in its parent's content area: its content y offset plus its
content height plus its bottom margin+border+padding. -/
def Box.bottomEdge (b : Box) : FixedPoint :=
  b.dimensions_.content_.y + b.dimensions_.content_.height + b.getMBPBottom

/-- A formatter keeps the render context: whenever it returns, the context stack is the one
it was called with. -/
def Formatter.KeepsContext (fmt : Formatter) : Prop :=
  ∀ (node : Node) (parent : Box) (container : Dimensions) (eng : LayoutEngine)
    (r : Option Box × Box × LayoutEngine),
    fmt node parent container eng = .ok r → r.2.2.ctx_ = eng.ctx_

/-- A block element with the given fixed CSS height and no children. -/
def exampleBlockNodeOfHeight (h : FixedPoint) : Node :=
  { id := .ELEMENT, properties := { exampleProperties with HEIGHT := .length (Length.fixed h) },
    children := [], text := none }

/-- A body element with two block children of CSS heights 100 and 10. -/
def exampleTwoChildrenNode : Node :=
  { id := .ELEMENT, properties := exampleProperties,
    children := [exampleBlockNodeOfHeight 100, exampleBlockNodeOfHeight 10], text := none }

/-- A block box (without a node) that holds two children: one of content height 100 at
`y = 0` and one of content height 10 at `y = 100`. -/
def exampleStackedBlock : Box :=
  (exampleBlock.addChild
      { exampleBlock with dimensions_ := { Dimensions.zero with content_ := ⟨0, 0, 0, 100⟩ } }).addChild
    { exampleBlock with dimensions_ := { Dimensions.zero with content_ := ⟨0, 100, 0, 10⟩ } }

/-- A context whose top style has the CSS height 50. -/
def ctxFixedHeight : RenderContext :=
  exampleContext { exampleProperties with HEIGHT := .length (Length.fixed 50) }

/-! ### Text boxes of `xhtml_text_box.cpp`

`xhtml_text_box.cpp` belongs to a later revision of the sources than `xhtml_layout.cpp`: its
`TextBox` carries a `LineInfo` record, and it talks to a `LayoutEngine` and a `Text` node
whose sources are not part of the repository snapshot. What it reads from them is taken as
parameters. -/

/-- The record `LineInfo` held by a `TextBox`: the reflowed line (`none` for `nullptr`), its
offset, width, height and justification. -/
structure LineInfo where
  line_ : Option Line
  offset_ : Point
  width_ : FixedPoint
  height_ : FixedPoint
  justification_ : FixedPoint

/-- The class `TextBox` of `xhtml_text_box.cpp`, as far as reflow and alignment read and write
it: its member `line_`. (`TextBox.new` above is the constructor of the older `TextBox` of
`xhtml_layout.cpp`.) -/
structure TextBox where
  line_ : LineInfo

/-- The constructor `TextBox::TextBox(parent, node, root)` (lines 37-54): `line_` is
default-constructed. -/
def TextBox.empty : TextBox :=
  { line_ := { line_ := none, offset_ := ⟨0, 0⟩, width_ := 0, height_ := 0,
               justification_ := 0 } }

/-- The first loop of `TextBox::calculateWidth` (lines 133-135): the last advance of every
word is added up; `back()` of an empty advance vector is undefined. -/
def TextBox.sumAdvances : List Word → FixedPoint → Except LayoutError FixedPoint
  | [], width => .ok width
  | word :: rest, width =>
    match word.advance.getLast? with
    | none => .error .undefinedBehaviour
    | some adv => TextBox.sumAdvances rest (width + adv.x)

/-- The method `TextBox::calculateWidth` (lines 129-138). -/
def TextBox.calculateWidth (line : LineInfo) : Except LayoutError FixedPoint :=
  match line.line_ with
  | none => .error (.assertion "Calculating width of TextBox with no line_ (=nullptr).")
  | some l =>
    match TextBox.sumAdvances l.line 0 with
    | .error e => .error e
    | .ok width => .ok (width + l.space_advance * l.line.length)

/-- The advance width of a word: the `x` of its last advance (0 for an empty vector, which
the source does not define). -/
def Word.width (w : Word) : FixedPoint :=
  match w.advance.getLast? with
  | none => 0
  | some adv => adv.x

/-- The method `TextBox::setRightAlign` (lines 152-156). -/
def TextBox.setRightAlign (t : TextBox) (containing_width : FixedPoint) : TextBox :=
  { t with line_ := { t.line_ with
      offset_ := { t.line_.offset_ with x := containing_width - t.line_.width_ } } }

/-- The method `TextBox::setCenterAlign` (lines 158-162). -/
def TextBox.setCenterAlign (t : TextBox) (containing_width : FixedPoint) : TextBox :=
  { t with line_ := { t.line_ with
      offset_ := { t.line_.offset_ with
        x := Int.tdiv (containing_width - t.line_.width_ - t.line_.offset_.x) 2 } } }

/-- The method `TextBox::setJustify` (lines 242-253): its body is commented out. -/
def TextBox.setJustify (t : TextBox) (_containing_width : FixedPoint) : TextBox := t

/-- What `TextBox::postParentLayout` reads from the style node, from the parent and from the
box's own metric helpers (none of them in the sources): the text alignment, the direction,
the vertical alignment and its length, `getLineHeight()`, the parent's `getLineHeight()` and
`getBaselineOffset()`, and `getBottomOffset()`. -/
structure TextLayoutStyle where
  textAlign : TextAlign
  direction : Direction
  verticalAlign : CssVerticalAlign
  verticalAlignLength : Length
  lineHeight : FixedPoint
  parentLineHeight : FixedPoint
  parentBaselineOffset : FixedPoint
  bottomOffset : FixedPoint

/-- The method `TextBox::postParentLayout` (lines 164-240). -/
def TextBox.postParentLayout (style : TextLayoutStyle) (containing : Dimensions)
    (t : TextBox) : TextBox :=
  let containing_width := containing.content_.width
  -- perform text-align calculation.
  let t :=
    match style.textAlign with
    | .RIGHT => t.setRightAlign containing_width
    | .CENTER => t.setCenterAlign containing_width
    | .JUSTIFY => t.setJustify containing_width
    | .NORMAL => if style.direction = Direction.RTL then t.setRightAlign containing_width else t
    | .LEFT => t
  -- set vertical alignment
  let baseline := style.lineHeight
  let child_y := t.line_.offset_.y
  let child_y :=
    match style.verticalAlign with
    | .BASELINE => child_y + baseline
    | .MIDDLE => child_y + (Int.tdiv style.parentLineHeight 2 + style.parentBaselineOffset)
    | .BOTTOM => child_y + style.bottomOffset
    | .SUB | .SUPER | .TOP | .TEXT_TOP | .TEXT_BOTTOM => child_y
    | .LENGTH =>
      let len := style.verticalAlignLength.compute style.lineHeight
      -- 0 for len is the baseline.
      child_y + (baseline - len)
  { t with line_ := { t.line_ with offset_ := { t.line_.offset_ with y := child_y } } }

/-- The text node as `TextBox::reflowText` uses it (`pi->txt_`; the class is not in the
sources): `size` is the distance from `begin()` to `end()`, and `reflowText it width` is
`Text::reflowText(it, width, node)`, returning the line (`none` for `nullptr`) and the
advanced iterator. -/
structure TextTokens where
  size : Nat
  reflowText : Nat → FixedPoint → Option Line × Nat

/-- The part of the class `LayoutEngine` of the later revision (not in the sources) that
`TextBox::reflowText` and the inline-block box call: the cursor and the float queries. -/
structure FloatEngine where
  getCursor : Point
  getWidthAtPosition : FixedPoint → FixedPoint → FixedPoint → FixedPoint
  getXAtPosition : FixedPoint → FixedPoint → FixedPoint
  hasFloatsAtPosition : FixedPoint → FixedPoint → Bool

/-- What `TextBox::reflowText` reads from its `parent` line box: `getOffset().y` and
`getLineHeight()`. -/
structure LineBoxMetrics where
  offset_y : FixedPoint
  line_height : FixedPoint

/-- The `while` loop of `TextBox::reflowText` (lines 90-119), bounded by `fuel` iterations.
The loop variables are `it`, `cursor`, `y1`, `width` and `lines`; `last_it` is the variable
of the same name, which the source assigns only at its declaration. -/
def TextBox.reflowTextLoop (txt : TextTokens) (eng : FloatEngine) (parent : LineBoxMetrics)
    (containing : Dimensions) (last_it : Nat) :
    Nat → Nat → Point → FixedPoint → FixedPoint → List TextBox →
      Except LayoutError (List TextBox)
  | 0, it, _, _, _, lines => if it = txt.size then .ok lines else .error .outOfFuel
  | fuel + 1, it, cursor, y1, width, lines =>
    if it = txt.size then .ok lines
    else
      let line_height := parent.line_height
      let (line?, it) := txt.reflowText it width
      match line? with
      | none => TextBox.reflowTextLoop txt eng parent containing last_it fuel it cursor y1 width lines
      | some line =>
        match line.line.getLast? with
        | none =>
          TextBox.reflowTextLoop txt eng parent containing last_it fuel it cursor y1 width lines
        | some last_word =>
          match last_word.advance.getLast? with
          | none => .error .undefinedBehaviour
          | some adv =>
            -- is the line larger than available space and are there floats present?
            let last_x := adv.x
            if last_x > width && eng.hasFloatsAtPosition y1 (y1 + line_height) then
              let cursor : Point := { cursor with y := cursor.y + line_height }
              let y1 := cursor.y + parent.offset_y
              let cursor : Point := { cursor with x := eng.getXAtPosition y1 (y1 + line_height) }
              let width := eng.getWidthAtPosition y1 (y1 + line_height) containing.content_.width
              TextBox.reflowTextLoop txt eng parent containing last_it fuel last_it cursor y1
                width lines
            else
              let info : LineInfo := { TextBox.empty.line_ with line_ := some line }
              match TextBox.calculateWidth info with
              | .error e => .error e
              | .ok w =>
                let info : LineInfo :=
                  { info with width_ := w, height_ := line_height,
                              offset_ := { info.offset_ with y := cursor.y } }
                let lines := lines ++ [{ line_ := info }]
                let cursor : Point := { cursor with x := cursor.x + w }
                if line.is_end_line then
                  -- update the cursor for the next line
                  let cursor : Point := { cursor with y := cursor.y + line_height }
                  let y1 := cursor.y + parent.offset_y
                  let cursor : Point :=
                    { cursor with x := eng.getXAtPosition y1 (y1 + line_height) }
                  TextBox.reflowTextLoop txt eng parent containing last_it fuel it cursor y1
                    width lines
                else
                  TextBox.reflowTextLoop txt eng parent containing last_it fuel it cursor y1
                    width lines

/-- The method `TextBox::reflowText` (lines 72-127), with the loop bounded by `fuel`. -/
def TextBox.reflowText (fuel : Nat) (txt : TextTokens) (eng : FloatEngine)
    (parent : LineBoxMetrics) (containing : Dimensions) : Except LayoutError (List TextBox) :=
  let cursor := eng.getCursor
  let y1 := cursor.y + parent.offset_y
  let line_height := parent.line_height
  let width := eng.getWidthAtPosition y1 (y1 + line_height) containing.content_.width
    - cursor.x + eng.getXAtPosition y1 (y1 + line_height)
  let last_it := 0
  TextBox.reflowTextLoop txt eng parent containing last_it fuel last_it cursor y1 width []

/-- A word `a` that measures 30. -/
def exampleWordA : Word := { word := "a", advance := [⟨30, 0⟩] }

/-- A word `b` that measures 150. -/
def exampleWordB : Word := { word := "b", advance := [⟨150, 0⟩] }

/-- A text of two tokens; each reflow hands out one word as a hard-ended line: `a` at
iterator 0 and `b` at iterator 1. -/
def exampleTwoTokens : TextTokens :=
  { size := 2,
    reflowText := fun it _ =>
      if it = 0 then (some { line := [exampleWordA], space_advance := 5, is_end_line := true }, 1)
      else (some { line := [exampleWordB], space_advance := 5, is_end_line := true }, 2) }

/-- A text of the single token `b`. -/
def exampleOneWideToken : TextTokens :=
  { size := 1,
    reflowText := fun _ _ =>
      (some { line := [exampleWordB], space_advance := 5, is_end_line := true }, 1) }

/-- Floats that occupy the bands above `y = 20`: there the width is 100, below it 200. -/
def exampleClearingFloats : FloatEngine :=
  { getCursor := ⟨0, 0⟩,
    getWidthAtPosition := fun y1 _ _ => if y1 < 20 then 100 else 200,
    getXAtPosition := fun _ _ => 0,
    hasFloatsAtPosition := fun y1 _ => decide (y1 < 20) }

/-- Floats that occupy every band: the width is 100 everywhere. -/
def exampleStuckFloats : FloatEngine :=
  { getCursor := ⟨0, 0⟩,
    getWidthAtPosition := fun _ _ _ => 100,
    getXAtPosition := fun _ _ => 0,
    hasFloatsAtPosition := fun _ _ => true }

/-- A parent line box at offset 0 with line height 10. -/
def exampleLineMetrics : LineBoxMetrics := { offset_y := 0, line_height := 10 }

/-- The words and the vertical offsets of a list of text boxes. -/
def TextBox.summary (lines : List TextBox) : List (List String × FixedPoint) :=
  lines.map (fun t =>
    (match t.line_.line_ with
      | none => []
      | some l => l.line.map (fun w => w.word),
     t.line_.offset_.y))

/-- A line of three words that each measure 30, with a space advance of 5. -/
def exampleThreeWordLine : LineInfo :=
  { TextBox.empty.line_ with
    line_ := some { line := [exampleWordA, exampleWordA, exampleWordA], space_advance := 5,
                    is_end_line := false } }

/-- A text box whose line is 100 wide and sits at the given horizontal offset. -/
def exampleTextBox (x : FixedPoint) : TextBox :=
  { line_ := { TextBox.empty.line_ with width_ := 100, offset_ := ⟨x, 0⟩ } }

/-- A text style with the given alignment and direction, all metrics 0 and vertical
alignment `top`. -/
def exampleTextStyle (ta : TextAlign) (dir : Direction) : TextLayoutStyle :=
  { textAlign := ta, direction := dir, verticalAlign := .TOP,
    verticalAlignLength := Length.fixed 0, lineHeight := 0, parentLineHeight := 0,
    parentBaselineOffset := 0, bottomOffset := 0 }

/-! ### Inline-block boxes of `xhtml_inline_block_box.cpp`

This file, too, belongs to the later revision. The box itself is a `Box`; what the methods
read from the node (`getNode()`), from the style (`getCssWidth()`, `getCssHeight()`,
`getCssMargin()`) and from the engine is passed in. -/

/-- What `InlineBlockBox` reads from its node: the node id, `isReplaced()`, the intrinsic
size `getDimensions().w()` and `.h()`, and the children. -/
structure InlineBlockNode where
  id : NodeId
  isReplaced : Bool
  w : Int
  h : Int
  children : List Node

/-- The operations of the class `LayoutEngine` of the later revision (not in the sources)
that `InlineBlockBox` calls, over an engine state `E`: `formatNode` returns the child box
(`none` for `nullptr`), the updated box and the updated engine. -/
structure EngineOps (E : Type) where
  getCursor : E → Point
  pushOpenBox : E → E
  popOpenBox : E → E
  closeOpenBox : E → E
  incrCursor : E → FixedPoint → E
  formatNode : Node → Box → Dimensions → E → Option Box × Box × E

/-- The setter `Box::setContentRect`. -/
def Box.setContentRect (b : Box) (r : Rect) : Box :=
  { b with dimensions_ := { b.dimensions_ with content_ := r } }

/-- Modelled from the spec: `Box::calculateHorzMPB`, whose source is not part of the
repository: the left and right border, padding and margin are resolved against the
containing width, as lines 407-416 of `BlockBox::layoutWidth` do. -/
def Box.calculateHorzMPB (style : Properties) (containing_width : FixedPoint) (b : Box) : Box :=
  let b := b.setBorderLeft style.BORDER_LEFT_WIDTH.compute0
  let b := b.setBorderRight style.BORDER_RIGHT_WIDTH.compute0
  let b := b.setPaddingLeft (style.PADDING_LEFT.compute containing_width)
  let b := b.setPaddingRight (style.PADDING_RIGHT.compute containing_width)
  let b := b.setMarginLeft (style.MARGIN_LEFT.compute containing_width)
  b.setMarginRight (style.MARGIN_RIGHT.compute containing_width)

/-- Modelled from the spec: `Box::calculateVertMPB`, whose source is not part of the
repository: the top and bottom border, padding and margin are resolved against the
containing height, as lines 464-471 of `BlockBox::layoutPosition` do. -/
def Box.calculateVertMPB (style : Properties) (containing_height : FixedPoint) (b : Box) : Box :=
  let b := b.setBorderTop style.BORDER_TOP_WIDTH.compute0
  let b := b.setBorderBottom style.BORDER_BOTTOM_WIDTH.compute0
  let b := b.setPaddingTop (style.PADDING_TOP.compute containing_height)
  let b := b.setPaddingBottom (style.PADDING_BOTTOM.compute containing_height)
  let b := b.setMarginTop (style.MARGIN_TOP.compute containing_height)
  b.setMarginBottom (style.MARGIN_BOTTOM.compute containing_height)

/-- The method `InlineBlockBox::layoutWidth` (xhtml_inline_block_box.cpp, lines 77-132). -/
def InlineBlockBox.layoutWidth (style : Properties) (containing : Dimensions) (b : Box) : Box :=
  let containing_width := containing.content_.width
  let css_width := style.WIDTH
  let width : FixedPoint := if !css_width.isAuto then css_width.compute containing_width else 0
  let b := if !css_width.isAuto then b.setContentWidth width else b
  let b := b.calculateHorzMPB style containing_width
  let css_margin_left := style.MARGIN_LEFT
  let css_margin_right := style.MARGIN_RIGHT
  let total := b.getMBPWidth + width
  let b :=
    if !css_width.isAuto && total > containing.content_.width then
      let b := if css_margin_left.isAuto then b.setMarginLeft 0 else b
      if css_margin_right.isAuto then b.setMarginRight 0 else b
    else b
  -- If negative is overflow.
  let underflow := containing.content_.width - total
  if css_width.isAuto then
    let b := if css_margin_left.isAuto then b.setMarginLeft 0 else b
    let b := if css_margin_right.isAuto then b.setMarginRight 0 else b
    if underflow ≥ 0 then
      b.setContentWidth underflow
    else
      let rmargin := css_margin_right.compute containing_width
      let b := b.setMarginRight (rmargin + underflow)
      b.setContentWidth 0
  else if !css_margin_left.isAuto && !css_margin_right.isAuto then
    b.setMarginRight (b.getDimensions.margin_.right + underflow)
  else if !css_margin_left.isAuto && css_margin_right.isAuto then
    b.setMarginRight underflow
  else if css_margin_left.isAuto && !css_margin_right.isAuto then
    b.setMarginLeft underflow
  else if css_margin_left.isAuto && css_margin_right.isAuto then
    (b.setMarginLeft (Int.tdiv underflow 2)).setMarginRight (Int.tdiv underflow 2)
  else b

/-- The method `InlineBlockBox::layoutPosition` (lines 134-146). -/
def InlineBlockBox.layoutPosition {E : Type} (ops : EngineOps E) (style : Properties)
    (containing : Dimensions) (b : Box) (eng : E) : Box :=
  let containing_height := containing.content_.height
  let b := b.calculateVertMPB style containing_height
  let b := b.setContentX (ops.getCursor eng).x
  -- 0 aligns the top of the box with the baseline,
  -- setting to negative height aligns the bottom of the box with the baseline.
  b.setContentY (-b.getDimensions.content_.height)

/-- The first loop of `InlineBlockBox::layoutChildren` (lines 152-162), over the children of
the node. -/
def InlineBlockBox.formatChildren {E : Type} (ops : EngineOps E) :
    List Node → Box → E → Box × E
  | [], b, eng => (b, eng)
  | child :: rest, b, eng =>
    let eng := ops.pushOpenBox eng
    let (box_child, b, eng) := ops.formatNode child b b.getDimensions eng
    let b :=
      match box_child with
      | some c =>
        b.setContentHeight
          (c.getDimensions.content_.y + c.getDimensions.content_.height + c.getMBPBottom)
      | none => b
    let eng := ops.closeOpenBox eng
    let eng := ops.popOpenBox eng
    InlineBlockBox.formatChildren ops rest b eng

/-- The method `InlineBlockBox::layoutChildren` (lines 148-175). -/
def InlineBlockBox.layoutChildren {E : Type} (ops : EngineOps E)
    (node : Option InlineBlockNode) (style : Properties) (b : Box) (eng : E) : Box × E :=
  let (b, eng) :=
    match node with
    | some n => InlineBlockBox.formatChildren ops n.children b eng
    | none => (b, eng)
  let acc : FixedPoint × Box := b.getChildren.foldl
    (fun (acc : FixedPoint × Box) child =>
      (max acc.1 (child.getDimensions.content_.width + child.getMBPWidth),
        acc.2.setContentHeight
          (child.getDimensions.content_.y + child.getDimensions.content_.height
            + child.getMBPHeight))) (0, b)
  let width := acc.1
  let b := acc.2
  if style.WIDTH.isAuto then
    let b := b.setContentWidth width
    (b, ops.incrCursor eng (b.getDimensions.content_.width + b.getMBPWidth))
  else (b, eng)

/-- The method `InlineBlockBox::layoutHeight` (lines 177-196). -/
def InlineBlockBox.layoutHeight (style : Properties) (containing : Dimensions) (b : Box) : Box :=
  -- a set height value overrides the calculated value.
  if !style.HEIGHT.isAuto then
    b.setContentHeight (style.HEIGHT.compute containing.content_.height)
  else b

/-- The method `InlineBlockBox::handleLayout` (lines 43-75). The call `node->setDimensions`
on the replaced path changes the node only and is not represented. -/
def InlineBlockBox.handleLayout {E : Type} (ops : EngineOps E) (node : Option InlineBlockNode)
    (style : Properties) (containing : Dimensions) (b : Box) (eng : E) : Box × E :=
  let is_replaced : Bool :=
    match node with
    | some n => if n.id = .ELEMENT then n.isReplaced else false
    | none => false
  if is_replaced then
    let w : Int := match node with | some n => n.w | none => 0
    let h : Int := match node with | some n => n.h | none => 0
    let b := b.calculateHorzMPB style containing.content_.width
    let b := b.setContentRect ⟨0, 0, w * fixed_point_scale, h * fixed_point_scale⟩
    let css_width := style.WIDTH
    let css_height := style.HEIGHT
    let b :=
      if !css_width.isAuto then b.setContentWidth (css_width.compute containing.content_.width)
      else b
    let b :=
      if !css_height.isAuto then
        b.setContentHeight (css_height.compute containing.content_.height)
      else b
    let b := InlineBlockBox.layoutPosition ops style containing b eng
    InlineBlockBox.layoutChildren ops node style b eng
  else
    let b := InlineBlockBox.layoutWidth style containing b
    let b := InlineBlockBox.layoutPosition ops style containing b eng
    let (b, eng) := InlineBlockBox.layoutChildren ops node style b eng
    (InlineBlockBox.layoutHeight style containing b, eng)

/-- An engine whose state is just the cursor: the open-box operations do nothing and
`formatNode` produces no box. -/
def exampleEngineOps : EngineOps Point :=
  { getCursor := fun e => e,
    pushOpenBox := fun e => e,
    popOpenBox := fun e => e,
    closeOpenBox := fun e => e,
    incrCursor := fun e v => { e with x := e.x + v },
    formatNode := fun _ b _ e => (none, b, e) }

/-- A replaced element of intrinsic size 10 by 20, without children. -/
def exampleReplacedNode : InlineBlockNode :=
  { id := .ELEMENT, isReplaced := true, w := 10, h := 20, children := [] }

/-- A non-replaced element without children. -/
def exampleInlineBlockNode : InlineBlockNode :=
  { id := .ELEMENT, isReplaced := false, w := 0, h := 0, children := [] }

/-- A justified text style with the given vertical alignment in which every metric is
non-zero: line height 16, parent line height 20, parent baseline offset 4, bottom offset 3,
vertical-align length 5. -/
def exampleJustifiedStyle (va : CssVerticalAlign) : TextLayoutStyle :=
  { textAlign := .JUSTIFY, direction := .LTR, verticalAlign := va,
    verticalAlignLength := Length.fixed 5, lineHeight := 16, parentLineHeight := 20,
    parentBaselineOffset := 4, bottomOffset := 3 }

/-- A text box whose line is 100 wide and sits at offset (40, 7). -/
def exampleOffsetTextBox : TextBox :=
  { line_ := { TextBox.empty.line_ with width_ := 100, offset_ := ⟨40, 7⟩ } }

/-- A box of the given kind with the given content width and height and left margin, and
nothing else. -/
def exampleSizedBox (id : BoxId) (w h ml : FixedPoint) : Box :=
  (((Box.new id none).setContentWidth w).setContentHeight h).setMarginLeft ml

/-- A line box holding a text box 30 wide and 12 high with left margin 2 and an inline element
box 50 wide and 20 high. -/
def exampleTwoChildLine : Box :=
  { Box.new .LINE none with
    boxes_ := [exampleSizedBox .TEXT 30 12 2, exampleSizedBox .INLINE_ELEMENT 50 20 0] }

/-- A line box whose only child is an inline element box of content height -10 (the height
`InlineElementBox::layout` gives it when its child has height 0 and bottom margin -10). -/
def exampleNegativeLine : Box :=
  { Box.new .LINE none with boxes_ := [exampleSizedBox .INLINE_ELEMENT 50 (-10) 0] }

/-- A container of content width 300 with `exampleFloat` as left float and the cursor at
(7, 50), whose only child is a block box: no line box is open on it. -/
def exampleFloatContainerWithBlock : Box :=
  (exampleFloatContainer 300 ⟨7, 50⟩).addChild exampleBlock

/-- The same container with `exampleTwoChildLine` as its last child: a line box is open. -/
def exampleFloatContainerWithLine : Box :=
  ((exampleFloatContainer 300 ⟨7, 50⟩).addChild exampleBlock).addChild exampleTwoChildLine

/-- The float container (width 300, left float 50 wide and 100 high, cursor at (7, 50)) with
`exampleNegativeLine` as its open line box. -/
def exampleFloatContainerWithNegativeLine : Box :=
  (exampleFloatContainer 300 ⟨7, 50⟩).addChild exampleNegativeLine

/-- An element with `width: 401` and both horizontal margins auto (the style of
`ctxCentered`), without children. -/
def exampleFixedWidthNode : Node :=
  { id := .ELEMENT, properties := ctxCentered.top, children := [], text := none }

/-- A text of three tokens: each reflow hands out the word `a` as a line that ends with a
hard line end, and advances the iterator by one. -/
def exampleHardLines : Text :=
  { size := fun _ => 3,
    reflowText := fun _ it _ =>
      ({ line := [exampleWordA], space_advance := 5, is_end_line := true }, it + 1) }

/-- A text node holding `exampleHardLines`. -/
def exampleHardLinesNode : Node :=
  { id := .TEXT, properties := exampleProperties, children := [],
    text := some exampleHardLines }

/-- The width of the margin box of `b` around a content of width `w`, from left to right: left
margin, border and padding, the width, and right padding, border and margin. It is the
quantity `getMBPWidth() + width` that `BlockBox::layoutWidth` calls `total` (line 418), read
off the box after the layout. -/
def Box.marginBoxWidth (b : Box) (w : FixedPoint) : FixedPoint :=
  b.dimensions_.margin_.left + b.dimensions_.border_.left + b.dimensions_.padding_.left + w
    + b.dimensions_.padding_.right + b.dimensions_.border_.right + b.dimensions_.margin_.right

/-- An inline element whose only child is an empty block with `margin-bottom: -10`. -/
def exampleInlineNegativeNode : Node :=
  { id := .ELEMENT, properties := { exampleProperties with DISPLAY := .INLINE },
    children := [{ id := .ELEMENT,
                   properties := { exampleProperties with
                     MARGIN_BOTTOM := .length (Length.fixed (-10)) },
                   children := [], text := none }],
    text := none }

/-- A block box without a node that is the engine's root box. -/
def exampleRootBlock : Box := { Box.new .BLOCK none with isRoot_ := true }

/-- The activity test as the specification words it (sections 3 and 4.2), not as the code
tests it: a float `f` is active at the cursor of `b` when the cursor's `y` exceeds the float's
top offset and lies within the float's vertical extent. `Box.floatActiveAtCursor` is the test
of the code, which compares the cursor's `x` with the lower end of the extent. -/
def Box.floatActiveInBand (b f : Box) : Bool :=
  b.cursor_.y > f.getMPBTop
    && b.cursor_.y ≤ f.getMPBTop + f.getMBPHeight + f.getDimensions.content_.height

end xhtml

namespace css

/-- The `CssLengthUnits` enumeration, as used by `CssLength::evaluate`. -/
inductive CssLengthUnits where
  | NUMBER | EM | EX | IN | CM | MM | PT | PC | PX | PERCENT
  deriving DecidableEq, Repr

/-- The `CssLengthParam` enumeration: a plain value or the keyword `auto`. -/
inductive CssLengthParam where
  | VALUE | AUTO
  deriving DecidableEq, Repr

/-- The class `CssLength`; `value_` is a `double` in the source, embedded as a rational. -/
structure CssLength where
  param_ : CssLengthParam
  value_ : ℚ
  units_ : CssLengthUnits
  deriving DecidableEq

/-- The constructor `CssLength::CssLength(double value, const std::string& units)`
(css_styles.cpp, lines 78-105). An unrecognised unit string is only logged. -/
def CssLength.new (value : ℚ) (units : String) : CssLength :=
  let l : CssLength := { param_ := .VALUE, value_ := value, units_ := .NUMBER }
  if units = "em" then { l with units_ := .EM }
  else if units = "ex" then { l with units_ := .EX }
  else if units = "in" then { l with units_ := .IN }
  else if units = "cm" then { l with units_ := .CM }
  else if units = "mm" then { l with units_ := .MM }
  else if units = "pt" then { l with units_ := .PT }
  else if units = "pc" then { l with units_ := .PC }
  else if units = "px" then { l with units_ := .PX }
  else if units = "%" then
    -- normalize to range 0.0 -> 1.0
    { l with units_ := .PERCENT, value_ := l.value_ / 100 }
  else l

/-- The constructor `CssLength::CssLength(CssLengthParam param)` (lines 107-112). -/
def CssLength.ofParam (param : CssLengthParam) : CssLength :=
  { param_ := param, value_ := 0, units_ := .NUMBER }

/-- Modelled from the spec: `CssLength::isAuto`, declared in a header that is not part of the
sources: the length is the keyword `auto`. -/
def CssLength.isAuto (l : CssLength) : Bool := l.param_ = .AUTO

/-- The method `CssLength::evaluate` (lines 114-146); the trailing assertion is unreachable
for the enumeration. -/
def CssLength.evaluate (l : CssLength) (ctx : xhtml.FontRenderContext) (length : ℚ) : ℚ :=
  -- auto values evaluate as 0
  if l.isAuto then 0
  else
    let dpi := ctx.getDPI
    match l.units_ with
    | .NUMBER | .PX => l.value_ * dpi / 72 * (3 / 4)
    | .EM => ctx.getFontSize * l.value_ * dpi / 72
    | .EX => ctx.getFontXHeight * l.value_ * dpi / 72
    | .IN => l.value_ * dpi
    | .CM => l.value_ * dpi * (254 / 100)
    | .MM => l.value_ * dpi * (254 / 10)
    | .PT => l.value_ * dpi / 72
    | .PC => 12 * l.value_ * dpi / 72
    | .PERCENT => l.value_ * length

/-- The unit strings that the constructor of `CssLength` recognises. -/
def recognisedUnits : List String := ["em", "ex", "in", "cm", "mm", "pt", "pc", "px", "%"]

/-- The largest `k` with `2 ^ k ≤ n` (0 for `n = 0`), by halving at most `fuel` times; `fuel := n`
is always enough. -/
def log2Fuel : Nat → Nat → Nat
  | 0, _ => 0
  | fuel + 1, n => if 2 ≤ n then log2Fuel fuel (n / 2) + 1 else 0

/-- The fraction `n / d` rounded to the nearest natural number, a tie going to the even
one. -/
def roundHalfEven (n d : Nat) : Nat :=
  let q := n / d
  let r := n % d
  if 2 * r < d then q else if 2 * r > d then q + 1 else if q % 2 = 0 then q else q + 1

/-- The power `2 ^ e` for an integer exponent, as a rational. -/
def pow2 (e : Int) : ℚ :=
  if 0 ≤ e then ((2 ^ e.toNat : ℕ) : ℚ) else 1 / ((2 ^ (-e).toNat : ℕ) : ℚ)

/-- The rounding of binary64 arithmetic (the C++ type `double`, IEEE 754 round-to-nearest,
ties to even): the value `m * 2 ^ e` with a 53-bit significand `2 ^ 52 ≤ m ≤ 2 ^ 53` that is
nearest to `q`. Every arithmetic operation on `double` returns the exact result rounded this
way, and a decimal literal denotes its rounded value. The exponent range is not modelled
(no overflow, no subnormal numbers). -/
def roundDouble (q : ℚ) : ℚ :=
  if q = 0 then 0
  else
    let n := q.num.natAbs
    let d := q.den
    let e0 : Int := (log2Fuel n n : Int) - (log2Fuel d d : Int) - 52
    let n0 := if 0 ≤ e0 then n else n * 2 ^ (-e0).toNat
    let d0 := if 0 ≤ e0 then d * 2 ^ e0.toNat else d
    -- `n0 / d0` lies between `2 ^ 51` and `2 ^ 53`
    let e : Int := if n0 / d0 < 2 ^ 52 then e0 - 1 else e0
    let n1 := if 0 ≤ e then n else n * 2 ^ (-e).toNat
    let d1 := if 0 ≤ e then d * 2 ^ e.toNat else d
    let m := roundHalfEven n1 d1
    (if q < 0 then -1 else 1) * (m : ℚ) * pow2 e

/-- The function `get_font_size_table` (lines 33-49). The function-local static vector `res`
is the state: it is passed in and the returned table is also its new value. `std::ceil` is
discontinuous, so here the arithmetic is that of `double`: the quotient `9.0 / 72.0`, each
product and each decimal literal is rounded by `roundDouble` before the ceiling is taken
(`50 * 1.1` is a little above 55 in binary64). `ppi` is taken as it is: it is a `double`
already. -/
def get_font_size_table (res : List ℚ) (ppi : ℚ) : List ℚ :=
  if res.isEmpty then
    -- First guess implementation.
    let min_size : ℚ := roundDouble (roundDouble (9 / 72) * ppi)
    [min_size,
      (⌈roundDouble (min_size * roundDouble (11 / 10))⌉ : ℤ),
      (⌈roundDouble (min_size * roundDouble (13 / 10))⌉ : ℤ),
      (⌈roundDouble (min_size * roundDouble (145 / 100))⌉ : ℤ),
      (⌈roundDouble (min_size * roundDouble (16 / 10))⌉ : ℤ),
      (⌈roundDouble (min_size * roundDouble (18 / 10))⌉ : ℤ),
      (⌈roundDouble (min_size * roundDouble 2)⌉ : ℤ),
      (⌈roundDouble (min_size * roundDouble (23 / 10))⌉ : ℤ)]
  else res

/-- The `FontSizeRelative` enumeration. -/
inductive FontSizeRelative where
  | LARGER | SMALLER
  deriving DecidableEq, Repr

/-- The class `FontSize`. `absolute_` is the keyword as the index `static_cast<int>(absolute_)`
into the table. -/
structure FontSize where
  is_absolute_ : Bool
  absolute_ : Nat
  is_relative_ : Bool
  relative_ : FontSizeRelative
  is_length_ : Bool
  length_ : CssLength

/-- The method `FontSize::getFontSize` (lines 148-166), with the static table of
`get_font_size_table` passed in and handed back. Indexing past the end of the table is
undefined in the source. -/
def FontSize.getFontSize (fs : FontSize) (res : List ℚ) (ctx : xhtml.FontRenderContext)
    (parent_fs : ℚ) : Except xhtml.LayoutError ℚ × List ℚ :=
  if fs.is_absolute_ then
    let table := get_font_size_table res ctx.getDPI
    match table.get? fs.absolute_ with
    | some size => (.ok size, table)
    | none => (.error .undefinedBehaviour, table)
  else if fs.is_relative_ then
    -- XXX hack
    if fs.relative_ = .LARGER then (.ok (parent_fs * (115 / 100)), res)
    else (.ok (parent_fs / (115 / 100)), res)
  else if fs.is_length_ then (.ok (fs.length_.evaluate ctx parent_fs), res)
  else (.error (.assertion "FontSize has no definite size defined!"), res)

/-- A font size given by the absolute keyword with the given table index. -/
def FontSize.absolute (index : Nat) : FontSize :=
  { is_absolute_ := true, absolute_ := index, is_relative_ := false, relative_ := .LARGER,
    is_length_ := false, length_ := CssLength.ofParam .AUTO }

end css

namespace xhtml

/-! ## Block width algorithm -/

theorem Width.compute_of_isAuto (w : Width) (ref : FixedPoint) (h : w.isAuto = true) :
    w.compute ref = 0 := by
  cases w with
  | auto => rfl
  | length len => simp [Width.isAuto] at h

/-- Claim C1: for a block whose CSS width is not auto and whose left and right margins are
both auto, after `layoutWidth` the left margin equals the right margin and each is
`(containingWidth - MBPwidth - width) / 2` (C++ division), with the auto margins counted as 0
in `MBPwidth`; no assumption is made on the sign of the underflow. -/
theorem layoutWidth_both_margins_auto (ctx : RenderContext) (containing : Dimensions) (b : Box)
    (hw : ctx.top.WIDTH.isAuto = false)
    (hl : ctx.top.MARGIN_LEFT.isAuto = true) (hr : ctx.top.MARGIN_RIGHT.isAuto = true) :
    (BlockBox.layoutWidth ctx containing b).dimensions_.margin_.left
        = (BlockBox.layoutWidth ctx containing b).dimensions_.margin_.right
      ∧ (BlockBox.layoutWidth ctx containing b).dimensions_.margin_.left
        = Int.tdiv (containing.content_.width - BlockBox.resolvedMBPWidth ctx containing
            - ctx.top.WIDTH.compute containing.content_.width) 2 := by
  have h1 := Width.compute_of_isAuto _ containing.content_.width hl
  have h2 := Width.compute_of_isAuto _ containing.content_.width hr
  simp [BlockBox.layoutWidth, BlockBox.resolvedMBPWidth, hw, hl, hr, h1, h2,
    Box.setMarginLeft, Box.setMarginRight, Box.setPaddingLeft, Box.setPaddingRight,
    Box.setBorderLeft, Box.setBorderRight, Box.getMBPWidth, Box.setContentWidth,
    Box.getDimensions]
  congr 1
  omega

/-- Witness for C1 in the overflow case: width 401 in a containing width of 300 gives an
underflow of -101 and both margins `-101 / 2 = -50`. -/
theorem layoutWidth_both_margins_auto_witness :
    ((BlockBox.layoutWidth ctxCentered (exampleContaining 300) exampleBlock).dimensions_.margin_.left
        = (BlockBox.layoutWidth ctxCentered (exampleContaining 300)
            exampleBlock).dimensions_.margin_.right
      ∧ (BlockBox.layoutWidth ctxCentered (exampleContaining 300)
            exampleBlock).dimensions_.margin_.left
        = Int.tdiv ((exampleContaining 300).content_.width
            - BlockBox.resolvedMBPWidth ctxCentered (exampleContaining 300)
            - ctxCentered.top.WIDTH.compute (exampleContaining 300).content_.width) 2)
    ∧ (BlockBox.layoutWidth ctxCentered (exampleContaining 300)
          exampleBlock).dimensions_.margin_.left = -50 :=
  ⟨layoutWidth_both_margins_auto ctxCentered (exampleContaining 300) exampleBlock rfl rfl rfl,
    by decide⟩

/-- Claim C2: for a block with CSS width auto, whenever the underflow
`containingWidth - MBPwidth` is non-negative, after `layoutWidth` the content width plus the
margin+border+padding width of the box equals the containing width. -/
theorem layoutWidth_auto_fills (ctx : RenderContext) (containing : Dimensions) (b : Box)
    (hw : ctx.top.WIDTH.isAuto = true)
    (hu : 0 ≤ containing.content_.width - BlockBox.resolvedMBPWidth ctx containing) :
    (BlockBox.layoutWidth ctx containing b).dimensions_.content_.width
        + (BlockBox.layoutWidth ctx containing b).getMBPWidth
      = containing.content_.width := by
  simp only [BlockBox.resolvedMBPWidth] at hu
  cases hl : ctx.top.MARGIN_LEFT.isAuto <;> cases hr : ctx.top.MARGIN_RIGHT.isAuto <;>
    simp [BlockBox.layoutWidth, hw, hl, hr, Width.compute_of_isAuto,
      Box.setMarginLeft, Box.setMarginRight, Box.setPaddingLeft, Box.setPaddingRight,
      Box.setBorderLeft, Box.setBorderRight, Box.getMBPWidth, Box.setContentWidth,
      Box.getDimensions] <;>
    simp [Width.compute_of_isAuto, hw, hl, hr] at hu <;>
    split_ifs <;> simp

/-- Witness for C2: auto width, left margin 20 and left padding 30 in a containing width of
300 give a content width of 250. -/
theorem layoutWidth_auto_fills_witness :
    ((BlockBox.layoutWidth ctxAutoWidth (exampleContaining 300) exampleBlock).dimensions_.content_.width
        + (BlockBox.layoutWidth ctxAutoWidth (exampleContaining 300) exampleBlock).getMBPWidth
      = (exampleContaining 300).content_.width)
    ∧ (BlockBox.layoutWidth ctxAutoWidth (exampleContaining 300)
        exampleBlock).dimensions_.content_.width = 250 :=
  ⟨layoutWidth_auto_fills ctxAutoWidth (exampleContaining 300) exampleBlock rfl (by decide),
    by decide⟩

/-- Counterexample to C3 as stated: with width auto, an auto right margin and a left padding
of 400 in a containing width of 300, the auto right margin ends at -100, not at 0. -/
theorem layoutWidth_auto_margin_right_not_zero :
    ctxAutoOverflow.top.WIDTH.isAuto = true
    ∧ ctxAutoOverflow.top.MARGIN_RIGHT.isAuto = true
    ∧ (BlockBox.layoutWidth ctxAutoOverflow (exampleContaining 300)
        exampleBlock).dimensions_.margin_.right = -100
    ∧ (BlockBox.layoutWidth ctxAutoOverflow (exampleContaining 300)
        exampleBlock).dimensions_.margin_.right ≠ 0 := by
  decide

/-- Claim C3, amended: for a block with CSS width auto, `layoutWidth` leaves an auto left
margin at 0, and leaves an auto right margin at 0 whenever the underflow is non-negative; in
particular a block with width auto, both margins auto and no border or padding ends with the
containing width as its content width and with margins 0 and 0 (containing width 300:
content width 300). -/
theorem layoutWidth_auto_margins (ctx : RenderContext) (containing : Dimensions) (b : Box)
    (hw : ctx.top.WIDTH.isAuto = true) :
    (ctx.top.MARGIN_LEFT.isAuto = true →
        (BlockBox.layoutWidth ctx containing b).dimensions_.margin_.left = 0)
    ∧ (ctx.top.MARGIN_RIGHT.isAuto = true →
        0 ≤ containing.content_.width - BlockBox.resolvedMBPWidth ctx containing →
        (BlockBox.layoutWidth ctx containing b).dimensions_.margin_.right = 0)
    ∧ (ctx.top.MARGIN_LEFT.isAuto = true → ctx.top.MARGIN_RIGHT.isAuto = true →
        ctx.top.BORDER_LEFT_WIDTH.compute0 = 0 → ctx.top.BORDER_RIGHT_WIDTH.compute0 = 0 →
        ctx.top.PADDING_LEFT.compute containing.content_.width = 0 →
        ctx.top.PADDING_RIGHT.compute containing.content_.width = 0 →
        0 ≤ containing.content_.width →
        (BlockBox.layoutWidth ctx containing b).dimensions_.content_.width
            = containing.content_.width
          ∧ (BlockBox.layoutWidth ctx containing b).dimensions_.margin_.left = 0
          ∧ (BlockBox.layoutWidth ctx containing b).dimensions_.margin_.right = 0) := by
  refine ⟨?_, ?_, ?_⟩
  · intro hl
    cases hr : ctx.top.MARGIN_RIGHT.isAuto <;>
      simp [BlockBox.layoutWidth, hw, hl, hr, Width.compute_of_isAuto,
        Box.setMarginLeft, Box.setMarginRight, Box.setPaddingLeft, Box.setPaddingRight,
        Box.setBorderLeft, Box.setBorderRight, Box.getMBPWidth, Box.setContentWidth,
        Box.getDimensions] <;>
      split_ifs <;> simp
  · intro hr hu
    simp only [BlockBox.resolvedMBPWidth] at hu
    cases hl : ctx.top.MARGIN_LEFT.isAuto <;>
      simp [BlockBox.layoutWidth, hw, hl, hr, Width.compute_of_isAuto,
        Box.setMarginLeft, Box.setMarginRight, Box.setPaddingLeft, Box.setPaddingRight,
        Box.setBorderLeft, Box.setBorderRight, Box.getMBPWidth, Box.setContentWidth,
        Box.getDimensions] <;>
      simp [Width.compute_of_isAuto, hw, hl, hr] at hu <;>
      split_ifs <;> simp
  · intro hl hr hbl hbr hpl hpr hcw
    simp [BlockBox.layoutWidth, hw, hl, hr, hbl, hbr, hpl, hpr, hcw, Width.compute_of_isAuto,
      Box.setMarginLeft, Box.setMarginRight, Box.setPaddingLeft, Box.setPaddingRight,
      Box.setBorderLeft, Box.setBorderRight, Box.getMBPWidth, Box.setContentWidth,
      Box.getDimensions]

/-- Witness for C3: the child block with `width: auto; margin: auto` in a containing block of
width 300 ends with content width 300 and margins 0 and 0. -/
theorem layoutWidth_auto_margins_witness :
    (BlockBox.layoutWidth ctxAllAuto (exampleContaining 300) exampleBlock).dimensions_.content_.width
        = 300
      ∧ (BlockBox.layoutWidth ctxAllAuto (exampleContaining 300)
          exampleBlock).dimensions_.margin_.left = 0
      ∧ (BlockBox.layoutWidth ctxAllAuto (exampleContaining 300)
          exampleBlock).dimensions_.margin_.right = 0 :=
  (layoutWidth_auto_margins ctxAllAuto (exampleContaining 300) exampleBlock rfl).2.2
    rfl rfl rfl rfl rfl rfl (by decide)

/-- Claim C4: for a block with CSS width auto whose underflow `containingWidth - MBPwidth` is
negative, after `layoutWidth` the content width is 0, the right margin is its resolved value
plus the underflow, and the left margin is its resolved value (0 if auto). -/
theorem layoutWidth_auto_overflow (ctx : RenderContext) (containing : Dimensions) (b : Box)
    (hw : ctx.top.WIDTH.isAuto = true)
    (hu : containing.content_.width - BlockBox.resolvedMBPWidth ctx containing < 0) :
    (BlockBox.layoutWidth ctx containing b).dimensions_.content_.width = 0
    ∧ (BlockBox.layoutWidth ctx containing b).dimensions_.margin_.right
        = ctx.top.MARGIN_RIGHT.compute containing.content_.width
          + (containing.content_.width - BlockBox.resolvedMBPWidth ctx containing)
    ∧ (BlockBox.layoutWidth ctx containing b).dimensions_.margin_.left
        = ctx.top.MARGIN_LEFT.compute containing.content_.width
    ∧ (ctx.top.MARGIN_LEFT.isAuto = true →
        (BlockBox.layoutWidth ctx containing b).dimensions_.margin_.left = 0) := by
  simp only [BlockBox.resolvedMBPWidth] at hu ⊢
  cases hl : ctx.top.MARGIN_LEFT.isAuto <;> cases hr : ctx.top.MARGIN_RIGHT.isAuto <;>
    simp [BlockBox.layoutWidth, hw, hl, hr, Width.compute_of_isAuto,
      Box.setMarginLeft, Box.setMarginRight, Box.setPaddingLeft, Box.setPaddingRight,
      Box.setBorderLeft, Box.setBorderRight, Box.getMBPWidth, Box.setContentWidth,
      Box.getDimensions] <;>
    simp [Width.compute_of_isAuto, hw, hl, hr] at hu <;>
    split_ifs <;> simp <;> linarith

/-- Witness for C4: auto width, margins 10 and 20 and a left padding of 400 in a containing
width of 300: the underflow is -130, the content width 0, the right margin -110 and the left
margin 10. -/
theorem layoutWidth_auto_overflow_witness :
    ((BlockBox.layoutWidth ctxAutoOverflowFixed (exampleContaining 300)
        exampleBlock).dimensions_.content_.width = 0
    ∧ (BlockBox.layoutWidth ctxAutoOverflowFixed (exampleContaining 300)
        exampleBlock).dimensions_.margin_.right
        = ctxAutoOverflowFixed.top.MARGIN_RIGHT.compute (exampleContaining 300).content_.width
          + ((exampleContaining 300).content_.width
              - BlockBox.resolvedMBPWidth ctxAutoOverflowFixed (exampleContaining 300))
    ∧ (BlockBox.layoutWidth ctxAutoOverflowFixed (exampleContaining 300)
        exampleBlock).dimensions_.margin_.left
        = ctxAutoOverflowFixed.top.MARGIN_LEFT.compute (exampleContaining 300).content_.width
    ∧ (ctxAutoOverflowFixed.top.MARGIN_LEFT.isAuto = true →
        (BlockBox.layoutWidth ctxAutoOverflowFixed (exampleContaining 300)
          exampleBlock).dimensions_.margin_.left = 0))
    ∧ (BlockBox.layoutWidth ctxAutoOverflowFixed (exampleContaining 300)
        exampleBlock).dimensions_.margin_.right = -110
    ∧ (BlockBox.layoutWidth ctxAutoOverflowFixed (exampleContaining 300)
        exampleBlock).dimensions_.margin_.left = 10 :=
  ⟨layoutWidth_auto_overflow ctxAutoOverflowFixed (exampleContaining 300) exampleBlock rfl
      (by decide), by decide, by decide⟩

/-- Claim C5: for a block with non-auto CSS width and both horizontal margins non-auto,
`layoutWidth` adds the whole underflow `containingWidth - MBPwidth - width` (of either sign)
to the right margin and leaves the left margin and the content width of the box unchanged,
so that afterwards the margins, borders and paddings plus the resolved width add up to the
containing width. -/
theorem layoutWidth_fixed_margins (ctx : RenderContext) (containing : Dimensions) (b : Box)
    (hw : ctx.top.WIDTH.isAuto = false)
    (hl : ctx.top.MARGIN_LEFT.isAuto = false) (hr : ctx.top.MARGIN_RIGHT.isAuto = false) :
    (BlockBox.layoutWidth ctx containing b).dimensions_.margin_.right
        = ctx.top.MARGIN_RIGHT.compute containing.content_.width
          + BlockBox.resolvedUnderflow ctx containing
    ∧ (BlockBox.layoutWidth ctx containing b).dimensions_.margin_.left
        = ctx.top.MARGIN_LEFT.compute containing.content_.width
    ∧ (BlockBox.layoutWidth ctx containing b).dimensions_.content_.width
        = b.dimensions_.content_.width
    ∧ (BlockBox.layoutWidth ctx containing b).dimensions_.margin_.left
        + (BlockBox.layoutWidth ctx containing b).dimensions_.border_.left
        + (BlockBox.layoutWidth ctx containing b).dimensions_.padding_.left
        + ctx.top.WIDTH.compute containing.content_.width
        + (BlockBox.layoutWidth ctx containing b).dimensions_.padding_.right
        + (BlockBox.layoutWidth ctx containing b).dimensions_.border_.right
        + (BlockBox.layoutWidth ctx containing b).dimensions_.margin_.right
      = containing.content_.width := by
  simp [BlockBox.layoutWidth, BlockBox.resolvedUnderflow, BlockBox.resolvedMBPWidth, hw, hl, hr,
    Box.setMarginLeft, Box.setMarginRight, Box.setPaddingLeft, Box.setPaddingRight,
    Box.setBorderLeft, Box.setBorderRight, Box.getMBPWidth, Box.setContentWidth,
    Box.getDimensions]
  constructor <;> ring

/-- Witness for C5: width 100 with margins 10 and 20 in a containing width of 300: the
underflow 170 goes to the right margin, which ends at 190. -/
theorem layoutWidth_fixed_margins_witness :
    (BlockBox.layoutWidth ctxFixedMargins (exampleContaining 300)
        exampleBlock).dimensions_.margin_.right
      = ctxFixedMargins.top.MARGIN_RIGHT.compute (exampleContaining 300).content_.width
        + BlockBox.resolvedUnderflow ctxFixedMargins (exampleContaining 300)
    ∧ (BlockBox.layoutWidth ctxFixedMargins (exampleContaining 300)
        exampleBlock).dimensions_.margin_.right = 190 :=
  ⟨(layoutWidth_fixed_margins ctxFixedMargins (exampleContaining 300) exampleBlock
      rfl rfl rfl).1, by decide⟩

/-- Claim C6: for a block with non-auto CSS width and exactly one of the two horizontal
margins auto, after `layoutWidth` the auto margin equals the underflow
`containingWidth - MBPwidth - width` (the auto margin counted as 0) and the other margin keeps
its resolved value. -/
theorem layoutWidth_one_margin_auto (ctx : RenderContext) (containing : Dimensions) (b : Box)
    (hw : ctx.top.WIDTH.isAuto = false) :
    (ctx.top.MARGIN_LEFT.isAuto = false → ctx.top.MARGIN_RIGHT.isAuto = true →
        (BlockBox.layoutWidth ctx containing b).dimensions_.margin_.right
            = BlockBox.resolvedUnderflow ctx containing
          ∧ (BlockBox.layoutWidth ctx containing b).dimensions_.margin_.left
            = ctx.top.MARGIN_LEFT.compute containing.content_.width)
    ∧ (ctx.top.MARGIN_LEFT.isAuto = true → ctx.top.MARGIN_RIGHT.isAuto = false →
        (BlockBox.layoutWidth ctx containing b).dimensions_.margin_.left
            = BlockBox.resolvedUnderflow ctx containing
          ∧ (BlockBox.layoutWidth ctx containing b).dimensions_.margin_.right
            = ctx.top.MARGIN_RIGHT.compute containing.content_.width) := by
  constructor <;> intro hl hr <;>
    simp [BlockBox.layoutWidth, BlockBox.resolvedUnderflow, BlockBox.resolvedMBPWidth, hw, hl,
      hr, Width.compute_of_isAuto,
      Box.setMarginLeft, Box.setMarginRight, Box.setPaddingLeft, Box.setPaddingRight,
      Box.setBorderLeft, Box.setBorderRight, Box.getMBPWidth, Box.setContentWidth,
      Box.getDimensions] <;>
    ring

/-- Witness for C6: width 100, auto left margin and right margin 20 in a containing width of
300: the left margin ends at the underflow 180 and the right margin stays 20. -/
theorem layoutWidth_one_margin_auto_witness :
    ((BlockBox.layoutWidth ctxLeftAuto (exampleContaining 300)
        exampleBlock).dimensions_.margin_.left
        = BlockBox.resolvedUnderflow ctxLeftAuto (exampleContaining 300)
      ∧ (BlockBox.layoutWidth ctxLeftAuto (exampleContaining 300)
        exampleBlock).dimensions_.margin_.right
        = ctxLeftAuto.top.MARGIN_RIGHT.compute (exampleContaining 300).content_.width)
    ∧ (BlockBox.layoutWidth ctxLeftAuto (exampleContaining 300)
        exampleBlock).dimensions_.margin_.left = 180 :=
  ⟨(layoutWidth_one_margin_auto ctxLeftAuto (exampleContaining 300) exampleBlock rfl).2
      rfl rfl, by decide⟩

/-! ## Float queries -/

/-- Counterexample to C7 as stated. The float spans `[0,100)` and is 50 wide. With the cursor
at `y = 0` (a band that starts inside `[0,100)`) the query returns the full container width
300 rather than 250; and in a container of width 30 with the cursor inside the band the query
returns 0 rather than `30 - 50`. -/
theorem getWidthAtCursor_band_top_and_floor :
    exampleFloat.getMPBTop = 0
    ∧ exampleFloat.getMBPHeight + exampleFloat.dimensions_.content_.height = 100
    ∧ exampleFloat.getMBPWidth + exampleFloat.dimensions_.content_.width = 50
    ∧ (exampleFloatContainer 300 ⟨0, 0⟩).getWidthAtCursor = 300
    ∧ (exampleFloatContainer 300 ⟨0, 0⟩).getWidthAtCursor ≠ 300 - 50
    ∧ (exampleFloatContainer 30 ⟨1, 1⟩).getWidthAtCursor = 0
    ∧ (exampleFloatContainer 30 ⟨1, 1⟩).getWidthAtCursor ≠ 30 - 50 := by
  decide

/-- The second half of the activity test reads the horizontal cursor: with the cursor at
`(0, 200)`, below the band `[0,100)`, the float still narrows the width to 250, and at
`(101, 50)`, inside the band, it does not. -/
theorem getWidthAtCursor_reads_cursor_x :
    (exampleFloatContainer 300 ⟨0, 200⟩).getWidthAtCursor = 250
    ∧ (exampleFloatContainer 300 ⟨101, 50⟩).getWidthAtCursor = 300 := by
  decide

/-- Claim C7, amended: for a container whose only float is a left float with top offset 0,
vertical extent 100 and outer width 50, `getWidthAtCursor` returns the container width minus
50, floored at 0, for every cursor with `0 < y ≤ 100` and `x ≤ 100`, and returns the
container width, floored at 0, for every cursor with `y ≤ 0` and for every cursor with
`y > 100` and `x > 100`. -/
theorem getWidthAtCursor_one_left_float (b lf : Box)
    (hl : b.left_floats_ = [lf]) (hr : b.right_floats_ = [])
    (htop : lf.getMPBTop = 0)
    (hext : lf.getMBPHeight + lf.dimensions_.content_.height = 100)
    (hw : lf.getMBPWidth + lf.dimensions_.content_.width = 50) :
    (0 < b.cursor_.y → b.cursor_.y ≤ 100 → b.cursor_.x ≤ 100 →
        b.getWidthAtCursor = max (b.dimensions_.content_.width - 50) 0)
    ∧ (b.cursor_.y ≤ 0 ∨ (100 < b.cursor_.y ∧ 100 < b.cursor_.x) →
        b.getWidthAtCursor = max b.dimensions_.content_.width 0) := by
  have hext2 : lf.getMPBTop + lf.getMBPHeight + lf.getDimensions.content_.height = 100 := by
    rw [htop, zero_add]; exact hext
  have hw2 : lf.getMBPWidth + lf.getDimensions.content_.width = 50 := hw
  constructor
  · intro h0 h1 h2
    have hact : b.floatActiveAtCursor lf = true := by
      simp [Box.floatActiveAtCursor, hext2, h1, h2]
      rw [htop]; exact h0
    simp only [Box.getWidthAtCursor, hl, hr, List.foldl, hact, hw2, if_true]
    rcases lt_or_le (b.dimensions_.content_.width - 50) 0 with h | h
    · rw [if_pos h, max_eq_right (le_of_lt h)]
    · rw [if_neg (not_lt.mpr h), max_eq_left h]
  · intro h
    have hact : b.floatActiveAtCursor lf = false := by
      simp only [Box.floatActiveAtCursor, hext2, Bool.and_eq_false_iff,
        decide_eq_false_iff_not, not_lt, not_le, gt_iff_lt]
      rw [htop]
      rcases h with h | ⟨_, h⟩
      · exact Or.inl h
      · exact Or.inr h
    simp only [Box.getWidthAtCursor, hl, hr, List.foldl, hact]
    rcases lt_or_le b.dimensions_.content_.width 0 with h | h
    · simp [h, max_eq_right (le_of_lt h)]
    · simp [not_lt.mpr h, max_eq_left h]

/-- Witness for C7: a container of width 300 with the cursor at `(10, 50)` gets width 250. -/
theorem getWidthAtCursor_one_left_float_witness :
    (exampleFloatContainer 300 ⟨10, 50⟩).getWidthAtCursor
      = max ((exampleFloatContainer 300 ⟨10, 50⟩).dimensions_.content_.width - 50) 0 :=
  (getWidthAtCursor_one_left_float (exampleFloatContainer 300 ⟨10, 50⟩) exampleFloat
    rfl rfl (by decide) (by decide) (by decide)).1 (by decide) (by decide) (by decide)

/-- Claim C8: the available width returned by `getWidthAtCursor` is never negative, for every
box, cursor and lists of left and right floats. -/
theorem getWidthAtCursor_nonneg (b : Box) : 0 ≤ b.getWidthAtCursor := by
  unfold Box.getWidthAtCursor
  simp only
  split_ifs with h
  · exact le_refl _
  · exact not_lt.mp h

/-- The second half of the activity test reads the horizontal cursor in `getXAtCursor` too:
with the cursor at `(0, 200)`, below the band `[0,100)` of the only left float, no float is
active in the band and the offset is still 50; at `(101, 50)`, inside the band, it is 0. -/
theorem getXAtCursor_reads_cursor_x :
    (exampleFloatContainer 300 ⟨0, 200⟩).floatActiveInBand exampleFloat = false
    ∧ (exampleFloatContainer 300 ⟨0, 200⟩).getXAtCursor = 50
    ∧ (exampleFloatContainer 300 ⟨101, 50⟩).floatActiveInBand exampleFloat = true
    ∧ (exampleFloatContainer 300 ⟨101, 50⟩).getXAtCursor = 0 := by
  decide

theorem RenderContext.pop_push (ctx : RenderContext) (p : Properties) :
    (ctx.push p).pop = ctx := rfl

/-- Counterexample to C10 as stated. An element with `display: none; position: absolute` gets
a box in the parent's absolute sequence; an element with `display: none; position: fixed`
gets a box in the root's fixed sequence, and that box holds a box for the element's child. -/
theorem formatNode_display_none_positioned :
    exampleNoneAbsoluteNode.id = .ELEMENT
    ∧ exampleNoneAbsoluteNode.properties.DISPLAY = .NONE
    ∧ exampleBlock.absolute_boxes_.length = 0
    ∧ (LayoutEngine.formatNode 1 exampleNoneAbsoluteNode exampleBlock (exampleContaining 300)
          exampleEngine).toOption.map (fun r => r.2.1.absolute_boxes_.length) = some 1
    ∧ exampleNoneFixedNode.id = .ELEMENT
    ∧ exampleNoneFixedNode.properties.DISPLAY = .NONE
    ∧ (LayoutEngine.formatNode 1 exampleNoneFixedNode exampleBlock (exampleContaining 300)
          exampleEngine).toOption.map
            (fun r => r.2.2.root_fixed_boxes_.map (fun b => b.boxes_.length)) = some [1] := by
  refine ⟨rfl, rfl, rfl, ?_, rfl, rfl, ?_⟩ <;> decide

/-- Claim C10, amended: for an element node whose computed display is none and whose computed
position is neither absolute nor fixed, `formatNode` returns no box and leaves the parent
(its child, absolute and fixed sequences included) and the engine unchanged, for every
recursion bound; it makes no recursive call and does not look at the node's children (the
result is the same for every formatter used for the recursion and every list of children). -/
theorem formatNode_display_none (fuel : Nat) (node : Node) (parent : Box)
    (container : Dimensions) (eng : LayoutEngine)
    (hid : node.id = .ELEMENT) (hdisplay : node.properties.DISPLAY = .NONE)
    (habs : node.properties.POSITION ≠ .ABSOLUTE) (hfixed : node.properties.POSITION ≠ .FIXED) :
    LayoutEngine.formatNode fuel node parent container eng = .ok (none, parent, eng)
    ∧ ∀ (fmt : Formatter) (children : List Node),
        LayoutEngine.formatNodeWith fmt fuel { node with children := children } parent
          container eng = .ok (none, parent, eng) := by
  constructor
  · simp [LayoutEngine.formatNode, LayoutEngine.formatNodeWith, hid, hdisplay, habs, hfixed,
      RenderContext.push, RenderContext.pop]
  · intro fmt children
    simp [LayoutEngine.formatNodeWith, hid, hdisplay, habs, hfixed, RenderContext.push,
      RenderContext.pop]

/-- Witness for C10: the `display: none` element with a block child produces no box at
recursion bound 0. -/
theorem formatNode_display_none_witness :
    LayoutEngine.formatNode 0 exampleNoneNode exampleBlock (exampleContaining 300) exampleEngine
      = .ok (none, exampleBlock, exampleEngine) :=
  (formatNode_display_none 0 exampleNoneNode exampleBlock (exampleContaining 300) exampleEngine
    rfl rfl (by decide) (by decide)).1

/-- End to end: a root block laid out in a rectangle of width 300 whose only child is a block
with `width: auto; margin: auto` has exactly one child box, of content width 300 and with
left and right margins 0. -/
theorem formatRoot_child_auto :
    (LayoutEngine.formatRoot 2 exampleBodyNode ⟨300, 0⟩
        (exampleContext exampleProperties)).toOption.map
      (fun root => root.boxes_.map (fun c =>
        (c.dimensions_.content_.width, c.dimensions_.margin_.left, c.dimensions_.margin_.right)))
      = some [(300, 0, 0)] := by
  decide

/-- Claim C12: for an element node in normal flow whose computed display is inline-block,
list-item or one of the table values, `formatNode` fails with the diagnostic that names the
display value, for every recursion bound and whatever formatter is used for the recursion;
the failure carries no box and no updated parent. -/
theorem formatNode_unsupported_display (fuel : Nat) (node : Node) (parent : Box)
    (container : Dimensions) (eng : LayoutEngine)
    (hid : node.id = .ELEMENT)
    (habs : node.properties.POSITION ≠ .ABSOLUTE) (hfixed : node.properties.POSITION ≠ .FIXED)
    (hdisplay : node.properties.DISPLAY ∈
      [css.CssDisplay.INLINE_BLOCK, .LIST_ITEM, .TABLE, .INLINE_TABLE, .TABLE_ROW_GROUP,
        .TABLE_HEADER_GROUP, .TABLE_FOOTER_GROUP, .TABLE_ROW, .TABLE_COLUMN_GROUP,
        .TABLE_COLUMN, .TABLE_CELL, .TABLE_CAPTION]) :
    LayoutEngine.formatNode fuel node parent container eng
        = .error (.assertion ("FIXME: LayoutEngine::formatNode(): "
            ++ display_string node.properties.DISPLAY))
    ∧ ∀ fmt : Formatter,
        LayoutEngine.formatNodeWith fmt fuel node parent container eng
          = .error (.assertion ("FIXME: LayoutEngine::formatNode(): "
              ++ display_string node.properties.DISPLAY)) := by
  have key : ∀ fmt : Formatter,
      LayoutEngine.formatNodeWith fmt fuel node parent container eng
        = .error (.assertion ("FIXME: LayoutEngine::formatNode(): "
            ++ display_string node.properties.DISPLAY)) := by
    intro fmt
    simp only [List.mem_cons, List.mem_singleton, List.not_mem_nil, or_false] at hdisplay
    rcases hdisplay with h | h | h | h | h | h | h | h | h | h | h | h <;>
      simp [LayoutEngine.formatNodeWith, hid, habs, hfixed, h, RenderContext.push]
  exact ⟨key _, key⟩

/-- Witness for C12: a `display: table` element fails with the diagnostic for `table`. -/
theorem formatNode_unsupported_display_witness :
    LayoutEngine.formatNode 3 exampleTableNode exampleBlock (exampleContaining 300) exampleEngine
      = .error (.assertion ("FIXME: LayoutEngine::formatNode(): "
          ++ display_string exampleTableNode.properties.DISPLAY)) :=
  (formatNode_unsupported_display 3 exampleTableNode exampleBlock (exampleContaining 300)
    exampleEngine rfl (by decide) (by decide) (by decide)).1

/-- Claim C14: `addInlineElement` fails exactly when the receiving box is not a line box; on a
line box it returns a new `InlineElementBox` for the node and the box with exactly that box
appended as its last child. -/
theorem addInlineElement_line_only (b : Box) (node : Node) :
    (b.id ≠ .LINE ↔
        b.addInlineElement node
          = .error (.assertion "Tried to add inline element to non-line box."))
    ∧ (b.id ≠ .LINE ↔ ∃ e, b.addInlineElement node = .error e)
    ∧ (b.id = .LINE →
        b.addInlineElement node
          = .ok (Box.new .INLINE_ELEMENT (some node),
              { b with boxes_ := b.boxes_ ++ [Box.new .INLINE_ELEMENT (some node)] })) := by
  by_cases h : b.id = .LINE <;> simp [Box.addInlineElement, h]

/-- Witness for C14: on a fresh line box the element box becomes the only child; on a block
box the call fails. -/
theorem addInlineElement_line_only_witness :
    (Box.new .LINE none).addInlineElement exampleBlockNode
        = .ok (Box.new .INLINE_ELEMENT (some exampleBlockNode),
            { Box.new .LINE none with
              boxes_ := (Box.new .LINE none).boxes_
                ++ [Box.new .INLINE_ELEMENT (some exampleBlockNode)] })
    ∧ exampleBlock.addInlineElement exampleBlockNode
        = .error (.assertion "Tried to add inline element to non-line box.") :=
  ⟨(addInlineElement_line_only (Box.new .LINE none) exampleBlockNode).2.2 rfl,
    (addInlineElement_line_only exampleBlock exampleBlockNode).1.mp (by decide)⟩

/-- Counterexample to C13 as stated: on a box whose only child is a block box (no line box
is open) `closeOpenBox` does not fail; it lays the block out and moves the cursor. -/
theorem closeOpenBox_block_child_succeeds :
    exampleBlockWithBlockChild.boxes_.map (fun c => c.id) = [BoxId.BLOCK]
    ∧ (exampleBlockWithBlockChild.closeOpenBox (LayoutEngine.formatNodeFuel 0)
        exampleEngine).toOption.isSome = true := by
  decide

/-- Claim C13, amended: `closeOpenBox` fails with its invariant violation when the child
sequence is empty; when the last child is a line box it succeeds; and on a non-empty child
sequence, whatever the kind of the last child, it fails exactly when the layout of that child
fails, with the same error. -/
theorem closeOpenBox_fails_when_empty (fmt : Formatter) (b : Box) (eng : LayoutEngine) :
    (b.boxes_ = [] →
        b.closeOpenBox fmt eng = .error (.assertion "Tried to close a non-existant box."))
    ∧ (∀ last, b.boxes_.getLast? = some last → last.id = .LINE →
        ∃ r, b.closeOpenBox fmt eng = .ok r)
    ∧ (∀ last, b.boxes_.getLast? = some last → ∀ e,
        (b.closeOpenBox fmt eng = .error e
          ↔ Box.layout fmt last b.getDimensions eng = .error e)) := by
  refine ⟨?_, ?_, ?_⟩
  · intro h
    simp [Box.closeOpenBox, h]
  · intro last hlast hline
    simp [Box.closeOpenBox, hlast, Box.layout, hline]
  · intro last hlast e
    simp only [Box.closeOpenBox, hlast]
    cases h : Box.layout fmt last b.getDimensions eng with
    | error e2 => simp
    | ok r => simp

/-- Witness for C13: a box without children fails to close, and a box whose last child is a
line box closes. -/
theorem closeOpenBox_fails_when_empty_witness :
    exampleBlock.closeOpenBox (LayoutEngine.formatNodeFuel 0) exampleEngine
        = .error (.assertion "Tried to close a non-existant box.")
    ∧ ∃ r, exampleBlockWithLine.closeOpenBox (LayoutEngine.formatNodeFuel 0) exampleEngine
        = .ok r :=
  ⟨(closeOpenBox_fails_when_empty (LayoutEngine.formatNodeFuel 0) exampleBlock
      exampleEngine).1 rfl,
    (closeOpenBox_fails_when_empty (LayoutEngine.formatNodeFuel 0) exampleBlockWithLine
      exampleEngine).2.1 (Box.new .LINE none) rfl rfl⟩

/-! ## Frame of the tree formatter -/

theorem layoutWidth_identity (ctx : RenderContext) (containing : Dimensions) (b : Box) :
    (BlockBox.layoutWidth ctx containing b).id = b.id
      ∧ (BlockBox.layoutWidth ctx containing b).node_ = b.node_ := by
  cases hw : ctx.top.WIDTH.isAuto <;> cases hl : ctx.top.MARGIN_LEFT.isAuto <;>
    cases hr : ctx.top.MARGIN_RIGHT.isAuto <;>
    simp [BlockBox.layoutWidth, hw, hl, hr, Box.getDimensions,
      Box.setMarginLeft, Box.setMarginRight, Box.setPaddingLeft, Box.setPaddingRight,
      Box.setBorderLeft, Box.setBorderRight, Box.setContentWidth] <;>
    split_ifs <;> simp

theorem layoutPosition_identity (ctx : RenderContext) (containing : Dimensions) (b : Box) :
    (BlockBox.layoutPosition ctx containing b).id = b.id
      ∧ (BlockBox.layoutPosition ctx containing b).node_ = b.node_ := by
  simp [BlockBox.layoutPosition, Box.setMarginTop, Box.setMarginBottom, Box.setPaddingTop,
    Box.setPaddingBottom, Box.setBorderTop, Box.setBorderBottom, Box.setContentX,
    Box.setContentY]

theorem layoutHeight_identity (ctx : RenderContext) (containing : Dimensions) (b : Box) :
    (BlockBox.layoutHeight ctx containing b).id = b.id
      ∧ (BlockBox.layoutHeight ctx containing b).node_ = b.node_ := by
  simp only [BlockBox.layoutHeight]
  split_ifs <;> simp [Box.setContentHeight]

theorem accumulateHeight_identity (b : Box) :
    b.accumulateHeight.id = b.id ∧ b.accumulateHeight.node_ = b.node_ := by
  have key : ∀ (l : List Box) (acc : Box),
      (l.foldl (fun b child =>
          b.setContentHeight (child.getDimensions.content_.height + child.getMBPHeight)) acc).id
          = acc.id
        ∧ (l.foldl (fun b child =>
          b.setContentHeight (child.getDimensions.content_.height + child.getMBPHeight))
            acc).node_ = acc.node_ := by
    intro l
    induction l with
    | nil => intro acc; exact ⟨rfl, rfl⟩
    | cons a t ih =>
      intro acc
      simp only [List.foldl_cons]
      exact ih _
  exact key _ _

theorem prefix_set_of_le {α : Type} (l₁ l : List α) (x : α) (i : Nat)
    (h : l₁ <+: l) (hi : l₁.length ≤ i) : l₁ <+: l.set i x := by
  obtain ⟨t, rfl⟩ := h
  rw [List.set_append, if_neg (not_lt.mpr hi)]
  exact List.prefix_append _ _

theorem formatChildren_frames (fmt : Formatter) (hf : fmt.Frames) :
    ∀ (nodes : List Node) (b : Box) (eng : LayoutEngine) (r : Box × LayoutEngine),
      Box.formatChildren fmt nodes b eng = .ok r → b.FramedBy eng r := by
  intro nodes
  induction nodes with
  | nil =>
    intro b eng r h
    simp only [Box.formatChildren, Except.ok.injEq] at h
    subst h
    exact ⟨rfl, rfl, List.prefix_refl _⟩
  | cons child rest ih =>
    intro b eng r h
    simp only [Box.formatChildren] at h
    cases hc : fmt child b b.getDimensions eng with
    | error e => simp [hc] at h
    | ok r1 =>
      obtain ⟨o, b1, eng1⟩ := r1
      simp only [hc] at h
      obtain ⟨h1, h2, h3⟩ := hf _ _ _ _ _ hc
      obtain ⟨k1, k2, k3⟩ := ih b1 eng1 r h
      exact ⟨k1.trans h1, k2.trans h2, h3.trans k3⟩

theorem blockLayoutChildren_frames (fmt : Formatter) (hf : fmt.Frames) (b : Box)
    (eng : LayoutEngine) (r : Box × LayoutEngine)
    (h : BlockBox.layoutChildren fmt b eng = .ok r) : b.FramedBy eng r := by
  simp only [BlockBox.layoutChildren] at h
  cases hn : b.node_ with
  | none =>
    simp only [hn, Except.ok.injEq] at h
    subst h
    exact ⟨(accumulateHeight_identity b).1, (accumulateHeight_identity b).2,
      List.prefix_refl _⟩
  | some node =>
    simp only [hn] at h
    cases hc : Box.formatChildren fmt node.children b eng with
    | error e => simp [hc] at h
    | ok r1 =>
      obtain ⟨b1, eng1⟩ := r1
      simp only [hc, Except.ok.injEq] at h
      subst h
      obtain ⟨k1, k2, k3⟩ := formatChildren_frames fmt hf _ _ _ _ hc
      exact ⟨(accumulateHeight_identity b1).1.trans k1,
        (accumulateHeight_identity b1).2.trans k2, k3⟩

theorem blockLayout_frames (fmt : Formatter) (hf : fmt.Frames) (b : Box)
    (containing : Dimensions) (eng : LayoutEngine) (r : Box × LayoutEngine)
    (h : BlockBox.layout fmt b containing eng = .ok r) : b.FramedBy eng r := by
  have aux : ∀ (eng0 : LayoutEngine) (b1 : Box) (eng1 : LayoutEngine),
      eng0.root_fixed_boxes_ = eng.root_fixed_boxes_ →
      BlockBox.layoutChildren fmt
        (BlockBox.layoutPosition eng0.ctx_ containing
          (BlockBox.layoutWidth eng0.ctx_ containing b)) eng0 = .ok (b1, eng1) →
      (BlockBox.layoutHeight eng1.ctx_ containing b1).id = b.id
        ∧ (BlockBox.layoutHeight eng1.ctx_ containing b1).node_ = b.node_
        ∧ eng.root_fixed_boxes_ <+: eng1.root_fixed_boxes_ := by
    intro eng0 b1 eng1 he hc
    obtain ⟨k1, k2, k3⟩ := blockLayoutChildren_frames fmt hf _ _ _ hc
    refine ⟨?_, ?_, ?_⟩
    · rw [(layoutHeight_identity _ _ _).1, k1, (layoutPosition_identity _ _ _).1,
        (layoutWidth_identity _ _ _).1]
    · rw [(layoutHeight_identity _ _ _).2, k2, (layoutPosition_identity _ _ _).2,
        (layoutWidth_identity _ _ _).2]
    · rw [← he]; exact k3
  cases hn : b.node_ with
  | none =>
    simp only [BlockBox.layout, hn] at h
    split at h
    · simp at h
    · rename_i b1 eng1 hc
      simp only [Except.ok.injEq] at h
      subst h
      obtain ⟨k1, k2, k3⟩ := aux _ _ _ rfl hc
      exact ⟨k1, k2, by simpa using k3⟩
  | some node =>
    by_cases hid : node.id = .ELEMENT
    · simp only [BlockBox.layout, hn, hid, if_true] at h
      split at h
      · simp at h
      · rename_i b1 eng1 hc
        simp only [Except.ok.injEq] at h
        subst h
        obtain ⟨k1, k2, k3⟩ := aux { eng with ctx_ := eng.ctx_.push node.properties } _ _ rfl hc
        exact ⟨k1, k2, by simpa using k3⟩
    · simp only [BlockBox.layout, hn, hid, if_false] at h
      split at h
      · simp at h
      · rename_i b1 eng1 hc
        simp only [Except.ok.injEq] at h
        subst h
        obtain ⟨k1, k2, k3⟩ := aux _ _ _ rfl hc
        exact ⟨k1, k2, by simpa using k3⟩

theorem inlineElementLayout_frames (fmt : Formatter) (hf : fmt.Frames) (b : Box)
    (containing : Dimensions) (eng : LayoutEngine) (r : Box × LayoutEngine)
    (h : InlineElementBox.layout fmt b containing eng = .ok r) : b.FramedBy eng r := by
  simp only [InlineElementBox.layout] at h
  split at h
  · simp at h
  · rename_i b1 eng1 hc
    simp only [Except.ok.injEq] at h
    subst h
    have hb : b1.id = b.id ∧ b1.node_ = b.node_
        ∧ eng.root_fixed_boxes_ <+: eng1.root_fixed_boxes_ := by
      cases hn : b.node_ with
      | none =>
        simp only [Box.setContentWidth, hn, Except.ok.injEq, Prod.mk.injEq] at hc
        obtain ⟨rfl, rfl⟩ := hc
        exact ⟨rfl, rfl, List.prefix_refl _⟩
      | some node =>
        simp only [Box.setContentWidth, hn] at hc
        obtain ⟨k1, k2, k3⟩ := formatChildren_frames fmt hf _ _ _ _ hc
        exact ⟨k1, k2, k3⟩
    obtain ⟨k1, k2, k3⟩ := hb
    exact ⟨(accumulateHeight_identity b1).1.trans k1,
      (accumulateHeight_identity b1).2.trans k2, k3⟩

theorem boxLayout_frames (fmt : Formatter) (hf : fmt.Frames) (b : Box)
    (containing : Dimensions) (eng : LayoutEngine) (r : Box × LayoutEngine)
    (h : Box.layout fmt b containing eng = .ok r) : b.FramedBy eng r := by
  simp only [Box.layout] at h
  split at h
  · exact blockLayout_frames fmt hf _ _ _ _ h
  · simp only [Except.ok.injEq] at h
    subst h
    exact ⟨rfl, rfl, List.prefix_refl _⟩
  · exact inlineElementLayout_frames fmt hf _ _ _ _ h
  · simp only [Except.ok.injEq] at h
    subst h
    exact ⟨rfl, rfl, List.prefix_refl _⟩
  · simp only [Except.ok.injEq] at h
    subst h
    exact ⟨rfl, rfl, List.prefix_refl _⟩

theorem closeOpenBox_frames (fmt : Formatter) (hf : fmt.Frames) (b : Box)
    (eng : LayoutEngine) (r : Box × LayoutEngine)
    (h : b.closeOpenBox fmt eng = .ok r) : b.FramedBy eng r := by
  simp only [Box.closeOpenBox] at h
  split at h
  · simp at h
  · split at h
    · simp at h
    · rename_i open1 eng1 hc
      simp only [Except.ok.injEq] at h
      subst h
      exact ⟨rfl, rfl, (boxLayout_frames fmt hf _ _ _ _ hc).2.2⟩

theorem getOpenBox_identity (b : Box) :
    b.getOpenBox.2.id = b.id ∧ b.getOpenBox.2.node_ = b.node_ := by
  simp only [Box.getOpenBox]
  split
  · exact ⟨rfl, rfl⟩
  · split <;> exact ⟨rfl, rfl⟩

theorem layoutInlineElement_frames (fmt : Formatter) (hf : fmt.Frames) (node : Node)
    (parent : Box) (eng : LayoutEngine) (r : Box × LayoutEngine)
    (h : LayoutEngine.layoutInlineElement fmt node parent eng = .ok r) :
    parent.FramedBy eng r := by
  simp only [LayoutEngine.layoutInlineElement] at h
  split at h
  · simp at h
  · split at h
    · simp at h
    · rename_i ieb eng1 hc
      simp only [Except.ok.injEq] at h
      subst h
      exact ⟨(getOpenBox_identity parent).1, (getOpenBox_identity parent).2,
        (boxLayout_frames fmt hf _ _ _ _ hc).2.2⟩

theorem layoutInlineTextLoop_frames (fmt : Formatter) (hf : fmt.Frames) (tnode : Text)
    (flag : Bool) :
    ∀ (fuel it : Nat) (width : FixedPoint) (parent : Box) (eng : LayoutEngine)
      (r : Box × LayoutEngine),
      LayoutEngine.layoutInlineTextLoop fmt tnode flag fuel it width parent eng = .ok r →
        parent.FramedBy eng r := by
  intro fuel
  induction fuel with
  | zero =>
    intro it width parent eng r h
    simp only [LayoutEngine.layoutInlineTextLoop] at h
    split at h
    · simp only [Except.ok.injEq] at h
      subst h
      exact ⟨rfl, rfl, List.prefix_refl _⟩
    · simp at h
  | succ fuel ih =>
    intro it width parent eng r h
    simp only [LayoutEngine.layoutInlineTextLoop] at h
    split at h
    · simp only [Except.ok.injEq] at h
      subst h
      exact ⟨rfl, rfl, List.prefix_refl _⟩
    · split at h
      · simp at h
      · rename_i w1 p1 e1 hclosed
        have hp1 : parent.FramedBy eng (p1, e1) := by
          split at hclosed
          · split at hclosed
            · simp at hclosed
            · rename_i p0 e0 hc
              simp only [Except.ok.injEq, Prod.mk.injEq] at hclosed
              obtain ⟨_, rfl, rfl⟩ := hclosed
              obtain ⟨k1, k2, k3⟩ := closeOpenBox_frames fmt hf _ _ _ hc
              exact ⟨(getOpenBox_identity p0).1.trans k1,
                (getOpenBox_identity p0).2.trans k2, k3⟩
          · simp only [Except.ok.injEq, Prod.mk.injEq] at hclosed
            obtain ⟨_, rfl, rfl⟩ := hclosed
            exact ⟨rfl, rfl, List.prefix_refl _⟩
        split at h
        · simp at h
        · simp at h
        · obtain ⟨k1, k2, k3⟩ := ih _ _ _ _ _ h
          obtain ⟨j1, j2, j3⟩ := hp1
          exact ⟨k1.trans j1, k2.trans j2, j3.trans k3⟩

theorem layoutInlineText_frames (fmt : Formatter) (hf : fmt.Frames) (fuel : Nat) (node : Node)
    (parent : Box) (eng : LayoutEngine) (r : Box × LayoutEngine)
    (h : LayoutEngine.layoutInlineText fmt fuel node parent eng = .ok r) :
    parent.FramedBy eng r := by
  simp only [LayoutEngine.layoutInlineText] at h
  split at h
  · simp at h
  · obtain ⟨k1, k2, k3⟩ := layoutInlineTextLoop_frames fmt hf _ _ _ _ _ _ _ _ h
    exact ⟨k1.trans (getOpenBox_identity parent).1, k2.trans (getOpenBox_identity parent).2, k3⟩

theorem withRootFixed_identity (b : Box) (eng : LayoutEngine) :
    (b.withRootFixed eng).id = b.id ∧ (b.withRootFixed eng).node_ = b.node_
      ∧ (b.withRootFixed eng).boxes_ = b.boxes_
      ∧ (b.withRootFixed eng).absolute_boxes_ = b.absolute_boxes_
      ∧ (b.withRootFixed eng).dimensions_ = b.dimensions_
      ∧ (b.withRootFixed eng).cursor_ = b.cursor_
      ∧ (b.withRootFixed eng).isRoot_ = b.isRoot_ := by
  unfold Box.withRootFixed
  split <;> exact ⟨rfl, rfl, rfl, rfl, rfl, rfl, rfl⟩

theorem withRootFixed_of_not_root (b : Box) (eng : LayoutEngine) (h : b.isRoot_ = false) :
    b.withRootFixed eng = b := by
  simp [Box.withRootFixed, h]

theorem withRootFixed_of_root (b : Box) (eng : LayoutEngine) (h : b.isRoot_ = true) :
    (b.withRootFixed eng).fixed_boxes_ = eng.root_fixed_boxes_ := by
  simp [Box.withRootFixed, h]

theorem formatNodeWith_frames (fmt : Formatter) (hf : fmt.Frames) (fuel : Nat) :
    (LayoutEngine.formatNodeWith fmt fuel).Frames := by
  intro node parent container eng r h
  simp only [LayoutEngine.formatNodeWith] at h
  split at h
  · split at h
    · -- absolute
      split at h
      · simp at h
      · rename_i box1 eng1 hc
        simp only [Except.ok.injEq] at h
        subst h
        exact ⟨rfl, rfl, by simpa using (boxLayout_frames fmt hf _ _ _ _ hc).2.2⟩
    · split at h
      · -- fixed
        split at h
        · simp at h
        · rename_i box1 eng1 hc
          simp only [Except.ok.injEq] at h
          subst h
          refine ⟨(withRootFixed_identity _ _).1, (withRootFixed_identity _ _).2.1, ?_⟩
          have k3 := (boxLayout_frames fmt hf _ _ _ _ hc).2.2
          simp only [LayoutEngine.rootAddFixedElement] at k3
          exact prefix_set_of_le _ _ _ _ ((List.prefix_append _ _).trans k3) (le_refl _)
      · split at h
        · -- none
          simp only [Except.ok.injEq] at h
          subst h
          exact ⟨rfl, rfl, List.prefix_refl _⟩
        · -- inline
          split at h
          · simp at h
          · rename_i p1 eng1 hc
            simp only [Except.ok.injEq] at h
            subst h
            obtain ⟨k1, k2, k3⟩ := layoutInlineElement_frames fmt hf _ _ _ _ hc
            exact ⟨(withRootFixed_identity _ _).1.trans k1,
              (withRootFixed_identity _ _).2.1.trans k2, by simpa using k3⟩
        · -- block
          split at h
          · simp at h
          · rename_i box1 eng1 hc
            simp only [Except.ok.injEq] at h
            subst h
            exact ⟨(withRootFixed_identity _ _).1, (withRootFixed_identity _ _).2.1,
              by simpa using (boxLayout_frames fmt hf _ _ _ _ hc).2.2⟩
        all_goals simp at h
  · split at h
    · split at h
      · simp at h
      · rename_i p1 eng1 hc
        simp only [Except.ok.injEq] at h
        subst h
        obtain ⟨k1, k2, k3⟩ := layoutInlineText_frames fmt hf _ _ _ _ _ hc
        exact ⟨(withRootFixed_identity _ _).1.trans k1,
          (withRootFixed_identity _ _).2.1.trans k2, k3⟩
    · simp at h

theorem formatNodeFuel_frames : ∀ fuel : Nat, (LayoutEngine.formatNodeFuel fuel).Frames := by
  intro fuel
  induction fuel with
  | zero =>
    intro node parent container eng r h
    simp [LayoutEngine.formatNodeFuel] at h
  | succ fuel ih => exact formatNodeWith_frames _ ih fuel

theorem blockLayoutChildren_childless (fmt : Formatter) (b : Box) (eng : LayoutEngine)
    (node : Node) (hn : b.node_ = some node) (hc : node.children = []) :
    BlockBox.layoutChildren fmt b eng = .ok (b.accumulateHeight, eng) := by
  simp [BlockBox.layoutChildren, hn, hc, Box.formatChildren]

theorem blockLayout_childless (fmt : Formatter) (b : Box) (containing : Dimensions)
    (eng : LayoutEngine) (node : Node) (hn : b.node_ = some node) (hc : node.children = []) :
    ∃ r, BlockBox.layout fmt b containing eng = .ok r
      ∧ r.2.root_fixed_boxes_ = eng.root_fixed_boxes_ := by
  have hnode : ∀ ctx : RenderContext,
      (BlockBox.layoutPosition ctx containing (BlockBox.layoutWidth ctx containing b)).node_
        = some node := by
    intro ctx
    rw [(layoutPosition_identity _ _ _).2, (layoutWidth_identity _ _ _).2, hn]
  by_cases hid : node.id = .ELEMENT
  · simp only [BlockBox.layout, hn, hid, if_true]
    rw [blockLayoutChildren_childless fmt _ _ node (hnode _) hc]
    exact ⟨_, rfl, by simp⟩
  · simp only [BlockBox.layout, hn, hid, if_false]
    rw [blockLayoutChildren_childless fmt _ _ node (hnode _) hc]
    exact ⟨_, rfl, by simp⟩

/-- Counterexample to C11 as stated. A fixed element whose child is again fixed leaves two
boxes on the root's fixed sequence, not one; and a fixed element whose child has
`display: table` makes `formatNode` fail instead of returning. -/
theorem formatNode_fixed_nested :
    exampleNestedFixedNode.id = .ELEMENT
    ∧ exampleNestedFixedNode.properties.POSITION = .FIXED
    ∧ exampleEngine.root_fixed_boxes_.length = 0
    ∧ (LayoutEngine.formatNode 2 exampleNestedFixedNode exampleBlock (exampleContaining 300)
          exampleEngine).toOption.map (fun r => r.2.2.root_fixed_boxes_.length) = some 2
    ∧ exampleFixedWithTableNode.id = .ELEMENT
    ∧ exampleFixedWithTableNode.properties.POSITION = .FIXED
    ∧ LayoutEngine.formatNode 2 exampleFixedWithTableNode exampleBlock (exampleContaining 300)
          exampleEngine
        = .error (.assertion "FIXME: LayoutEngine::formatNode(): table") := by
  refine ⟨rfl, rfl, rfl, ?_, rfl, rfl, ?_⟩
  · decide
  · rfl

/-- Claim C11, amended. For an element node with position absolute, `formatNode` (at every
recursion bound) returns no box, leaves the parent's normal-flow children unchanged and
appends exactly one new `AbsoluteBox` for the node to the parent's absolute sequence (nothing
else changes). For an element node with position fixed, whenever `formatNode` returns it
returns no box and leaves the parent's normal-flow children unchanged, and the root's fixed
sequence is the old one followed by one block box for the node and then by the boxes appended
while the node's children were laid out; when the parent is the root box itself, that
sequence is the parent's own fixed sequence afterwards. With no children `formatNode` does
return and nothing follows the node's box. -/
theorem formatNode_positioned (fuel : Nat) (node : Node) (parent : Box)
    (container : Dimensions) (eng : LayoutEngine) (hid : node.id = .ELEMENT) :
    (node.properties.POSITION = .ABSOLUTE →
        LayoutEngine.formatNode fuel node parent container eng
          = .ok (none,
              { parent with
                absolute_boxes_ := parent.absolute_boxes_ ++ [Box.new .ABSOLUTE (some node)] },
              eng))
    ∧ (node.properties.POSITION = .FIXED →
        ∀ r, LayoutEngine.formatNode fuel node parent container eng = .ok r →
          r.1 = none ∧ r.2.1.boxes_ = parent.boxes_
            ∧ (∃ box rest,
                r.2.2.root_fixed_boxes_ = eng.root_fixed_boxes_ ++ box :: rest
                  ∧ box.id = .BLOCK ∧ box.node_ = some node
                  ∧ (node.children = [] → rest = []))
            ∧ (parent.isRoot_ = true → r.2.1.fixed_boxes_ = r.2.2.root_fixed_boxes_))
    ∧ (node.properties.POSITION = .FIXED → node.children = [] →
        ∃ r, LayoutEngine.formatNode fuel node parent container eng = .ok r) := by
  refine ⟨?_, ?_, ?_⟩
  · intro hpos
    simp [LayoutEngine.formatNode, LayoutEngine.formatNodeWith, hid, hpos, RenderContext.push,
      RenderContext.pop, Box.addAbsoluteElement, Box.layout, Box.new]
  · intro hpos r h
    simp only [LayoutEngine.formatNode, LayoutEngine.formatNodeWith, hid, hpos, if_true,
      RenderContext.push, LayoutEngine.rootAddFixedElement] at h
    rw [if_neg (by decide)] at h
    split at h
    · simp at h
    · rename_i box1 eng1 hc
      simp only [Except.ok.injEq] at h
      subst h
      refine ⟨rfl, (withRootFixed_identity _ _).2.2.1, ?_,
        fun hroot => withRootFixed_of_root _ _ hroot⟩
      obtain ⟨k1, k2, ⟨extra, k3⟩⟩ := boxLayout_frames _ (formatNodeFuel_frames fuel) _ _ _ _ hc
      refine ⟨box1, extra, ?_, k1, k2, ?_⟩
      · simp only at k3 ⊢
        rw [← k3, List.append_assoc, List.set_append, if_neg (lt_irrefl _)]
        simp
      · intro hch
        have hcl : ∀ (e : LayoutEngine) (r : Box × LayoutEngine),
            BlockBox.layout (LayoutEngine.formatNodeFuel fuel) (Box.new .BLOCK (some node))
              container e = .ok r → r.2.root_fixed_boxes_ = e.root_fixed_boxes_ := by
          intro e r hr
          obtain ⟨r2, hr2, hfix⟩ := blockLayout_childless (LayoutEngine.formatNodeFuel fuel)
            (Box.new .BLOCK (some node)) container e node rfl hch
          rw [hr2] at hr
          cases hr
          exact hfix
        have hfix := hcl _ _ hc
        simp only at hfix k3
        rw [hfix] at k3
        simpa using k3
  · intro hpos hch
    simp only [LayoutEngine.formatNode, LayoutEngine.formatNodeWith, hid, hpos, if_true,
      RenderContext.push, LayoutEngine.rootAddFixedElement]
    rw [if_neg (by decide)]
    have hcl : ∀ e : LayoutEngine, ∃ r,
        Box.layout (LayoutEngine.formatNodeFuel fuel) (Box.new .BLOCK (some node))
          container e = .ok r := by
      intro e
      obtain ⟨r2, hr2, _⟩ := blockLayout_childless (LayoutEngine.formatNodeFuel fuel)
        (Box.new .BLOCK (some node)) container e node rfl hch
      exact ⟨r2, hr2⟩
    obtain ⟨r2, hr2⟩ := hcl ⟨eng.root_fixed_boxes_ ++ [Box.new .BLOCK (some node)],
      ⟨node.properties, eng.ctx_.top :: eng.ctx_.saved⟩⟩
    simp only [hr2]
    exact ⟨_, rfl⟩

/-- Witness for C11: an absolute element (even with a child) adds one `AbsoluteBox` to the
parent at recursion bound 0, and a fixed element without children returns and leaves exactly
one box on the root's fixed sequence. When the parent is the root box, the parent handed back
holds that block box in its fixed sequence and has no normal-flow child; a parent that is not
the root has no fixed box. -/
theorem formatNode_positioned_witness :
    LayoutEngine.formatNode 0 exampleAbsoluteNode exampleBlock (exampleContaining 300)
        exampleEngine
      = .ok (none,
          { exampleBlock with
            absolute_boxes_ := exampleBlock.absolute_boxes_
              ++ [Box.new .ABSOLUTE (some exampleAbsoluteNode)] },
          exampleEngine)
    ∧ (∃ r, LayoutEngine.formatNode 0 exampleFixedNode exampleBlock (exampleContaining 300)
        exampleEngine = .ok r)
    ∧ (LayoutEngine.formatNode 0 exampleFixedNode exampleBlock (exampleContaining 300)
        exampleEngine).toOption.map (fun r => r.2.2.root_fixed_boxes_.length) = some 1
    ∧ (∃ r, LayoutEngine.formatNode 0 exampleFixedNode exampleRootBlock (exampleContaining 300)
        exampleEngine = .ok r)
    ∧ (LayoutEngine.formatNode 0 exampleFixedNode exampleRootBlock (exampleContaining 300)
        exampleEngine).toOption.map
          (fun r => (r.2.1.boxes_.length, r.2.1.fixed_boxes_.map (fun b => b.id),
            r.2.2.root_fixed_boxes_.map (fun b => b.id)))
        = some (0, [BoxId.BLOCK], [BoxId.BLOCK])
    ∧ (LayoutEngine.formatNode 0 exampleFixedNode exampleBlock (exampleContaining 300)
        exampleEngine).toOption.map (fun r => r.2.1.fixed_boxes_.length) = some 0 :=
  ⟨(formatNode_positioned 0 exampleAbsoluteNode exampleBlock (exampleContaining 300)
      exampleEngine rfl).1 rfl,
    (formatNode_positioned 0 exampleFixedNode exampleBlock (exampleContaining 300)
      exampleEngine rfl).2.2 rfl rfl,
    by decide,
    (formatNode_positioned 0 exampleFixedNode exampleRootBlock (exampleContaining 300)
      exampleEngine rfl).2.2 rfl rfl,
    by decide, by decide⟩

theorem formatNode_fixed_not_root (fuel : Nat) (node : Node) (parent : Box)
    (container : Dimensions) (eng : LayoutEngine) (hid : node.id = .ELEMENT)
    (hpos : node.properties.POSITION = .FIXED) (hroot : parent.isRoot_ = false)
    (r : Option Box × Box × LayoutEngine)
    (h : LayoutEngine.formatNode fuel node parent container eng = .ok r) : r.2.1 = parent := by
  simp only [LayoutEngine.formatNode, LayoutEngine.formatNodeWith, hid, hpos, if_true,
    RenderContext.push, LayoutEngine.rootAddFixedElement] at h
  rw [if_neg (by decide)] at h
  split at h
  · simp at h
  · simp only [Except.ok.injEq] at h
    subst h
    exact withRootFixed_of_not_root _ _ hroot

/-- The root box as `formatNode` hands it back: a root element with one fixed child ends with
the child's block box in its fixed sequence, also when the fixed element is a grandchild
inside a block child, and so does the root box that the pass returns. -/
theorem formatNode_fixed_child_of_root :
    (LayoutEngine.formatNode 1 exampleFixedNode
        { Box.new .BLOCK (some exampleBodyNode) with isRoot_ := true } (exampleContaining 300)
        exampleEngine).toOption.map (fun r => r.2.1.fixed_boxes_.map (fun b => b.id))
      = some [BoxId.BLOCK]
    ∧ (LayoutEngine.formatNode 2 { exampleBlockNode with children := [exampleFixedNode] }
        exampleRootBlock (exampleContaining 300) exampleEngine).toOption.map
          (fun r => (r.2.1.boxes_.map (fun b => (b.id, b.fixed_boxes_.length)),
            r.2.1.fixed_boxes_.map (fun b => b.id)))
      = some ([(BoxId.BLOCK, 0)], [BoxId.BLOCK])
    ∧ (LayoutEngine.formatRoot 2
        { exampleBlockNode with children := [exampleFixedNode] } ⟨300, 0⟩
        (exampleContext exampleProperties)).toOption.map
          (fun root => (root.isRoot_, root.boxes_.length,
            root.fixed_boxes_.map (fun b => b.id)))
      = some (true, 0, [BoxId.BLOCK]) := by
  decide

/-! ## Heights -/

/-- The height loop keeps only its last iteration: after it, the content height is the
content height plus the margin+border+padding height of the last child. -/
theorem accumulateHeight_last (b last : Box) (h : b.boxes_.getLast? = some last) :
    b.accumulateHeight.dimensions_.content_.height
      = last.dimensions_.content_.height + last.getMBPHeight := by
  obtain ⟨init, hinit⟩ : ∃ init, b.boxes_ = init ++ [last] := by
    cases hb : b.boxes_ with
    | nil => simp [hb] at h
    | cons a t =>
      refine ⟨(a :: t).dropLast, ?_⟩
      rw [hb] at h
      have hne : (a :: t) ≠ [] := by simp
      have hl : (a :: t).getLast hne = last := by
        rw [List.getLast?_eq_getLast _ hne] at h
        exact Option.some.inj h
      rw [← hl, List.dropLast_append_getLast]
  simp [Box.accumulateHeight, Box.getChildren, hinit, List.foldl_append, Box.setContentHeight,
    Box.getDimensions]

/-- Evaluation for C25. A block holding a child of height 100 at `y = 0` and a child of
height 10 at `y = 100` (bottom edges 100 and 110) gets content height 10 from
`layoutChildren`; and a root laid out by the formatter over two block children of CSS
heights 100 and 10 (bottom edges 100 and 10) gets content height 10. -/
theorem layoutChildren_height_of_last_child :
    exampleStackedBlock.boxes_.map Box.bottomEdge = [100, 110]
    ∧ (BlockBox.layoutChildren (LayoutEngine.formatNodeFuel 0) exampleStackedBlock
        exampleEngine).toOption.map (fun r => r.1.dimensions_.content_.height) = some 10
    ∧ (LayoutEngine.formatRoot 2 exampleTwoChildrenNode ⟨300, 0⟩
        (exampleContext exampleProperties)).toOption.map
          (fun root => (root.dimensions_.content_.height, root.boxes_.map Box.bottomEdge))
        = some (10, [100, 10]) := by
  decide

/-! ## Render context stack -/

theorem formatChildren_ctx (fmt : Formatter) (hf : fmt.KeepsContext) :
    ∀ (nodes : List Node) (b : Box) (eng : LayoutEngine) (r : Box × LayoutEngine),
      Box.formatChildren fmt nodes b eng = .ok r → r.2.ctx_ = eng.ctx_ := by
  intro nodes
  induction nodes with
  | nil =>
    intro b eng r h
    simp only [Box.formatChildren, Except.ok.injEq] at h
    subst h
    rfl
  | cons child rest ih =>
    intro b eng r h
    simp only [Box.formatChildren] at h
    cases hc : fmt child b b.getDimensions eng with
    | error e => simp [hc] at h
    | ok r1 =>
      obtain ⟨o, b1, eng1⟩ := r1
      simp only [hc] at h
      exact (ih b1 eng1 r h).trans (hf _ _ _ _ _ hc)

theorem blockLayoutChildren_ctx (fmt : Formatter) (hf : fmt.KeepsContext) (b : Box)
    (eng : LayoutEngine) (r : Box × LayoutEngine)
    (h : BlockBox.layoutChildren fmt b eng = .ok r) : r.2.ctx_ = eng.ctx_ := by
  simp only [BlockBox.layoutChildren] at h
  cases hn : b.node_ with
  | none =>
    simp only [hn, Except.ok.injEq] at h
    subst h
    rfl
  | some node =>
    simp only [hn] at h
    cases hc : Box.formatChildren fmt node.children b eng with
    | error e => simp [hc] at h
    | ok r1 =>
      obtain ⟨b1, eng1⟩ := r1
      simp only [hc, Except.ok.injEq] at h
      subst h
      exact formatChildren_ctx fmt hf _ _ _ (b1, eng1) hc

theorem blockLayout_ctx (fmt : Formatter) (hf : fmt.KeepsContext) (b : Box)
    (containing : Dimensions) (eng : LayoutEngine) (r : Box × LayoutEngine)
    (h : BlockBox.layout fmt b containing eng = .ok r) : r.2.ctx_ = eng.ctx_ := by
  cases hn : b.node_ with
  | none =>
    simp only [BlockBox.layout, hn] at h
    split at h
    · simp at h
    · rename_i b1 eng1 hc
      simp only [Except.ok.injEq] at h
      subst h
      simpa using blockLayoutChildren_ctx fmt hf _ _ (b1, eng1) hc
  | some node =>
    by_cases hid : node.id = .ELEMENT
    · simp only [BlockBox.layout, hn, hid, if_true] at h
      split at h
      · simp at h
      · rename_i b1 eng1 hc
        simp only [Except.ok.injEq] at h
        subst h
        have k := blockLayoutChildren_ctx fmt hf _ _ (b1, eng1) hc
        simp only at k
        simp [k, RenderContext.pop_push]
    · simp only [BlockBox.layout, hn, hid, if_false] at h
      split at h
      · simp at h
      · rename_i b1 eng1 hc
        simp only [Except.ok.injEq] at h
        subst h
        simpa [hid] using blockLayoutChildren_ctx fmt hf _ _ (b1, eng1) hc

theorem inlineElementLayout_ctx (fmt : Formatter) (hf : fmt.KeepsContext) (b : Box)
    (containing : Dimensions) (eng : LayoutEngine) (r : Box × LayoutEngine)
    (h : InlineElementBox.layout fmt b containing eng = .ok r) : r.2.ctx_ = eng.ctx_ := by
  simp only [InlineElementBox.layout] at h
  split at h
  · simp at h
  · rename_i b1 eng1 hc
    simp only [Except.ok.injEq] at h
    subst h
    cases hn : b.node_ with
    | none =>
      simp only [Box.setContentWidth, hn, Except.ok.injEq, Prod.mk.injEq] at hc
      obtain ⟨_, rfl⟩ := hc
      rfl
    | some node =>
      simp only [Box.setContentWidth, hn] at hc
      exact formatChildren_ctx fmt hf _ _ _ (b1, eng1) hc

theorem boxLayout_ctx (fmt : Formatter) (hf : fmt.KeepsContext) (b : Box)
    (containing : Dimensions) (eng : LayoutEngine) (r : Box × LayoutEngine)
    (h : Box.layout fmt b containing eng = .ok r) : r.2.ctx_ = eng.ctx_ := by
  simp only [Box.layout] at h
  split at h
  · exact blockLayout_ctx fmt hf _ _ _ _ h
  · simp only [Except.ok.injEq] at h
    subst h
    rfl
  · exact inlineElementLayout_ctx fmt hf _ _ _ _ h
  · simp only [Except.ok.injEq] at h
    subst h
    rfl
  · simp only [Except.ok.injEq] at h
    subst h
    rfl

theorem closeOpenBox_ctx (fmt : Formatter) (hf : fmt.KeepsContext) (b : Box)
    (eng : LayoutEngine) (r : Box × LayoutEngine)
    (h : b.closeOpenBox fmt eng = .ok r) : r.2.ctx_ = eng.ctx_ := by
  simp only [Box.closeOpenBox] at h
  split at h
  · simp at h
  · split at h
    · simp at h
    · rename_i open1 eng1 hc
      simp only [Except.ok.injEq] at h
      subst h
      have k := boxLayout_ctx fmt hf _ _ _ _ hc
      exact k

theorem layoutInlineElement_ctx (fmt : Formatter) (hf : fmt.KeepsContext) (node : Node)
    (parent : Box) (eng : LayoutEngine) (r : Box × LayoutEngine)
    (h : LayoutEngine.layoutInlineElement fmt node parent eng = .ok r) :
    r.2.ctx_ = eng.ctx_ := by
  simp only [LayoutEngine.layoutInlineElement] at h
  split at h
  · simp at h
  · split at h
    · simp at h
    · rename_i ieb eng1 hc
      simp only [Except.ok.injEq] at h
      subst h
      have k := boxLayout_ctx fmt hf _ _ _ _ hc
      exact k

theorem layoutInlineTextLoop_ctx (fmt : Formatter) (hf : fmt.KeepsContext) (tnode : Text)
    (flag : Bool) :
    ∀ (fuel it : Nat) (width : FixedPoint) (parent : Box) (eng : LayoutEngine)
      (r : Box × LayoutEngine),
      LayoutEngine.layoutInlineTextLoop fmt tnode flag fuel it width parent eng = .ok r →
        r.2.ctx_ = eng.ctx_ := by
  intro fuel
  induction fuel with
  | zero =>
    intro it width parent eng r h
    simp only [LayoutEngine.layoutInlineTextLoop] at h
    split at h
    · simp only [Except.ok.injEq] at h
      subst h
      rfl
    · simp at h
  | succ fuel ih =>
    intro it width parent eng r h
    simp only [LayoutEngine.layoutInlineTextLoop] at h
    split at h
    · simp only [Except.ok.injEq] at h
      subst h
      rfl
    · split at h
      · simp at h
      · rename_i w1 p1 e1 hclosed
        have he1 : e1.ctx_ = eng.ctx_ := by
          split at hclosed
          · split at hclosed
            · simp at hclosed
            · rename_i p0 e0 hc
              simp only [Except.ok.injEq, Prod.mk.injEq] at hclosed
              obtain ⟨_, _, rfl⟩ := hclosed
              exact closeOpenBox_ctx fmt hf _ _ (p0, e0) hc
          · simp only [Except.ok.injEq, Prod.mk.injEq] at hclosed
            obtain ⟨_, _, rfl⟩ := hclosed
            rfl
        split at h
        · simp at h
        · simp at h
        · exact (ih _ _ _ _ _ h).trans he1

theorem layoutInlineText_ctx (fmt : Formatter) (hf : fmt.KeepsContext) (fuel : Nat)
    (node : Node) (parent : Box) (eng : LayoutEngine) (r : Box × LayoutEngine)
    (h : LayoutEngine.layoutInlineText fmt fuel node parent eng = .ok r) :
    r.2.ctx_ = eng.ctx_ := by
  simp only [LayoutEngine.layoutInlineText] at h
  split at h
  · simp at h
  · exact layoutInlineTextLoop_ctx fmt hf _ _ _ _ _ _ _ _ h

theorem formatNodeWith_ctx (fmt : Formatter) (hf : fmt.KeepsContext) (fuel : Nat) :
    (LayoutEngine.formatNodeWith fmt fuel).KeepsContext := by
  intro node parent container eng r h
  simp only [LayoutEngine.formatNodeWith] at h
  split at h
  · split at h
    · split at h
      · simp at h
      · rename_i box1 eng1 hc
        simp only [Except.ok.injEq] at h
        subst h
        have k := boxLayout_ctx fmt hf _ _ _ _ hc
        simp only at k
        simp [k, RenderContext.pop_push]
    · split at h
      · split at h
        · simp at h
        · rename_i box1 eng1 hc
          simp only [Except.ok.injEq] at h
          subst h
          have k := boxLayout_ctx fmt hf _ _ _ _ hc
          simp only [LayoutEngine.rootAddFixedElement] at k
          simp [k, RenderContext.pop_push]
      · split at h
        · simp only [Except.ok.injEq] at h
          subst h
          simp [RenderContext.pop_push]
        · split at h
          · simp at h
          · rename_i p1 eng1 hc
            simp only [Except.ok.injEq] at h
            subst h
            have k := layoutInlineElement_ctx fmt hf _ _ _ _ hc
            simp only at k
            simp [k, RenderContext.pop_push]
        · split at h
          · simp at h
          · rename_i box1 eng1 hc
            simp only [Except.ok.injEq] at h
            subst h
            have k := boxLayout_ctx fmt hf _ _ _ _ hc
            simp only at k
            simp [k, RenderContext.pop_push]
        all_goals simp at h
  · split at h
    · split at h
      · simp at h
      · rename_i p1 eng1 hc
        simp only [Except.ok.injEq] at h
        subst h
        exact layoutInlineText_ctx fmt hf _ _ _ _ (p1, eng1) hc
    · simp at h

theorem formatNodeFuel_ctx : ∀ fuel : Nat, (LayoutEngine.formatNodeFuel fuel).KeepsContext := by
  intro fuel
  induction fuel with
  | zero =>
    intro node parent container eng r h
    simp [LayoutEngine.formatNodeFuel] at h
  | succ fuel ih => exact formatNodeWith_ctx _ ih fuel

/-- Claim C24: whenever `formatNode` returns, at any recursion bound and on any of its return
paths (display none, absolute, fixed, inline, block, text), the render context stack is the
one it was called with, so its depth is unchanged; the same holds for `BlockBox::layout` on
any box. -/
theorem formatNode_restores_context (fuel : Nat) (node : Node) (parent : Box)
    (container : Dimensions) (eng : LayoutEngine) :
    (∀ r, LayoutEngine.formatNode fuel node parent container eng = .ok r →
        r.2.2.ctx_ = eng.ctx_ ∧ r.2.2.ctx_.depth = eng.ctx_.depth)
    ∧ (∀ (b : Box) (r : Box × LayoutEngine),
        BlockBox.layout (LayoutEngine.formatNodeFuel fuel) b container eng = .ok r →
          r.2.ctx_ = eng.ctx_ ∧ r.2.ctx_.depth = eng.ctx_.depth) := by
  constructor
  · intro r h
    have k := formatNodeWith_ctx _ (formatNodeFuel_ctx fuel) fuel _ _ _ _ _ h
    exact ⟨k, by rw [k]⟩
  · intro b r h
    have k := blockLayout_ctx _ (formatNodeFuel_ctx fuel) _ _ _ _ h
    exact ⟨k, by rw [k]⟩

/-- Witness for C24: the formatter returns on a `display: none` element, on an absolute
element, on a fixed element and on a body with a block child, each time with the context
depth it started with. -/
theorem formatNode_restores_context_witness :
    (∀ r, LayoutEngine.formatNode 2 exampleBodyNode exampleBlock (exampleContaining 300)
        exampleEngine = .ok r →
          r.2.2.ctx_ = exampleEngine.ctx_ ∧ r.2.2.ctx_.depth = exampleEngine.ctx_.depth)
    ∧ [exampleNoneNode, exampleAbsoluteNode, exampleFixedNode, exampleBodyNode].map
        (fun n => (LayoutEngine.formatNode 2 n exampleBlock (exampleContaining 300)
          exampleEngine).toOption.map (fun r => r.2.2.ctx_.depth))
        = [some 1, some 1, some 1, some 1]
    ∧ exampleEngine.ctx_.depth = 1 :=
  ⟨(formatNode_restores_context 2 exampleBodyNode exampleBlock (exampleContaining 300)
      exampleEngine).1, by decide, by decide⟩

/-! ## Text reflow -/

/-- Evaluation for C21. The text has the tokens `a` (30 wide) and `b` (150 wide); floats
narrow the bands above `y = 20` to 100. The line `a` is accepted at `y = 0`; the line `b` is
rejected at `y = 10`; the retry restarts at the first token of the text, so `a` is emitted a
second time (at `y = 20`) before `b` (at `y = 30`). -/
theorem reflowText_restarts_at_begin :
    (TextBox.reflowText 10 exampleTwoTokens exampleClearingFloats exampleLineMetrics
        (exampleContaining 300)).toOption.map TextBox.summary
      = some [(["a"], 0), (["a"], 20), (["b"], 30)] := by
  decide

theorem reflowTextLoop_stuck (fuel : Nat) :
    ∀ (cursor : Point) (y1 : FixedPoint),
      TextBox.reflowTextLoop exampleOneWideToken exampleStuckFloats exampleLineMetrics
        (exampleContaining 300) 0 fuel 0 cursor y1 100 [] = .error .outOfFuel := by
  induction fuel with
  | zero =>
    intro cursor y1
    simp [TextBox.reflowTextLoop, exampleOneWideToken]
  | succ fuel ih =>
    intro cursor y1
    simp only [TextBox.reflowTextLoop]
    simp [exampleOneWideToken, exampleWordB, exampleStuckFloats, exampleContaining]
    exact ih _ _

/-- Evaluation for C22. With a token that is 150 wide and floats that keep every band at
width 100, the retry loop is still running after any number of iterations: for every bound
the bounded loop runs out without having returned. -/
theorem reflowText_never_returns (fuel : Nat) :
    TextBox.reflowText fuel exampleOneWideToken exampleStuckFloats exampleLineMetrics
      (exampleContaining 300) = .error .outOfFuel := by
  simp only [TextBox.reflowText]
  have h : exampleStuckFloats.getWidthAtPosition
        (exampleStuckFloats.getCursor.y + exampleLineMetrics.offset_y)
        (exampleStuckFloats.getCursor.y + exampleLineMetrics.offset_y
          + exampleLineMetrics.line_height) (exampleContaining 300).content_.width
      - exampleStuckFloats.getCursor.x
      + exampleStuckFloats.getXAtPosition
        (exampleStuckFloats.getCursor.y + exampleLineMetrics.offset_y)
        (exampleStuckFloats.getCursor.y + exampleLineMetrics.offset_y
          + exampleLineMetrics.line_height) = 100 := by decide
  rw [h]
  exact reflowTextLoop_stuck fuel _ _

theorem sumAdvances_eq (words : List Word) :
    ∀ acc : FixedPoint, (∀ w ∈ words, w.advance ≠ []) →
      TextBox.sumAdvances words acc = .ok (acc + (words.map Word.width).sum) := by
  induction words with
  | nil => intro acc _; simp [TextBox.sumAdvances]
  | cons w rest ih =>
    intro acc h
    have hw : w.advance ≠ [] := h w (List.mem_cons_self _ _)
    obtain ⟨adv, hadv⟩ : ∃ adv, w.advance.getLast? = some adv := by
      cases hl : w.advance.getLast? with
      | none => exact absurd (List.getLast?_eq_none_iff.mp hl) hw
      | some adv => exact ⟨adv, rfl⟩
    have hrest : ∀ w' ∈ rest, w'.advance ≠ [] := fun w' hw' => h w' (List.mem_cons_of_mem _ hw')
    simp only [TextBox.sumAdvances, hadv, ih _ hrest, List.map_cons, List.sum_cons, Word.width]
    congr 1
    ring

/-- Counterexample to C23 as stated: a line of three words that each measure 30, with a space
advance of 5, measures 105, not 100. -/
theorem calculateWidth_three_words :
    (TextBox.calculateWidth exampleThreeWordLine).toOption = some 105
    ∧ (TextBox.calculateWidth exampleThreeWordLine).toOption ≠ some (30 + 30 + 30 + (3 - 1) * 5)
    ∧ (105 : FixedPoint) > 100 := by
  decide

/-- Claim C23, amended: for a line of `n` words (each with a non-empty advance vector) the
measured width is the sum of the words' advance widths plus one space advance per word,
`sum + n * space_advance`: the space after the last word is counted too. -/
theorem calculateWidth_counts_every_space (info : LineInfo) (l : Line)
    (hline : info.line_ = some l) (hadv : ∀ w ∈ l.line, w.advance ≠ []) :
    TextBox.calculateWidth info
      = .ok ((l.line.map Word.width).sum + l.line.length * l.space_advance) := by
  simp only [TextBox.calculateWidth, hline, sumAdvances_eq l.line 0 hadv]
  congr 1
  ring

/-- Witness for C23: the line of three words of 30 with space advance 5 measures
`90 + 3 * 5`. -/
theorem calculateWidth_counts_every_space_witness :
    TextBox.calculateWidth exampleThreeWordLine
      = .ok (([exampleWordA, exampleWordA, exampleWordA].map Word.width).sum
          + [exampleWordA, exampleWordA, exampleWordA].length * 5) :=
  calculateWidth_counts_every_space exampleThreeWordLine
    { line := [exampleWordA, exampleWordA, exampleWordA], space_advance := 5,
      is_end_line := false } rfl (by decide)

/-! ## Text alignment -/

theorem tdiv_two_remainder (a : Int) :
    -1 ≤ a - 2 * Int.tdiv a 2 ∧ a - 2 * Int.tdiv a 2 ≤ 1 := by
  rcases le_or_lt 0 a with h | h
  · rw [Int.tdiv_eq_ediv h (by decide)]
    omega
  · have h2 : Int.tdiv a 2 = -((-a) / 2) := by
      rw [← Int.tdiv_eq_ediv (by omega) (by decide), Int.neg_tdiv, neg_neg]
    rw [h2]
    omega

/-- Counterexample to C29 as stated: a line 100 wide that sits at horizontal offset 40 before
alignment is moved to offset 80 in a containing width of 300; the gap right of it is then
120, so the two gaps differ by 40. -/
theorem postParentLayout_center_with_offset :
    (TextBox.postParentLayout (exampleTextStyle .CENTER .LTR) (exampleContaining 300)
        (exampleTextBox 40)).line_.offset_.x = 80
    ∧ (exampleContaining 300).content_.width
        - (TextBox.postParentLayout (exampleTextStyle .CENTER .LTR) (exampleContaining 300)
            (exampleTextBox 40)).line_.offset_.x
        - (TextBox.postParentLayout (exampleTextStyle .CENTER .LTR) (exampleContaining 300)
            (exampleTextBox 40)).line_.width_ = 120 := by
  decide

/-- Claim C29, amended: for a text line with text-align center, `postParentLayout` sets the
horizontal offset to half of `containingWidth - lineWidth - previous offset` (C++ division)
and leaves the line width unchanged; when the previous offset is 0 the line is centered: the
gap left of it and the gap right of it differ by at most 1. -/
theorem postParentLayout_center (style : TextLayoutStyle) (containing : Dimensions)
    (t : TextBox) (hta : style.textAlign = .CENTER) :
    (TextBox.postParentLayout style containing t).line_.offset_.x
        = Int.tdiv (containing.content_.width - t.line_.width_ - t.line_.offset_.x) 2
    ∧ (TextBox.postParentLayout style containing t).line_.width_ = t.line_.width_
    ∧ (t.line_.offset_.x = 0 →
        -1 ≤ (containing.content_.width
                - (TextBox.postParentLayout style containing t).line_.offset_.x
                - (TextBox.postParentLayout style containing t).line_.width_)
              - (TextBox.postParentLayout style containing t).line_.offset_.x
        ∧ (containing.content_.width
                - (TextBox.postParentLayout style containing t).line_.offset_.x
                - (TextBox.postParentLayout style containing t).line_.width_)
              - (TextBox.postParentLayout style containing t).line_.offset_.x ≤ 1) := by
  have hx : (TextBox.postParentLayout style containing t).line_.offset_.x
      = Int.tdiv (containing.content_.width - t.line_.width_ - t.line_.offset_.x) 2 := by
    simp [TextBox.postParentLayout, hta, TextBox.setCenterAlign]
  have hw : (TextBox.postParentLayout style containing t).line_.width_ = t.line_.width_ := by
    simp [TextBox.postParentLayout, hta, TextBox.setCenterAlign]
  refine ⟨hx, hw, ?_⟩
  intro h0
  rw [hx, hw, h0]
  have h := tdiv_two_remainder (containing.content_.width - t.line_.width_ - 0)
  constructor <;> linarith [h.1, h.2]

/-- Witness for C29: a line 100 wide at offset 0 in a containing width of 301 is moved to
offset 100; the gap right of it is 101. -/
theorem postParentLayout_center_witness :
    ((TextBox.postParentLayout (exampleTextStyle .CENTER .LTR) (exampleContaining 301)
        (exampleTextBox 0)).line_.offset_.x
      = Int.tdiv ((exampleContaining 301).content_.width - (exampleTextBox 0).line_.width_
          - (exampleTextBox 0).line_.offset_.x) 2)
    ∧ (TextBox.postParentLayout (exampleTextStyle .CENTER .LTR) (exampleContaining 301)
        (exampleTextBox 0)).line_.offset_.x = 100 :=
  ⟨(postParentLayout_center (exampleTextStyle .CENTER .LTR) (exampleContaining 301)
      (exampleTextBox 0) rfl).1, by decide⟩

/-- Claim C30: text-align right puts the right edge of the line on the right edge of the
containing width; normal with right-to-left direction gives the same horizontal offset as
right; normal with left-to-right direction and left leave the offset unchanged. -/
theorem postParentLayout_right_and_left (style : TextLayoutStyle) (containing : Dimensions)
    (t : TextBox) :
    (style.textAlign = .RIGHT →
        (TextBox.postParentLayout style containing t).line_.offset_.x
            + (TextBox.postParentLayout style containing t).line_.width_
          = containing.content_.width)
    ∧ (style.textAlign = .NORMAL → style.direction = .RTL →
        (TextBox.postParentLayout style containing t).line_.offset_.x
          = (TextBox.postParentLayout { style with textAlign := .RIGHT } containing
              t).line_.offset_.x)
    ∧ (style.textAlign = .NORMAL → style.direction = .LTR →
        (TextBox.postParentLayout style containing t).line_.offset_.x = t.line_.offset_.x)
    ∧ (style.textAlign = .LEFT →
        (TextBox.postParentLayout style containing t).line_.offset_.x = t.line_.offset_.x) := by
  refine ⟨?_, ?_, ?_, ?_⟩
  · intro h
    simp [TextBox.postParentLayout, h, TextBox.setRightAlign]
  · intro h hd
    simp [TextBox.postParentLayout, h, hd, TextBox.setRightAlign]
  · intro h hd
    simp [TextBox.postParentLayout, h, hd]
  · intro h
    simp [TextBox.postParentLayout, h]

/-- Witness for C30: a line 100 wide at offset 40 in a containing width of 300 ends at offset
200 with text-align right, and stays at 40 with text-align left. -/
theorem postParentLayout_right_and_left_witness :
    ((TextBox.postParentLayout (exampleTextStyle .RIGHT .LTR) (exampleContaining 300)
        (exampleTextBox 40)).line_.offset_.x
      + (TextBox.postParentLayout (exampleTextStyle .RIGHT .LTR) (exampleContaining 300)
        (exampleTextBox 40)).line_.width_ = (exampleContaining 300).content_.width)
    ∧ (TextBox.postParentLayout (exampleTextStyle .LEFT .LTR) (exampleContaining 300)
        (exampleTextBox 40)).line_.offset_.x = (exampleTextBox 40).line_.offset_.x
    ∧ (TextBox.postParentLayout (exampleTextStyle .RIGHT .LTR) (exampleContaining 300)
        (exampleTextBox 40)).line_.offset_.x = 200 :=
  ⟨(postParentLayout_right_and_left (exampleTextStyle .RIGHT .LTR) (exampleContaining 300)
      (exampleTextBox 40)).1 rfl,
    (postParentLayout_right_and_left (exampleTextStyle .LEFT .LTR) (exampleContaining 300)
      (exampleTextBox 40)).2.2.2 rfl,
    by decide⟩

/-! ## Heights and inline-block boxes -/

/-- Claim C26: after `BlockBox::layoutHeight` (and after `InlineBlockBox::layoutHeight`), a
CSS height that is not auto is the content height, whatever the content height was before;
with CSS height auto the content height is left as it was. -/
theorem layoutHeight_overrides (ctx : RenderContext) (containing : Dimensions) (b : Box) :
    (ctx.top.HEIGHT.isAuto = false →
        (BlockBox.layoutHeight ctx containing b).dimensions_.content_.height
            = ctx.top.HEIGHT.compute containing.content_.height
          ∧ (InlineBlockBox.layoutHeight ctx.top containing b).dimensions_.content_.height
            = ctx.top.HEIGHT.compute containing.content_.height)
    ∧ (ctx.top.HEIGHT.isAuto = true →
        (BlockBox.layoutHeight ctx containing b).dimensions_.content_.height
            = b.dimensions_.content_.height
          ∧ (InlineBlockBox.layoutHeight ctx.top containing b).dimensions_.content_.height
            = b.dimensions_.content_.height) := by
  constructor <;> intro h <;>
    simp [BlockBox.layoutHeight, InlineBlockBox.layoutHeight, h, Box.setContentHeight]

/-- Witness for C26: a CSS height of 50 replaces the height 10 that the children of
`exampleStackedBlock` accumulated, and an auto height keeps it. -/
theorem layoutHeight_overrides_witness :
    ((BlockBox.layoutHeight ctxFixedHeight (exampleContaining 300)
          exampleStackedBlock.accumulateHeight).dimensions_.content_.height
        = ctxFixedHeight.top.HEIGHT.compute (exampleContaining 300).content_.height
      ∧ (InlineBlockBox.layoutHeight ctxFixedHeight.top (exampleContaining 300)
          exampleStackedBlock.accumulateHeight).dimensions_.content_.height
        = ctxFixedHeight.top.HEIGHT.compute (exampleContaining 300).content_.height)
    ∧ ((BlockBox.layoutHeight ctxAllAuto (exampleContaining 300)
          exampleStackedBlock.accumulateHeight).dimensions_.content_.height
        = exampleStackedBlock.accumulateHeight.dimensions_.content_.height
      ∧ (InlineBlockBox.layoutHeight ctxAllAuto.top (exampleContaining 300)
          exampleStackedBlock.accumulateHeight).dimensions_.content_.height
        = exampleStackedBlock.accumulateHeight.dimensions_.content_.height)
    ∧ (BlockBox.layoutHeight ctxFixedHeight (exampleContaining 300)
          exampleStackedBlock.accumulateHeight).dimensions_.content_.height = 50
    ∧ exampleStackedBlock.accumulateHeight.dimensions_.content_.height = 10 :=
  ⟨(layoutHeight_overrides ctxFixedHeight (exampleContaining 300)
      exampleStackedBlock.accumulateHeight).1 rfl,
    (layoutHeight_overrides ctxAllAuto (exampleContaining 300)
      exampleStackedBlock.accumulateHeight).2 rfl,
    by decide, by decide⟩

/-- Evaluation for C27. A non-replaced inline-block without children and with a CSS height of
50 ends with content height 50 and content origin `y = 0`, not `-50`: `layoutPosition` runs
before the height is known. -/
theorem handleLayout_origin_before_height :
    (InlineBlockBox.handleLayout exampleEngineOps (some exampleInlineBlockNode)
        ctxFixedHeight.top (exampleContaining 300) exampleBlock ⟨0, 0⟩).1.dimensions_.content_.y
      = 0
    ∧ (InlineBlockBox.handleLayout exampleEngineOps (some exampleInlineBlockNode)
        ctxFixedHeight.top (exampleContaining 300) exampleBlock
        ⟨0, 0⟩).1.dimensions_.content_.height = 50 := by
  decide

/-- Evaluation for C28. A replaced element of intrinsic size 10 by 20 without children, with
CSS width and height auto, ends with content height `20 * 65536` but content width 0, not
`10 * 65536`: `layoutChildren` overwrites an auto width with the widest child. -/
theorem handleLayout_replaced_auto_width :
    (InlineBlockBox.handleLayout exampleEngineOps (some exampleReplacedNode)
        exampleProperties (exampleContaining 300) exampleBlock
        ⟨0, 0⟩).1.dimensions_.content_.width = 0
    ∧ (InlineBlockBox.handleLayout exampleEngineOps (some exampleReplacedNode)
        exampleProperties (exampleContaining 300) exampleBlock
        ⟨0, 0⟩).1.dimensions_.content_.height = 20 * 65536
    ∧ (10 : Int) * fixed_point_scale = 655360 := by
  decide

/-- What `handleLayout` does for a replaced element without children on a box without
children: the content height is the intrinsic height scaled by 65536 or the resolved CSS
height, the content origin `y` is minus that height, and the content width is the resolved
CSS width or, when the CSS width is auto, 0. -/
theorem handleLayout_replaced_childless {E : Type} (ops : EngineOps E) (n : InlineBlockNode)
    (style : Properties) (containing : Dimensions) (b : Box) (eng : E)
    (hid : n.id = .ELEMENT) (hrep : n.isReplaced = true) (hch : n.children = [])
    (hb : b.boxes_ = []) :
    (InlineBlockBox.handleLayout ops (some n) style containing b eng).1.dimensions_.content_.height
        = (if style.HEIGHT.isAuto then n.h * fixed_point_scale
            else style.HEIGHT.compute containing.content_.height)
    ∧ (InlineBlockBox.handleLayout ops (some n) style containing b eng).1.dimensions_.content_.y
        = -(InlineBlockBox.handleLayout ops (some n) style containing b
              eng).1.dimensions_.content_.height
    ∧ (InlineBlockBox.handleLayout ops (some n) style containing b eng).1.dimensions_.content_.width
        = (if style.WIDTH.isAuto then 0 else style.WIDTH.compute containing.content_.width) := by
  cases hw : style.WIDTH.isAuto <;> cases hh : style.HEIGHT.isAuto <;>
    simp [InlineBlockBox.handleLayout, InlineBlockBox.layoutChildren,
      InlineBlockBox.formatChildren, InlineBlockBox.layoutPosition, Box.calculateHorzMPB,
      Box.calculateVertMPB, hid, hrep, hch, hb, hw, hh, Box.getChildren, Box.getDimensions,
      Box.setContentRect, Box.setContentWidth, Box.setContentHeight, Box.setContentX,
      Box.setContentY, Box.setMarginLeft, Box.setMarginRight, Box.setMarginTop,
      Box.setMarginBottom, Box.setPaddingLeft, Box.setPaddingRight, Box.setPaddingTop,
      Box.setPaddingBottom, Box.setBorderLeft, Box.setBorderRight, Box.setBorderTop,
      Box.setBorderBottom]

/-! ## Vertical alignment and justification -/

/-- Claim C31: when the vertical alignment is one of sub, super, top, text-top or text-bottom,
`postParentLayout` leaves the vertical offset of the line unchanged, whatever the text
alignment; with text-align justify it leaves the horizontal offset unchanged, and
`setJustify` itself changes nothing. -/
theorem postParentLayout_noop_keywords (style : TextLayoutStyle) (containing : Dimensions)
    (t : TextBox) :
    ((style.verticalAlign = .SUB ∨ style.verticalAlign = .SUPER ∨ style.verticalAlign = .TOP
        ∨ style.verticalAlign = .TEXT_TOP ∨ style.verticalAlign = .TEXT_BOTTOM) →
      (TextBox.postParentLayout style containing t).line_.offset_.y = t.line_.offset_.y)
    ∧ (style.textAlign = .JUSTIFY →
      (TextBox.postParentLayout style containing t).line_.offset_.x = t.line_.offset_.x)
    ∧ t.setJustify containing.content_.width = t := by
  refine ⟨?_, ?_, rfl⟩
  · intro h
    rcases h with h | h | h | h | h <;>
      cases hta : style.textAlign <;>
      simp [TextBox.postParentLayout, h, hta, TextBox.setRightAlign, TextBox.setCenterAlign,
        TextBox.setJustify] <;>
      split_ifs <;> rfl
  · intro h
    simp [TextBox.postParentLayout, h, TextBox.setJustify]

/-- Witness for C31: a justified line at offset (40, 7) with vertical-align sub, in a style
whose metrics are all non-zero, stays at (40, 7); with vertical-align baseline the same line
moves to vertical offset 23. -/
theorem postParentLayout_noop_keywords_witness :
    (TextBox.postParentLayout (exampleJustifiedStyle .SUB) (exampleContaining 300)
        exampleOffsetTextBox).line_.offset_.y = exampleOffsetTextBox.line_.offset_.y
    ∧ (TextBox.postParentLayout (exampleJustifiedStyle .SUB) (exampleContaining 300)
        exampleOffsetTextBox).line_.offset_.x = exampleOffsetTextBox.line_.offset_.x
    ∧ (TextBox.postParentLayout (exampleJustifiedStyle .SUB) (exampleContaining 300)
        exampleOffsetTextBox).line_.offset_ = ⟨40, 7⟩
    ∧ (TextBox.postParentLayout (exampleJustifiedStyle .BASELINE) (exampleContaining 300)
        exampleOffsetTextBox).line_.offset_.y = 23 :=
  ⟨(postParentLayout_noop_keywords (exampleJustifiedStyle .SUB) (exampleContaining 300)
      exampleOffsetTextBox).1 (Or.inl rfl),
    (postParentLayout_noop_keywords (exampleJustifiedStyle .SUB) (exampleContaining 300)
      exampleOffsetTextBox).2.1 rfl,
    by decide, by decide⟩

/-! ## Line boxes -/

theorem lineLayout_fold (cs : List Box) (w h : FixedPoint) :
    cs.foldl
      (fun (acc : FixedPoint × FixedPoint) child =>
        (acc.1 + (child.getMBPWidth + child.getDimensions.content_.width),
          max acc.2 child.getDimensions.content_.height)) (w, h)
      = (w + (cs.map (fun c => c.getMBPWidth + c.dimensions_.content_.width)).sum,
          (cs.map (fun c => c.dimensions_.content_.height)).foldl max h) := by
  induction cs generalizing w h with
  | nil => simp
  | cons c cs ih =>
    simp only [List.foldl_cons, List.map_cons, List.sum_cons]
    rw [ih]
    simp [Box.getDimensions, add_assoc]

theorem foldl_max_bounds (l : List Int) (h : Int) :
    h ≤ l.foldl max h ∧ (∀ x ∈ l, x ≤ l.foldl max h)
      ∧ (l.foldl max h = h ∨ l.foldl max h ∈ l) := by
  induction l generalizing h with
  | nil => simp
  | cons a l ih =>
    obtain ⟨k1, k2, k3⟩ := ih (max h a)
    simp only [List.foldl_cons, List.mem_cons]
    refine ⟨le_trans (le_max_left h a) k1, ?_, ?_⟩
    · intro x hx
      rcases hx with hx | hx
      · rw [hx]
        exact le_trans (le_max_right h a) k1
      · exact k2 x hx
    · rcases k3 with k3 | k3
      · rw [k3]
        rcases max_choice h a with hm | hm
        · exact Or.inl hm
        · exact Or.inr (Or.inl hm)
      · exact Or.inr (Or.inr k3)

theorem lineLayout_dimensions (b : Box) :
    (LineBox.layout b).dimensions_.content_.width
        = (b.boxes_.map (fun c => c.getMBPWidth + c.dimensions_.content_.width)).sum
    ∧ (LineBox.layout b).dimensions_.content_.height
        = (b.boxes_.map (fun c => c.dimensions_.content_.height)).foldl max 0 := by
  have k := lineLayout_fold b.boxes_ 0 0
  simp only [zero_add] at k
  constructor
  · show (List.foldl _ (0, 0) b.boxes_).1 = _
    rw [k]
  · show (List.foldl _ (0, 0) b.boxes_).2 = _
    rw [k]

theorem lineLayout_boxes (b : Box) :
    (LineBox.layout b).boxes_ = b.boxes_ ∧ (LineBox.layout b).id = b.id
      ∧ (LineBox.layout b).cursor_ = b.cursor_ := by
  simp [LineBox.layout, Box.setContentWidth, Box.setContentHeight]

/-- Counterexample to C32 as stated: the only child of the line has content height -10, so the
maximum of the children's content heights is -10, but `LineBox::layout` sets the content
height of the line to 0. The formatter builds such a line for an inline element whose child
is an empty block with bottom margin -10. -/
theorem lineLayout_negative_child :
    exampleNegativeLine.boxes_.map (fun c => c.dimensions_.content_.height) = [-10]
    ∧ (LineBox.layout exampleNegativeLine).dimensions_.content_.height = 0
    ∧ (Box.layout (LayoutEngine.formatNodeFuel 0) exampleNegativeLine (exampleContaining 300)
        exampleEngine).toOption.map (fun r => r.1.dimensions_.content_.height) = some 0
    ∧ (LayoutEngine.formatNode 5 exampleInlineNegativeNode exampleBlock (exampleContaining 300)
        exampleEngine).toOption.map
          (fun r => r.2.1.boxes_.map
            (fun l => (l.id, l.boxes_.map (fun c => c.dimensions_.content_.height),
              (LineBox.layout l).dimensions_.content_.height)))
        = some [(BoxId.LINE, [-10], 0)] := by
  decide

/-- Claim C32, amended: `LineBox::layout` always succeeds, whatever the containing dimensions
and with the same result for all of them; afterwards the content width of the line is the sum
over its children of MBP width plus content width, and its content height is the maximum of 0
and the children's content heights: it is at least 0 and at least every child's content
height, and it is 0 or the content height of one of the children; for a line without children
both are 0. The children are not changed. -/
theorem lineLayout_sum_and_max (fmt : Formatter) (b : Box) (containing : Dimensions)
    (eng : LayoutEngine) (hid : b.id = .LINE) :
    Box.layout fmt b containing eng = .ok (LineBox.layout b, eng)
    ∧ (LineBox.layout b).dimensions_.content_.width
        = (b.boxes_.map (fun c => c.getMBPWidth + c.dimensions_.content_.width)).sum
    ∧ 0 ≤ (LineBox.layout b).dimensions_.content_.height
    ∧ (∀ c ∈ b.boxes_,
        c.dimensions_.content_.height ≤ (LineBox.layout b).dimensions_.content_.height)
    ∧ ((LineBox.layout b).dimensions_.content_.height = 0
        ∨ ∃ c ∈ b.boxes_,
            c.dimensions_.content_.height = (LineBox.layout b).dimensions_.content_.height)
    ∧ (b.boxes_ = [] → (LineBox.layout b).dimensions_.content_.width = 0
        ∧ (LineBox.layout b).dimensions_.content_.height = 0)
    ∧ (LineBox.layout b).boxes_ = b.boxes_ := by
  obtain ⟨hw, hh⟩ := lineLayout_dimensions b
  obtain ⟨k1, k2, k3⟩ :=
    foldl_max_bounds (b.boxes_.map (fun c => c.dimensions_.content_.height)) 0
  refine ⟨?_, hw, ?_, ?_, ?_, ?_, (lineLayout_boxes b).1⟩
  · simp [Box.layout, hid]
  · rw [hh]
    exact k1
  · intro c hc
    rw [hh]
    exact k2 _ (List.mem_map_of_mem _ hc)
  · rw [hh]
    rcases k3 with k3 | k3
    · exact Or.inl k3
    · obtain ⟨c, hc, hce⟩ := List.mem_map.mp k3
      exact Or.inr ⟨c, hc, hce⟩
  · intro he
    rw [hw, hh, he]
    simp

/-- Witness for C32: a line holding a text box 30 wide and 12 high with left margin 2 and an
inline element box 50 wide and 20 high gets content width 82 and content height 20, in a
containing width of 300 as in one of 10. -/
theorem lineLayout_sum_and_max_witness :
    Box.layout (LayoutEngine.formatNodeFuel 0) exampleTwoChildLine (exampleContaining 300)
        exampleEngine = .ok (LineBox.layout exampleTwoChildLine, exampleEngine)
    ∧ Box.layout (LayoutEngine.formatNodeFuel 0) exampleTwoChildLine (exampleContaining 10)
        exampleEngine = .ok (LineBox.layout exampleTwoChildLine, exampleEngine)
    ∧ (LineBox.layout exampleTwoChildLine).dimensions_.content_.width = 82
    ∧ (LineBox.layout exampleTwoChildLine).dimensions_.content_.height = 20 :=
  ⟨(lineLayout_sum_and_max (LayoutEngine.formatNodeFuel 0) exampleTwoChildLine
      (exampleContaining 300) exampleEngine rfl).1,
    (lineLayout_sum_and_max (LayoutEngine.formatNodeFuel 0) exampleTwoChildLine
      (exampleContaining 10) exampleEngine rfl).1,
    by decide, by decide⟩

theorem getOpenBox_append (b : Box)
    (h : b.boxes_ = [] ∨ ∃ last, b.boxes_.getLast? = some last ∧ last.id ≠ .LINE) :
    b.getOpenBox
      = ((((Box.new .LINE none).setContentWidth b.dimensions_.content_.width).setContentX
            b.cursor_.x).setContentY b.cursor_.y |>.setContentWidth b.getWidthAtCursor,
          { b with boxes_ := b.boxes_ ++
              [(((Box.new .LINE none).setContentWidth b.dimensions_.content_.width).setContentX
                  b.cursor_.x).setContentY b.cursor_.y |>.setContentWidth
                    b.getWidthAtCursor] }) := by
  rcases h with h | ⟨last, hl, hid⟩
  · simp [Box.getOpenBox, h, Box.addChild, Box.setLastChild, Box.getDimensions]
  · simp [Box.getOpenBox, hl, hid, Box.addChild, Box.setLastChild, Box.getDimensions]

theorem getOpenBox_reuse (b last : Box) (hl : b.boxes_.getLast? = some last)
    (hid : last.id = .LINE) :
    b.getOpenBox
      = (((last.setContentX b.cursor_.x).setContentY b.cursor_.y).setContentWidth
            b.getWidthAtCursor,
          { b with boxes_ := b.boxes_.dropLast ++
              [((last.setContentX b.cursor_.x).setContentY b.cursor_.y).setContentWidth
                  b.getWidthAtCursor] }) := by
  simp [Box.getOpenBox, hl, hid, Box.setLastChild]

theorem getWidthAtCursor_boxes (b : Box) (cs : List Box) :
    Box.getWidthAtCursor { b with boxes_ := cs } = b.getWidthAtCursor := rfl

theorem getOpenBox_shape (b : Box) :
    ∃ (xs : List Box) (line : Box), line.id = BoxId.LINE
      ∧ b.getOpenBox
          = (((line.setContentX b.cursor_.x).setContentY b.cursor_.y).setContentWidth
                b.getWidthAtCursor,
              { b with boxes_ := xs ++
                  [((line.setContentX b.cursor_.x).setContentY b.cursor_.y).setContentWidth
                      b.getWidthAtCursor] }) := by
  cases hl : b.boxes_.getLast? with
  | none =>
    refine ⟨b.boxes_, (Box.new .LINE none).setContentWidth b.dimensions_.content_.width,
      rfl, ?_⟩
    exact getOpenBox_append b (Or.inl (List.getLast?_eq_none_iff.mp hl))
  | some last =>
    by_cases hid : last.id = .LINE
    · exact ⟨b.boxes_.dropLast, last, hid, getOpenBox_reuse b last hl hid⟩
    · refine ⟨b.boxes_, (Box.new .LINE none).setContentWidth b.dimensions_.content_.width,
        rfl, ?_⟩
      exact getOpenBox_append b (Or.inr ⟨last, hl, hid⟩)

theorem getOpenBox_idempotent (b : Box) : b.getOpenBox.2.getOpenBox = b.getOpenBox := by
  obtain ⟨xs, line, hid, h⟩ := getOpenBox_shape b
  rw [h]
  have hl : (xs ++ [((line.setContentX b.cursor_.x).setContentY b.cursor_.y).setContentWidth
      b.getWidthAtCursor]).getLast?
      = some (((line.setContentX b.cursor_.x).setContentY b.cursor_.y).setContentWidth
          b.getWidthAtCursor) := by simp
  have hid2 : (((line.setContentX b.cursor_.x).setContentY b.cursor_.y).setContentWidth
      b.getWidthAtCursor).id = .LINE := hid
  simp only []
  rw [getOpenBox_reuse _ _ hl hid2]
  simp [Box.setContentX, Box.setContentY, Box.setContentWidth, getWidthAtCursor_boxes]

/-- Claim C33: `getOpenBox` returns the last child of the box, and that child is a line box;
when the child sequence is empty or its last child is not a line box, exactly one new line box
is appended, and otherwise nothing is appended: the last child, a line box, is handed out and
keeps its own children; a second call returns the same box and leaves the parent as the first
call left it; the content origin of the returned line is the cursor and its content width is
`getWidthAtCursor`; cursor, dimensions and floats of the parent are not changed. -/
theorem getOpenBox_reuses_or_appends (b : Box) :
    b.getOpenBox.2.boxes_.getLast? = some b.getOpenBox.1
    ∧ b.getOpenBox.1.id = .LINE
    ∧ ((b.boxes_ = [] ∨ ∃ last, b.boxes_.getLast? = some last ∧ last.id ≠ .LINE) →
        b.getOpenBox.2.boxes_ = b.boxes_ ++ [b.getOpenBox.1]
        ∧ b.getOpenBox.1.boxes_ = [])
    ∧ (∀ last, b.boxes_.getLast? = some last → last.id = .LINE →
        b.getOpenBox.2.boxes_ = b.boxes_.dropLast ++ [b.getOpenBox.1]
        ∧ b.getOpenBox.2.boxes_.length = b.boxes_.length
        ∧ b.getOpenBox.1.boxes_ = last.boxes_)
    ∧ b.getOpenBox.2.getOpenBox = b.getOpenBox
    ∧ b.getOpenBox.1.dimensions_.content_.x = b.cursor_.x
    ∧ b.getOpenBox.1.dimensions_.content_.y = b.cursor_.y
    ∧ b.getOpenBox.1.dimensions_.content_.width = b.getWidthAtCursor
    ∧ b.getOpenBox.2.cursor_ = b.cursor_
    ∧ b.getOpenBox.2.dimensions_ = b.dimensions_
    ∧ b.getOpenBox.2.left_floats_ = b.left_floats_
    ∧ b.getOpenBox.2.right_floats_ = b.right_floats_ := by
  refine ⟨?_, ?_, ?_, ?_, getOpenBox_idempotent b, ?_⟩
  · obtain ⟨xs, line, _, h⟩ := getOpenBox_shape b
    rw [h]
    simp
  · obtain ⟨xs, line, hid, h⟩ := getOpenBox_shape b
    rw [h]
    exact hid
  · intro h
    rw [getOpenBox_append b h]
    exact ⟨rfl, rfl⟩
  · intro last hl hid
    rw [getOpenBox_reuse b last hl hid]
    refine ⟨rfl, ?_, rfl⟩
    have hne : b.boxes_ ≠ [] := by
      intro he
      rw [he] at hl
      simp at hl
    simp only [List.length_append, List.length_dropLast, List.length_singleton]
    have hpos : 0 < b.boxes_.length := List.length_pos.mpr hne
    omega
  · obtain ⟨xs, line, _, h⟩ := getOpenBox_shape b
    rw [h]
    simp [Box.setContentX, Box.setContentY, Box.setContentWidth]

/-- Witness for C33: on a container of width 300 with the cursor at (7, 50) inside a left
float 50 wide, whose only child is a block box, `getOpenBox` appends a line box at (7, 50) of
width 250; when the last child is a line box with two children, that line is returned with
its two children and the container keeps its two children. -/
theorem getOpenBox_reuses_or_appends_witness :
    (exampleFloatContainerWithBlock.getOpenBox.2.boxes_
        = exampleFloatContainerWithBlock.boxes_ ++ [exampleFloatContainerWithBlock.getOpenBox.1]
      ∧ exampleFloatContainerWithBlock.getOpenBox.1.boxes_ = [])
    ∧ (exampleFloatContainerWithLine.getOpenBox.2.boxes_
        = exampleFloatContainerWithLine.boxes_.dropLast
            ++ [exampleFloatContainerWithLine.getOpenBox.1]
      ∧ exampleFloatContainerWithLine.getOpenBox.2.boxes_.length
        = exampleFloatContainerWithLine.boxes_.length
      ∧ exampleFloatContainerWithLine.getOpenBox.1.boxes_ = exampleTwoChildLine.boxes_)
    ∧ exampleFloatContainerWithBlock.getOpenBox.2.boxes_.map (fun c => c.id)
        = [BoxId.BLOCK, BoxId.LINE]
    ∧ exampleFloatContainerWithLine.getOpenBox.2.boxes_.map (fun c => c.id)
        = [BoxId.BLOCK, BoxId.LINE]
    ∧ exampleFloatContainerWithBlock.getOpenBox.1.dimensions_.content_ = ⟨7, 50, 250, 0⟩
    ∧ exampleFloatContainerWithLine.getOpenBox.1.dimensions_.content_ = ⟨7, 50, 250, 0⟩ :=
  ⟨(getOpenBox_reuses_or_appends exampleFloatContainerWithBlock).2.2.1
      (Or.inr ⟨exampleBlock, rfl, by decide⟩),
    (getOpenBox_reuses_or_appends exampleFloatContainerWithLine).2.2.2.1
      exampleTwoChildLine rfl rfl,
    by decide, by decide, by decide, by decide⟩

theorem closeOpenBox_line (fmt : Formatter) (b last : Box) (eng : LayoutEngine)
    (hl : b.boxes_.getLast? = some last) (hid : last.id = .LINE) :
    b.closeOpenBox fmt eng
      = .ok ({ b with
                boxes_ := b.boxes_.dropLast ++ [LineBox.layout last],
                cursor_ :=
                  ⟨Box.getXAtCursor { b with cursor_ := ⟨b.cursor_.x,
                      b.cursor_.y + (LineBox.layout last).dimensions_.content_.height⟩ },
                    b.cursor_.y + (LineBox.layout last).dimensions_.content_.height⟩ },
              eng) := by
  simp only [Box.closeOpenBox, hl, Box.layout, hid, Box.setLastChild, Box.getDimensions]
  rfl

/-- Counterexample to C34 as stated: the open line holds one child of content height -10, so
the maximum content height of the line's children is -10, but `closeOpenBox` leaves the
vertical cursor at 50. The same happens, with the cursor staying at 0, on the line that the
formatter builds for an inline element whose child is an empty block with bottom margin
-10. -/
theorem closeOpenBox_negative_child :
    exampleFloatContainerWithNegativeLine.boxes_.map
        (fun l => (l.id, l.boxes_.map (fun c => c.dimensions_.content_.height)))
      = [(BoxId.LINE, [-10])]
    ∧ exampleFloatContainerWithNegativeLine.cursor_.y = 50
    ∧ (exampleFloatContainerWithNegativeLine.closeOpenBox (LayoutEngine.formatNodeFuel 0)
        exampleEngine).toOption.map (fun r => r.1.cursor_.y) = some 50
    ∧ ((LayoutEngine.formatNode 5 exampleInlineNegativeNode exampleBlock (exampleContaining 300)
        exampleEngine).toOption.bind
          (fun r => (r.2.1.closeOpenBox (LayoutEngine.formatNodeFuel 0) r.2.2).toOption)).map
            (fun q => q.1.cursor_.y) = some 0 := by
  decide

/-- Claim C34, amended: on a box whose last child is a line box, `closeOpenBox` succeeds; it
lays that line out in place (the children of the box are otherwise the same, and so are the
children of the line), advances the vertical cursor by the content height the layout gave
the line, which is the maximum of 0 and the content heights of the line's children, and
sets the horizontal cursor to `getXAtCursor` evaluated with the new vertical cursor (and the horizontal cursor as it was);
the engine is not changed. -/
theorem closeOpenBox_advances_cursor (fmt : Formatter) (b last : Box) (eng : LayoutEngine)
    (hl : b.boxes_.getLast? = some last) (hid : last.id = .LINE) :
    ∃ b1, b.closeOpenBox fmt eng = .ok (b1, eng)
      ∧ b1.boxes_ = b.boxes_.dropLast ++ [LineBox.layout last]
      ∧ b1.boxes_.length = b.boxes_.length
      ∧ (LineBox.layout last).boxes_ = last.boxes_
      ∧ (LineBox.layout last).id = .LINE
      ∧ b1.cursor_.y = b.cursor_.y + (LineBox.layout last).dimensions_.content_.height
      ∧ 0 ≤ (LineBox.layout last).dimensions_.content_.height
      ∧ (∀ c ∈ last.boxes_,
          c.dimensions_.content_.height ≤ (LineBox.layout last).dimensions_.content_.height)
      ∧ ((LineBox.layout last).dimensions_.content_.height = 0
          ∨ ∃ c ∈ last.boxes_,
              c.dimensions_.content_.height
                = (LineBox.layout last).dimensions_.content_.height)
      ∧ b1.cursor_.x
          = Box.getXAtCursor { b with cursor_ := { b.cursor_ with y := b1.cursor_.y } } := by
  obtain ⟨hw, hh⟩ := lineLayout_dimensions last
  obtain ⟨k1, k2, k3⟩ :=
    foldl_max_bounds (last.boxes_.map (fun c => c.dimensions_.content_.height)) 0
  refine ⟨_, closeOpenBox_line fmt b last eng hl hid, rfl, ?_, (lineLayout_boxes last).1,
    (lineLayout_boxes last).2.1.trans hid, rfl, ?_, ?_, ?_, rfl⟩
  · have hne : b.boxes_ ≠ [] := by
      intro he
      rw [he] at hl
      simp at hl
    have hpos : 0 < b.boxes_.length := List.length_pos.mpr hne
    simp only [List.length_append, List.length_dropLast, List.length_singleton]
    omega
  · rw [hh]
    exact k1
  · intro c hc
    rw [hh]
    exact k2 _ (List.mem_map_of_mem _ hc)
  · rw [hh]
    rcases k3 with k3 | k3
    · exact Or.inl k3
    · obtain ⟨c, hc, hce⟩ := List.mem_map.mp k3
      exact Or.inr ⟨c, hc, hce⟩

/-- Witness for C34: the container with the cursor at (7, 50) and an open line whose children
are 12 and 20 high ends with the cursor at (50, 70): 20 further down, and right of the left
float, which is 50 wide; it still has its two children. -/
theorem closeOpenBox_advances_cursor_witness :
    (∃ b1, exampleFloatContainerWithLine.closeOpenBox (LayoutEngine.formatNodeFuel 0)
          exampleEngine = .ok (b1, exampleEngine)
      ∧ b1.boxes_
          = exampleFloatContainerWithLine.boxes_.dropLast ++ [LineBox.layout exampleTwoChildLine]
      ∧ b1.cursor_.y = exampleFloatContainerWithLine.cursor_.y
          + (LineBox.layout exampleTwoChildLine).dimensions_.content_.height)
    ∧ (exampleFloatContainerWithLine.closeOpenBox (LayoutEngine.formatNodeFuel 0)
        exampleEngine).toOption.map (fun r => (r.1.cursor_, r.1.boxes_.map (fun c => c.id)))
        = some (⟨50, 70⟩, [BoxId.BLOCK, BoxId.LINE]) := by
  refine ⟨?_, by decide⟩
  obtain ⟨b1, h1, h2, _, _, _, h3, _⟩ :=
    closeOpenBox_advances_cursor (LayoutEngine.formatNodeFuel 0) exampleFloatContainerWithLine
      exampleTwoChildLine exampleEngine rfl rfl
  exact ⟨b1, h1, h2, h3⟩

/-! ## Width algorithm of block and inline-block boxes -/

theorem layoutWidth_keeps_content (ctx : RenderContext) (containing : Dimensions) (b : Box)
    (hw : ctx.top.WIDTH.isAuto = false) :
    (BlockBox.layoutWidth ctx containing b).dimensions_.content_ = b.dimensions_.content_ := by
  cases hl : ctx.top.MARGIN_LEFT.isAuto <;> cases hr : ctx.top.MARGIN_RIGHT.isAuto <;>
    simp [BlockBox.layoutWidth, hw, hl, hr, Box.setBorderLeft, Box.setBorderRight,
      Box.setPaddingLeft, Box.setPaddingRight, Box.setMarginLeft, Box.setMarginRight,
      Box.getDimensions] <;>
    split_ifs <;> rfl

/-- Claim C35 fails on this input: with `width: 401` in a containing width of 1000, a fresh
block box still has content width 0 after `BlockBox::layoutWidth`, while the resolved CSS
width is 401 and `InlineBlockBox::layoutWidth` stores 401; the root box that `formatNode`
lays out for such an element has content width 0 as well. -/
theorem layoutWidth_fixed_width_not_stored :
    ctxCentered.top.WIDTH.isAuto = false
    ∧ ctxCentered.top.WIDTH.compute (exampleContaining 1000).content_.width = 401
    ∧ exampleBlock.dimensions_.content_.width = 0
    ∧ (BlockBox.layoutWidth ctxCentered (exampleContaining 1000)
        exampleBlock).dimensions_.content_.width = 0
    ∧ (InlineBlockBox.layoutWidth ctxCentered.top (exampleContaining 1000)
        exampleBlock).dimensions_.content_.width = 401
    ∧ (LayoutEngine.formatRoot 2 exampleFixedWidthNode ⟨1000, 0⟩
        (exampleContext exampleProperties)).toOption.map
          (fun root => (root.dimensions_.content_.width, root.dimensions_.margin_.left,
            root.dimensions_.margin_.right)) = some (0, 299, 299) := by
  decide

/-- Claim C36: for every style, containing block and box, `BlockBox::layoutWidth` and
`InlineBlockBox::layoutWidth` leave the same left margin and the same right margin on the
box (and the same borders and paddings), whether the width and each margin are auto or
not. -/
theorem layoutWidth_same_margins (ctx : RenderContext) (containing : Dimensions) (b : Box) :
    (BlockBox.layoutWidth ctx containing b).dimensions_.margin_.left
        = (InlineBlockBox.layoutWidth ctx.top containing b).dimensions_.margin_.left
    ∧ (BlockBox.layoutWidth ctx containing b).dimensions_.margin_.right
        = (InlineBlockBox.layoutWidth ctx.top containing b).dimensions_.margin_.right
    ∧ (BlockBox.layoutWidth ctx containing b).dimensions_.border_
        = (InlineBlockBox.layoutWidth ctx.top containing b).dimensions_.border_
    ∧ (BlockBox.layoutWidth ctx containing b).dimensions_.padding_
        = (InlineBlockBox.layoutWidth ctx.top containing b).dimensions_.padding_ := by
  cases hw : ctx.top.WIDTH.isAuto <;> cases hl : ctx.top.MARGIN_LEFT.isAuto <;>
    cases hr : ctx.top.MARGIN_RIGHT.isAuto <;>
    simp [BlockBox.layoutWidth, InlineBlockBox.layoutWidth, Box.calculateHorzMPB, hw, hl, hr,
      Width.compute_of_isAuto, Box.setBorderLeft, Box.setBorderRight, Box.setPaddingLeft,
      Box.setPaddingRight, Box.setMarginLeft, Box.setMarginRight, Box.setContentWidth,
      Box.getDimensions, Box.getMBPWidth]

/-! ## Open line boxes -/

theorem ids_replace_last (xs : List Box) (last c : Box) (hl : xs.getLast? = some last)
    (hid : c.id = last.id) :
    (xs.dropLast ++ [c]).map (fun x => x.id) = xs.map (fun x => x.id)
      ∧ (xs.dropLast ++ [c]).getLast? = some c := by
  have hx : xs.dropLast ++ [last] = xs := List.dropLast_append_getLast? last hl
  refine ⟨?_, by simp⟩
  conv_rhs => rw [← hx]
  simp [hid]

theorem closeOpenBox_keeps_lines (fmt : Formatter) (b last : Box) (eng : LayoutEngine)
    (hl : b.boxes_.getLast? = some last) (hid : last.id = .LINE) (r : Box × LayoutEngine)
    (h : b.closeOpenBox fmt eng = .ok r) :
    r.1.boxes_.map (fun x => x.id) = b.boxes_.map (fun x => x.id)
      ∧ r.1.boxes_.getLast? = some (LineBox.layout last) := by
  rw [closeOpenBox_line fmt b last eng hl hid] at h
  simp only [Except.ok.injEq] at h
  subst h
  exact ids_replace_last b.boxes_ last (LineBox.layout last) hl (lineLayout_boxes last).2.1

theorem getOpenBox_keeps_lines (b last : Box) (hl : b.boxes_.getLast? = some last)
    (hid : last.id = .LINE) :
    b.getOpenBox.2.boxes_.map (fun x => x.id) = b.boxes_.map (fun x => x.id)
      ∧ b.getOpenBox.2.boxes_.getLast? = some b.getOpenBox.1
      ∧ b.getOpenBox.1.id = .LINE
      ∧ b.getOpenBox.1.boxes_ = last.boxes_ := by
  rw [getOpenBox_reuse b last hl hid]
  obtain ⟨k1, k2⟩ := ids_replace_last b.boxes_ last
    (((last.setContentX b.cursor_.x).setContentY b.cursor_.y).setContentWidth
      b.getWidthAtCursor) hl rfl
  exact ⟨k1, k2, hid, rfl⟩

theorem layoutInlineTextLoop_keeps_lines (fmt : Formatter) (tnode : Text) (flag : Bool) :
    ∀ (fuel it : Nat) (width : FixedPoint) (parent : Box) (eng : LayoutEngine)
      (r : Box × LayoutEngine),
      (∃ last, parent.boxes_.getLast? = some last ∧ last.id = .LINE) →
      LayoutEngine.layoutInlineTextLoop fmt tnode flag fuel it width parent eng = .ok r →
        r.1.boxes_.map (fun x => x.id) = parent.boxes_.map (fun x => x.id) := by
  intro fuel
  induction fuel with
  | zero =>
    intro it width parent eng r _ h
    simp only [LayoutEngine.layoutInlineTextLoop] at h
    split at h
    · simp only [Except.ok.injEq] at h
      subst h
      rfl
    · simp at h
  | succ fuel ih =>
    intro it width parent eng r hopen h
    simp only [LayoutEngine.layoutInlineTextLoop] at h
    split at h
    · simp only [Except.ok.injEq] at h
      subst h
      rfl
    · split at h
      · simp at h
      · rename_i w1 p1 e1 hclosed
        have hp1 : p1.boxes_.map (fun x => x.id) = parent.boxes_.map (fun x => x.id)
            ∧ ∃ last, p1.boxes_.getLast? = some last ∧ last.id = .LINE := by
          split at hclosed
          · split at hclosed
            · simp at hclosed
            · rename_i p0 e0 hc
              simp only [Except.ok.injEq, Prod.mk.injEq] at hclosed
              obtain ⟨_, rfl, rfl⟩ := hclosed
              obtain ⟨last, hl, hid⟩ := hopen
              obtain ⟨k1, k2⟩ := closeOpenBox_keeps_lines fmt parent last eng hl hid _ hc
              obtain ⟨j1, j2, j3, _⟩ := getOpenBox_keeps_lines p0 (LineBox.layout last) k2
                ((lineLayout_boxes last).2.1.trans hid)
              exact ⟨j1.trans k1, _, j2, j3⟩
          · simp only [Except.ok.injEq, Prod.mk.injEq] at hclosed
            obtain ⟨_, rfl, rfl⟩ := hclosed
            exact ⟨rfl, hopen⟩
        obtain ⟨hids, last1, hl1, hid1⟩ := hp1
        split at h
        · simp at h
        · simp at h
        · rename_i txt open_ _ hlast
          have hlast2 : p1.boxes_.getLast? = some open_ := hlast
          have ho : open_ = last1 := by
            rw [hl1] at hlast2
            exact (Option.some.inj hlast2).symm
          obtain ⟨k1, k2⟩ := ids_replace_last p1.boxes_ last1 (open_.addChild txt) hl1
            (by rw [ho]; rfl)
          have k := ih _ _ _ _ _ ⟨open_.addChild txt, k2, by rw [ho]; exact hid1⟩ h
          exact k.trans (k1.trans hids)

theorem getOpenBox_open (b : Box) :
    ∃ last, b.getOpenBox.2.boxes_.getLast? = some last ∧ last.id = .LINE := by
  obtain ⟨xs, line, hid, h⟩ := getOpenBox_shape b
  rw [h]
  exact ⟨((line.setContentX b.cursor_.x).setContentY b.cursor_.y).setContentWidth
    b.getWidthAtCursor, by simp, hid⟩

theorem layoutInlineText_keeps_lines (fmt : Formatter) (fuel : Nat) (node : Node) (b : Box)
    (eng : LayoutEngine) (r : Box × LayoutEngine)
    (h : LayoutEngine.layoutInlineText fmt fuel node b eng = .ok r) :
    r.1.boxes_.map (fun x => x.id) = b.getOpenBox.2.boxes_.map (fun x => x.id) := by
  simp only [LayoutEngine.layoutInlineText] at h
  split at h
  · simp at h
  · exact layoutInlineTextLoop_keeps_lines fmt _ _ _ _ _ _ _ _ (getOpenBox_open b) h

/-- Counterexample to C38 as stated: after `closeOpenBox` on a container whose open line has
two children, `getOpenBox` hands out a line box with the same two children, and the
container still has one block child and one line child; and `layoutInlineText` on a text of
three hard-ended lines leaves one line box holding the three text boxes, at vertical offsets
0, 16 and 32. -/
theorem closeOpenBox_line_handed_out_again :
    exampleFloatContainerWithLine.boxes_.map (fun c => (c.id, c.boxes_.map (fun t => t.id)))
        = [(BoxId.BLOCK, []), (BoxId.LINE, [BoxId.TEXT, BoxId.INLINE_ELEMENT])]
    ∧ (exampleFloatContainerWithLine.closeOpenBox (LayoutEngine.formatNodeFuel 0)
        exampleEngine).toOption.map
          (fun r => (r.1.getOpenBox.1.id, r.1.getOpenBox.1.boxes_.map (fun t => t.id),
            r.1.getOpenBox.2.boxes_.map (fun c => c.id)))
        = some (BoxId.LINE, [BoxId.TEXT, BoxId.INLINE_ELEMENT], [BoxId.BLOCK, BoxId.LINE])
    ∧ (LayoutEngine.layoutInlineText (LayoutEngine.formatNodeFuel 0) 5 exampleHardLinesNode
        exampleBlock exampleEngine).toOption.map
          (fun r => r.1.boxes_.map
            (fun c => (c.id, c.boxes_.map (fun t => (t.id, t.dimensions_.content_.y)))))
        = some [(BoxId.LINE, [(BoxId.TEXT, 0), (BoxId.TEXT, 16), (BoxId.TEXT, 32)])] := by
  decide

/-- Claim C38, amended: after `closeOpenBox` on a box whose last child is a line box, the next
`getOpenBox` hands out that same line box again: the line as `closeOpenBox` laid it out, with
the same children, moved to the new cursor and given the width at the new cursor; nothing is
appended, so the kinds of the children of the box are unchanged. Whenever `layoutInlineText`
returns, the kinds of the children of the box are those that its first `getOpenBox` left:
no line box is added per closed line. -/
theorem closeOpenBox_then_getOpenBox_same_line (fmt : Formatter) (b last : Box)
    (eng : LayoutEngine) (hl : b.boxes_.getLast? = some last) (hid : last.id = .LINE) :
    (∃ b1, b.closeOpenBox fmt eng = .ok (b1, eng)
      ∧ b1.getOpenBox.1
          = (((LineBox.layout last).setContentX b1.cursor_.x).setContentY
              b1.cursor_.y).setContentWidth b1.getWidthAtCursor
      ∧ b1.getOpenBox.1.id = .LINE
      ∧ b1.getOpenBox.1.boxes_ = last.boxes_
      ∧ b1.getOpenBox.2.boxes_.map (fun x => x.id) = b.boxes_.map (fun x => x.id)
      ∧ b1.getOpenBox.2.boxes_.length = b.boxes_.length)
    ∧ b.getOpenBox.2.boxes_.map (fun x => x.id) = b.boxes_.map (fun x => x.id)
    ∧ ∀ (fuel : Nat) (node : Node) (r : Box × LayoutEngine),
        LayoutEngine.layoutInlineText fmt fuel node b eng = .ok r →
          r.1.boxes_.map (fun x => x.id) = b.boxes_.map (fun x => x.id) := by
  have hc := closeOpenBox_line fmt b last eng hl hid
  obtain ⟨k1, k2⟩ := closeOpenBox_keeps_lines fmt b last eng hl hid _ hc
  have hidl : (LineBox.layout last).id = .LINE := (lineLayout_boxes last).2.1.trans hid
  obtain ⟨j1, _, j3, j4⟩ := getOpenBox_keeps_lines _ (LineBox.layout last) k2 hidl
  have hids := (getOpenBox_keeps_lines b last hl hid).1
  refine ⟨⟨_, hc, ?_, j3, j4.trans (lineLayout_boxes last).1, j1.trans k1, ?_⟩, hids, ?_⟩
  · rw [getOpenBox_reuse _ (LineBox.layout last) k2 hidl]
  · have h := congrArg List.length (j1.trans k1)
    simpa using h
  · intro fuel node r h
    exact (layoutInlineText_keeps_lines fmt fuel node b eng r h).trans hids

/-- Witness for C38: on the container with an open line of two children, the line handed out
after `closeOpenBox` is the closed line; and `layoutInlineText` of three hard-ended lines on
that container returns with one block child and one line child, the line now holding five
boxes. -/
theorem closeOpenBox_then_getOpenBox_same_line_witness :
    (∃ b1, exampleFloatContainerWithLine.closeOpenBox (LayoutEngine.formatNodeFuel 0)
          exampleEngine = .ok (b1, exampleEngine)
      ∧ b1.getOpenBox.1.boxes_ = exampleTwoChildLine.boxes_
      ∧ b1.getOpenBox.2.boxes_.map (fun x => x.id)
          = exampleFloatContainerWithLine.boxes_.map (fun x => x.id))
    ∧ (LayoutEngine.layoutInlineText (LayoutEngine.formatNodeFuel 0) 5 exampleHardLinesNode
        exampleFloatContainerWithLine exampleEngine).toOption.map
          (fun r => r.1.boxes_.map (fun c => (c.id, c.boxes_.length)))
        = some [(BoxId.BLOCK, 0), (BoxId.LINE, 5)] := by
  refine ⟨?_, by decide⟩
  obtain ⟨⟨b1, h1, _, _, h2, h3, _⟩, _⟩ :=
    closeOpenBox_then_getOpenBox_same_line (LayoutEngine.formatNodeFuel 0)
      exampleFloatContainerWithLine exampleTwoChildLine exampleEngine rfl rfl
  exact ⟨b1, h1, h2, h3⟩

/-! ## Margin box of a block with a fixed width -/

theorem marginBoxWidth_eq (b : Box) (w : FixedPoint) :
    b.marginBoxWidth w = b.getMBPWidth + w := by
  simp only [Box.marginBoxWidth, Box.getMBPWidth]
  ring

theorem tdiv_two_even (a : Int) : a % 2 = 0 ↔ 2 * Int.tdiv a 2 = a := by
  rcases le_or_lt 0 a with h | h
  · rw [Int.tdiv_eq_ediv h (by decide)]
    omega
  · have h2 : Int.tdiv a 2 = -((-a) / 2) := by
      rw [← Int.tdiv_eq_ediv (by omega) (by decide), Int.neg_tdiv, neg_neg]
    rw [h2]
    omega

theorem tdiv_two_odd (a : Int) (h : a % 2 ≠ 0) :
    a - 2 * Int.tdiv a 2 = 1 ∨ a - 2 * Int.tdiv a 2 = -1 := by
  rcases le_or_lt 0 a with h0 | h0
  · rw [Int.tdiv_eq_ediv h0 (by decide)]
    omega
  · have h2 : Int.tdiv a 2 = -((-a) / 2) := by
      rw [← Int.tdiv_eq_ediv (by omega) (by decide), Int.neg_tdiv, neg_neg]
    rw [h2]
    omega

theorem layoutWidth_marginBox (ctx : RenderContext) (containing : Dimensions) (b : Box)
    (hw : ctx.top.WIDTH.isAuto = false) :
    (BlockBox.layoutWidth ctx containing b).marginBoxWidth
        (ctx.top.WIDTH.compute containing.content_.width)
      = if ctx.top.MARGIN_LEFT.isAuto = true ∧ ctx.top.MARGIN_RIGHT.isAuto = true then
          containing.content_.width - BlockBox.resolvedUnderflow ctx containing
            + 2 * Int.tdiv (BlockBox.resolvedUnderflow ctx containing) 2
        else containing.content_.width := by
  cases hl : ctx.top.MARGIN_LEFT.isAuto <;> cases hr : ctx.top.MARGIN_RIGHT.isAuto <;>
    simp [BlockBox.layoutWidth, BlockBox.resolvedUnderflow, BlockBox.resolvedMBPWidth,
      Box.marginBoxWidth, hw, hl, hr, Width.compute_of_isAuto,
      Box.setMarginLeft, Box.setMarginRight, Box.setPaddingLeft, Box.setPaddingRight,
      Box.setBorderLeft, Box.setBorderRight, Box.getMBPWidth, Box.setContentWidth,
      Box.getDimensions] <;>
    ring_nf

/-- Counterexample to C39 as stated: width 401 with both margins auto in a containing width of
1000 has the odd underflow 599; both margins become 299 and the margin box is 999 wide. -/
theorem layoutWidth_odd_underflow_short :
    ctxCentered.top.WIDTH.isAuto = false
    ∧ ctxCentered.top.MARGIN_LEFT.isAuto = true
    ∧ ctxCentered.top.MARGIN_RIGHT.isAuto = true
    ∧ BlockBox.resolvedUnderflow ctxCentered (exampleContaining 1000) = 599
    ∧ (BlockBox.layoutWidth ctxCentered (exampleContaining 1000)
        exampleBlock).dimensions_.margin_.left = 299
    ∧ (BlockBox.layoutWidth ctxCentered (exampleContaining 1000)
        exampleBlock).dimensions_.margin_.right = 299
    ∧ (BlockBox.layoutWidth ctxCentered (exampleContaining 1000) exampleBlock).marginBoxWidth
        (ctxCentered.top.WIDTH.compute (exampleContaining 1000).content_.width) = 999
    ∧ (exampleContaining 1000).content_.width = 1000 := by
  decide

/-- Claim C39, amended: for a block with non-auto CSS width, after `layoutWidth` the left
margin, border and padding, the resolved CSS width, and the right padding, border and margin
add up to the containing width when at most one horizontal margin is auto, for an underflow
of either sign; when both margins are auto the sum is the containing width for every even
underflow, and for every odd underflow it differs from the containing width by 1 (halving
truncates). -/
theorem layoutWidth_fills_containing (ctx : RenderContext) (containing : Dimensions) (b : Box)
    (hw : ctx.top.WIDTH.isAuto = false) :
    ((ctx.top.MARGIN_LEFT.isAuto = false ∨ ctx.top.MARGIN_RIGHT.isAuto = false) →
        (BlockBox.layoutWidth ctx containing b).marginBoxWidth
            (ctx.top.WIDTH.compute containing.content_.width)
          = containing.content_.width)
    ∧ (ctx.top.MARGIN_LEFT.isAuto = true → ctx.top.MARGIN_RIGHT.isAuto = true →
        (BlockBox.resolvedUnderflow ctx containing % 2 = 0 →
          (BlockBox.layoutWidth ctx containing b).marginBoxWidth
              (ctx.top.WIDTH.compute containing.content_.width)
            = containing.content_.width)
        ∧ (BlockBox.resolvedUnderflow ctx containing % 2 ≠ 0 →
          (BlockBox.layoutWidth ctx containing b).marginBoxWidth
                (ctx.top.WIDTH.compute containing.content_.width)
              = containing.content_.width - 1
            ∨ (BlockBox.layoutWidth ctx containing b).marginBoxWidth
                (ctx.top.WIDTH.compute containing.content_.width)
              = containing.content_.width + 1)) := by
  have key := layoutWidth_marginBox ctx containing b hw
  refine ⟨?_, ?_⟩
  · intro h
    rw [key, if_neg]
    rintro ⟨h1, h2⟩
    rcases h with h | h
    · rw [h1] at h
      cases h
    · rw [h2] at h
      cases h
  · intro hl hr
    rw [key, if_pos ⟨hl, hr⟩]
    have heven := tdiv_two_even (BlockBox.resolvedUnderflow ctx containing)
    constructor
    · intro h
      have := heven.mp h
      linarith
    · intro h
      rcases tdiv_two_odd (BlockBox.resolvedUnderflow ctx containing) h with hd | hd
      · left
        linarith
      · right
        linarith

/-- Witness for C39: width 100 with margins 10 and 20 fills a containing width of 300; width
401 with both margins auto fills a containing width of 1001 (underflow 600, margins 300 and
300), and with width 401 in a containing width of 300 (underflow -101, margins -50 and -50)
the margin box is 301 wide. -/
theorem layoutWidth_fills_containing_witness :
    (BlockBox.layoutWidth ctxFixedMargins (exampleContaining 300) exampleBlock).marginBoxWidth
        (ctxFixedMargins.top.WIDTH.compute (exampleContaining 300).content_.width)
      = (exampleContaining 300).content_.width
    ∧ (BlockBox.layoutWidth ctxCentered (exampleContaining 1001) exampleBlock).marginBoxWidth
        (ctxCentered.top.WIDTH.compute (exampleContaining 1001).content_.width)
      = (exampleContaining 1001).content_.width
    ∧ (BlockBox.layoutWidth ctxCentered (exampleContaining 1001)
        exampleBlock).dimensions_.margin_.left = 300
    ∧ (BlockBox.layoutWidth ctxCentered (exampleContaining 300) exampleBlock).marginBoxWidth
        (ctxCentered.top.WIDTH.compute (exampleContaining 300).content_.width) = 301 :=
  ⟨(layoutWidth_fills_containing ctxFixedMargins (exampleContaining 300) exampleBlock rfl).1
      (Or.inl rfl),
    ((layoutWidth_fills_containing ctxCentered (exampleContaining 1001) exampleBlock rfl).2
      rfl rfl).1 (by decide),
    by decide, by decide⟩

end xhtml

namespace css

/-! ## Length resolver -/

/-- Claim C15: a length built from `(p, "%")` evaluates to `(p / 100) * ref` for every
reference length, whatever the resolution and the font of the context; `(50, "%")` against
200 gives 100 at 72 dpi. -/
theorem evaluate_percent (p ref : ℚ) (ctx : xhtml.FontRenderContext) :
    (CssLength.new p "%").evaluate ctx ref = p / 100 * ref
    ∧ (CssLength.new 50 "%").evaluate (xhtml.exampleFontContext 72) 200 = 100 := by
  constructor
  · simp [CssLength.new, CssLength.evaluate, CssLength.isAuto]
  · simp [CssLength.new, CssLength.evaluate, CssLength.isAuto]
    norm_num

/-- Claim C16: a length of `v` inches evaluates to `v * dpi` for every resolution and every
reference length; one inch evaluates to exactly the resolution. -/
theorem evaluate_inch (v ref : ℚ) (ctx : xhtml.FontRenderContext) :
    (CssLength.new v "in").evaluate ctx ref = v * ctx.getDPI
    ∧ (CssLength.new 1 "in").evaluate ctx ref = ctx.getDPI := by
  constructor <;> simp [CssLength.new, CssLength.evaluate, CssLength.isAuto]

theorem new_unrecognised (v : ℚ) (units : String) (h : units ∉ recognisedUnits) :
    CssLength.new v units = { param_ := .VALUE, value_ := v, units_ := .NUMBER } := by
  simp only [recognisedUnits, List.mem_cons, List.mem_singleton, List.not_mem_nil, or_false,
    not_or] at h
  obtain ⟨h1, h2, h3, h4, h5, h6, h7, h8, h9⟩ := h
  simp [CssLength.new, h1, h2, h3, h4, h5, h6, h7, h8, h9]

/-- Counterexample to C17 as stated: the unit string `furlong` is not recognised, and the
length built from `(5, "furlong")` has the value 5, not 0. -/
theorem new_unrecognised_keeps_value :
    "furlong" ∉ recognisedUnits
    ∧ (CssLength.new 5 "furlong").units_ = .NUMBER
    ∧ (CssLength.new 5 "furlong").value_ = 5
    ∧ (CssLength.new 5 "furlong").value_ ≠ 0 := by
  have h : "furlong" ∉ recognisedUnits := by decide
  rw [new_unrecognised 5 "furlong" h]
  exact ⟨h, rfl, rfl, by norm_num⟩

/-- Claim C17, amended: constructing a length from a value `v` and a unit string that is not
one of em, ex, in, cm, mm, pt, pc, px, % yields (the constructor is total) a length with the
NUMBER unit and the value `v`; its value is 0 only when `v` is 0. -/
theorem new_unrecognised_number_unit (v : ℚ) (units : String) (h : units ∉ recognisedUnits) :
    (CssLength.new v units).units_ = .NUMBER
    ∧ (CssLength.new v units).value_ = v
    ∧ ((CssLength.new v units).value_ = 0 ↔ v = 0) := by
  rw [new_unrecognised v units h]
  exact ⟨rfl, rfl, Iff.rfl⟩

/-- Witness for C17: the unit string `furlong`. -/
theorem new_unrecognised_number_unit_witness :
    (CssLength.new 5 "furlong").units_ = .NUMBER
    ∧ (CssLength.new 5 "furlong").value_ = 5
    ∧ ((CssLength.new 5 "furlong").value_ = 0 ↔ (5 : ℚ) = 0) :=
  new_unrecognised_number_unit 5 "furlong" (by decide)

/-- Claim C18: constructing a length from a value `v` and an unrecognised unit string yields
(the constructor is total) a length that is not auto, keeps the value `v`, has the NUMBER
unit, and evaluates as the plain number `v`, to `v * dpi / 72 * 0.75`, whatever the reference
length. -/
theorem new_unrecognised_evaluates_as_number (v ref : ℚ) (units : String)
    (ctx : xhtml.FontRenderContext) (h : units ∉ recognisedUnits) :
    (CssLength.new v units).isAuto = false
    ∧ (CssLength.new v units).value_ = v
    ∧ (CssLength.new v units).units_ = .NUMBER
    ∧ (CssLength.new v units).evaluate ctx ref = v * ctx.getDPI / 72 * (3 / 4)
    ∧ (CssLength.new v units).evaluate ctx ref
        = ({ param_ := .VALUE, value_ := v, units_ := .NUMBER } : CssLength).evaluate ctx ref := by
  rw [new_unrecognised v units h]
  simp [CssLength.evaluate, CssLength.isAuto]

/-- Witness for C18: `(4, "furlong")` evaluates to 3 at 72 dpi. -/
theorem new_unrecognised_evaluates_as_number_witness :
    (CssLength.new 4 "furlong").evaluate (xhtml.exampleFontContext 72) 0
        = 4 * (xhtml.exampleFontContext 72).getDPI / 72 * (3 / 4)
    ∧ (4 : ℚ) * (xhtml.exampleFontContext 72).getDPI / 72 * (3 / 4) = 3 :=
  ⟨(new_unrecognised_evaluates_as_number 4 0 "furlong" (xhtml.exampleFontContext 72)
      (by decide)).2.2.2.1,
    by norm_num [xhtml.exampleFontContext, xhtml.FontRenderContext.getDPI]⟩

/-! ## Font-size keyword table -/

/-- Once the static table is filled, `get_font_size_table` hands it back whatever the
resolution it is called with. -/
theorem get_font_size_table_cached (res : List ℚ) (ppi : ℚ) (h : res ≠ []) :
    get_font_size_table res ppi = res := by
  cases res with
  | nil => exact absurd rfl h
  | cons a t => rfl

/-- Claim C19 fails on this input: at 100 dpi the first entry of the freshly computed table
is 12.5, which is not an integer and differs from the rounded-up value 13; the seven entries
after it are rounded up. -/
theorem font_size_table_first_entry_unrounded :
    (get_font_size_table [] 100).get? 0 = some (25 / 2)
    ∧ (¬ ∃ n : ℤ, (25 / 2 : ℚ) = n)
    ∧ ((⌈(9 / 72 * 100 : ℚ) * 1⌉ : ℤ) : ℚ) = 13
    ∧ (25 / 2 : ℚ) ≠ 13
    ∧ get_font_size_table [] 100 = [25 / 2, 14, 17, 19, 20, 23, 25, 29] := by
  refine ⟨by decide!, ?_, ?_, by norm_num, by decide!⟩
  · rintro ⟨n, hn⟩
    have h2 : ((2 * n : ℤ) : ℚ) = ((25 : ℤ) : ℚ) := by
      push_cast
      linarith
    have h3 : 2 * n = 25 := by exact_mod_cast h2
    omega
  · have : ⌈(9 / 72 * 100 : ℚ) * 1⌉ = 13 := by
      rw [Int.ceil_eq_iff]
      constructor <;> norm_num
    rw [this]
    norm_num

/-- The table computed while the static vector is still empty has eight entries, and the
seven entries after the first are integers, for every resolution. -/
theorem font_size_table_shape (ppi : ℚ) :
    (get_font_size_table [] ppi).length = 8
    ∧ ∀ i, 1 ≤ i → i < 8 → ∃ n : ℤ, (get_font_size_table [] ppi).get? i = some (n : ℚ) := by
  refine ⟨by simp [get_font_size_table], ?_⟩
  intro i h1 h8
  interval_cases i <;> exact ⟨_, rfl⟩

/-- The products are those of `double`: at 400 dpi the second entry is 56, because the
binary64 product `50 * 1.1` lies above 55, where the exact product is 55. -/
theorem font_size_table_binary64 :
    get_font_size_table [] 400 = [50, 56, 65, 73, 80, 90, 100, 115]
    ∧ roundDouble (11 / 10) = 2476979795053773 / 2251799813685248
    ∧ roundDouble (50 * roundDouble (11 / 10)) = 7740561859543041 / 140737488355328
    ∧ (55 : ℚ) < 7740561859543041 / 140737488355328
    ∧ ⌈(9 / 72 * 400 : ℚ) * (11 / 10)⌉ = 55 := by
  refine ⟨by decide!, by decide!, by decide!, by norm_num, ?_⟩
  rw [Int.ceil_eq_iff]
  constructor <;> norm_num

/-- Evaluation for C20: the keyword with table index 0 resolves to 18 at 144 dpi when it is
the first resolution in the process, but to 9 at the same 144 dpi when an earlier call was
made at 72 dpi, because the table filled by that call is reused. -/
theorem getFontSize_depends_on_first_dpi :
    ((FontSize.absolute 0).getFontSize [] (xhtml.exampleFontContext 144) 0).1 = .ok 18
    ∧ ((FontSize.absolute 0).getFontSize
        ((FontSize.absolute 0).getFontSize [] (xhtml.exampleFontContext 72) 0).2
        (xhtml.exampleFontContext 144) 0).1 = .ok 9 := by
  have h144 : (get_font_size_table [] 144).get? 0 = some 18 := by decide!
  have h72a : (get_font_size_table [] 72).get? 0 = some 9 := by decide!
  have h72 : (get_font_size_table (get_font_size_table [] 72) 144).get? 0 = some 9 := by
    decide!
  constructor
  · simp only [FontSize.getFontSize, FontSize.absolute, xhtml.exampleFontContext,
      xhtml.FontRenderContext.getDPI, if_true, h144]
  · simp only [FontSize.getFontSize, FontSize.absolute, xhtml.exampleFontContext,
      xhtml.FontRenderContext.getDPI, if_true, h72a, h72]

/-! ## Absolute units -/

theorem evaluate_absolute_units (ctx : xhtml.FontRenderContext) (ref : ℚ) :
    (CssLength.new 1 "in").evaluate ctx ref = ctx.getDPI
    ∧ (CssLength.new 72 "pt").evaluate ctx ref = ctx.getDPI
    ∧ (CssLength.new 6 "pc").evaluate ctx ref = ctx.getDPI
    ∧ (CssLength.new 96 "px").evaluate ctx ref = ctx.getDPI
    ∧ (CssLength.new (254 / 100) "cm").evaluate ctx ref = ctx.getDPI * (16129 / 2500)
    ∧ (CssLength.new (254 / 10) "mm").evaluate ctx ref = ctx.getDPI * (16129 / 25)
    ∧ (CssLength.new 10 "mm").evaluate ctx ref
        = 100 * (CssLength.new 1 "cm").evaluate ctx ref := by
  refine ⟨?_, ?_, ?_, ?_, ?_, ?_, ?_⟩ <;>
    simp [CssLength.new, CssLength.evaluate, CssLength.isAuto] <;> ring

/-- Claim C37 fails on this input: at 96 dpi the lengths 1in, 72pt, 6pc and 96px all evaluate
to 96, but 2.54cm evaluates to 619.3536 and 25.4mm to 61935.36; 1cm evaluates to 243.84 and
10mm to 24384. -/
theorem evaluate_metric_units_inverted :
    (CssLength.new 1 "in").evaluate (xhtml.exampleFontContext 96) 0 = 96
    ∧ (CssLength.new 72 "pt").evaluate (xhtml.exampleFontContext 96) 0 = 96
    ∧ (CssLength.new 6 "pc").evaluate (xhtml.exampleFontContext 96) 0 = 96
    ∧ (CssLength.new 96 "px").evaluate (xhtml.exampleFontContext 96) 0 = 96
    ∧ (CssLength.new (254 / 100) "cm").evaluate (xhtml.exampleFontContext 96) 0
        = 6193536 / 10000
    ∧ (CssLength.new (254 / 10) "mm").evaluate (xhtml.exampleFontContext 96) 0
        = 6193536 / 100
    ∧ (CssLength.new 1 "cm").evaluate (xhtml.exampleFontContext 96) 0 = 24384 / 100
    ∧ (CssLength.new 10 "mm").evaluate (xhtml.exampleFontContext 96) 0 = 24384 := by
  refine ⟨?_, ?_, ?_, ?_, ?_, ?_, ?_, ?_⟩ <;>
    simp [CssLength.new, CssLength.evaluate, CssLength.isAuto, xhtml.exampleFontContext,
      xhtml.FontRenderContext.getDPI] <;> norm_num

end css
